import Mathlib

/-!
# Bareflank Windows driver: the IOCTL queue (`bfdrivers/src/arch/windows/queue.c`)

A shallow embedding of the driver's control plane: the module registry
(`pmodules`, `g_num_pmodules`), the selected vcpu (`g_vcpuid`), the eight
`ioctl_*` operations and the dispatcher `bareflankEvtIoDeviceControl`.

Conventions of the embedding.

* The C globals are the first three fields of `State`.  The state also carries
  the part of the outside world the code acts on: the executable regions handed
  out by `platform_alloc_rwe` that are still allocated (`heap`) and the ordered
  log of every call that leaves the translation unit (`trace`).
* Every value that an external function returns is read from an `Ext` record.
  One record holds the results for one entry into the driver; no operation calls
  the same external function twice, except `platform_free_rwe`, which returns
  nothing.
* A result of `none` means that the C program performs an out-of-bounds memory
  access at that point (its behaviour is undefined).  Functions that make no
  memory access of their own (`ioctl_stop_vmm`, `ioctl_start_vmm`,
  `ioctl_vmm_status`, `ioctl_set_vcpuid`) are total.
* A pointer to request memory is passed as the content found there, `none`
  standing for `NULL`: bytes for `char *` and for the descriptor structure, the
  integer itself for `int64_t *` and `uint64_t *`.
* `g_num_pmodules` is an `int64_t`; it only ever moves between 0 and
  `MAX_NUM_MODULES`, so no wrap-around is modelled for the increment.
* Constants that `driver.h` supplies and that are not part of `queue.c` are the
  fields of `Config`.
-/

namespace Bareflank

/-- Constants that `queue.c` takes from `driver.h` and the headers behind it. -/
structure Config where
  /-- Number of slots of the array `pmodules`. -/
  MAX_NUM_MODULES : Nat
  BF_SUCCESS : Int
  BF_IOCTL_SUCCESS : Int
  BF_IOCTL_FAILURE : Int
  IOCTL_ADD_MODULE : Nat
  IOCTL_LOAD_VMM : Nat
  IOCTL_UNLOAD_VMM : Nat
  IOCTL_START_VMM : Nat
  IOCTL_STOP_VMM : Nat
  IOCTL_DUMP_VMM : Nat
  IOCTL_VMM_STATUS : Nat
  IOCTL_SET_VCPUID : Nat
  /-- The value of `sizeof(struct debug_ring_resources_t)`. -/
  sizeof_debug_ring_resources_t : Nat

/-- The record `struct pmodule_t`: `data` is an address (0 is `NULL`). -/
structure pmodule_t where
  data : Nat
  size : Int
  deriving DecidableEq, Repr

/-- One call that leaves `queue.c`, with its arguments and, where the callee
returns one, its result. -/
inductive Event where
  | ALERT (fmt : String) (args : List Int)
  | DEBUG (fmt : String)
  | platform_alloc_rwe (len : Int) (ret : Nat)
  | platform_free_rwe (addr : Nat) (size : Int)
  | common_add_module (file : Nat) (len : Int) (ret : Int)
  | common_unload_vmm (ret : Int)
  | common_load_vmm (ret : Int)
  | common_stop_vmm (ret : Int)
  | common_start_vmm (ret : Int)
  | common_dump_vmm (vcpuid : Nat) (ret : Int)
  | common_vmm_status (ret : Int)
  | WdfRequestRetrieveInputBuffer (minimum : Nat) (status : Int)
  | WdfRequestRetrieveOutputBuffer (minimum : Nat) (status : Int)
  | WdfRequestSetInformation (information : Nat)
  | WdfRequestComplete (status : Int)
  deriving DecidableEq, Repr

/-- The globals of `queue.c` together with the allocated executable regions and
the log of external calls. -/
structure State where
  g_num_pmodules : Int
  pmodules : List pmodule_t
  g_vcpuid : Nat
  /-- Regions obtained from `platform_alloc_rwe` and not yet released: base
  address and content, most recent first. -/
  heap : List (Nat × List Nat)
  trace : List Event
  deriving DecidableEq, Repr

/-- What the framework stores through the out-parameters of a buffer retrieval:
the status it returns, the bytes found at the buffer it hands out (`none` when
the pointer is left `NULL`) and the length it reports. -/
structure Retrieved where
  status : Int
  buf : Option (List Nat)
  size : Nat

/-- Results of the external functions for one entry into the driver. -/
structure Ext where
  /-- Address returned by `platform_alloc_rwe`, 0 for `NULL`. -/
  platform_alloc_rwe : Nat
  /-- Byte found at each offset of a region that was just allocated. -/
  rwe_fill : Nat → Nat
  common_add_module : Int
  common_unload_vmm : Int
  common_load_vmm : Int
  common_stop_vmm : Int
  common_start_vmm : Int
  common_dump_vmm : Int
  /-- Bytes at the address `common_dump_vmm` stores into `drr` (`none` when it
  leaves the pointer `NULL`). -/
  drr : Option (List Nat)
  common_vmm_status : Int
  input : Retrieved
  output : Retrieved

/-- Appends one external call to the log. -/
def emit (ev : Event) (s : State) : State :=
  { s with trace := s.trace ++ [ev] }

/-- The logging statement `ALERT(fmt, args...)`. -/
def ALERT (fmt : String) (args : List Int) (s : State) : State :=
  emit (Event.ALERT fmt args) s

/-- The logging statement `DEBUG(fmt)`. -/
def DEBUG (fmt : String) (s : State) : State :=
  emit (Event.DEBUG fmt) s

/-- Modelled from the spec: `platform_alloc_rwe` of Platform Memory Services
(allocate executable+writable memory).  The returned address comes from `e`; a
non-null result is a new region of `len` bytes with unspecified content. -/
def platform_alloc_rwe (e : Ext) (len : Int) (s : State) : Nat × State :=
  let buf := e.platform_alloc_rwe
  let s := emit (Event.platform_alloc_rwe len buf) s
  if buf = 0 then (buf, s)
  else (buf, { s with heap := (buf, (List.range len.toNat).map e.rwe_fill) :: s.heap })

/-- Modelled from the spec: `platform_free_rwe` of Platform Memory Services
(free).  The region based at `addr` stops being allocated. -/
def platform_free_rwe (addr : Nat) (size : Int) (s : State) : State :=
  let s := emit (Event.platform_free_rwe addr size) s
  { s with heap := s.heap.filter (fun r => r.1 ≠ addr) }

/-- Modelled from the spec: `platform_memset` of Platform Memory Services (fill)
acting on the bytes found at the destination; `none` when `num` bytes do not
fit. -/
def platform_memset (dst : List Nat) (value : Nat) (num : Int) : Option (List Nat) :=
  if 0 ≤ num ∧ num.toNat ≤ dst.length then
    some (List.replicate num.toNat value ++ dst.drop num.toNat)
  else none

/-- Modelled from the spec: `platform_memcpy` of Platform Memory Services (copy)
acting on the bytes found at destination and source (`src = none` is a null
source).  Copying zero bytes leaves the destination as it is; otherwise the
result is `none` when `num` bytes cannot be read from the source or do not fit
in the destination. -/
def platform_memcpy (dst : List Nat) (src : Option (List Nat)) (num : Int) :
    Option (List Nat) :=
  if num = 0 then some dst
  else
    match src with
    | none => none
    | some bytes =>
      if 0 ≤ num ∧ num.toNat ≤ dst.length ∧ num.toNat ≤ bytes.length then
        some (bytes.take num.toNat ++ dst.drop num.toNat)
      else none

/-- Content of the allocated region based at `addr`. -/
def region (s : State) (addr : Nat) : Option (List Nat) :=
  (s.heap.find? (fun r => r.1 = addr)).map (fun r => r.2)

/-- Replaces the content of the allocated region based at `addr`. -/
def set_region (s : State) (addr : Nat) (bytes : List Nat) : State :=
  { s with heap := (addr, bytes) :: s.heap.filter (fun r => r.1 ≠ addr) }

/-- The assignment `pmodules[i] = m` (both fields); `none` when `i` is not an
index of the array. -/
def pmodules_store (i : Int) (m : pmodule_t) (s : State) : Option State :=
  if 0 ≤ i ∧ i.toNat < s.pmodules.length then
    some { s with pmodules := s.pmodules.set i.toNat m }
  else none

/-- The function `ioctl_add_module(file, len)`.  `file` is the content found at
the pointer (`none` for `NULL`). -/
def ioctl_add_module (cfg : Config) (e : Ext) (file : Option (List Nat)) (len : Int)
    (s : State) : Option (Int × State) :=
  if s.g_num_pmodules ≥ cfg.MAX_NUM_MODULES then
    some (cfg.BF_IOCTL_FAILURE,
      ALERT "IOCTL_ADD_MODULE: too many modules have been loaded\n" [] s)
  else
    let (buf, s) := platform_alloc_rwe e len s
    if buf = 0 then
      some (cfg.BF_IOCTL_FAILURE,
        ALERT "IOCTL_ADD_MODULE: failed to allocate memory for the module\n" [] s)
    else do
      let fresh ← region s buf
      let zeroed ← platform_memset fresh 0 len
      let copied ← platform_memcpy zeroed file len
      let s := set_region s buf copied
      let ret := e.common_add_module
      let s := emit (Event.common_add_module buf len ret) s
      if ret ≠ cfg.BF_SUCCESS then
        let s := ALERT "IOCTL_ADD_MODULE: failed to add module\n" [] s
        -- failed:
        let s := platform_free_rwe buf len s
        let s := DEBUG "IOCTL_ADD_MODULE: failed\n" s
        some (cfg.BF_IOCTL_FAILURE, s)
      else do
        let s ← pmodules_store s.g_num_pmodules { data := buf, size := len } s
        let s := { s with g_num_pmodules := s.g_num_pmodules + 1 }
        let s := DEBUG "IOCTL_ADD_MODULE: succeeded\n" s
        some (cfg.BF_IOCTL_SUCCESS, s)

/-- The read `pmodules[i]`; `none` when `i` is not an index of the array. -/
def pmodules_load (i : Nat) (s : State) : Option pmodule_t :=
  s.pmodules[i]?

/-- The loop `for (i = 0; i < g_num_pmodules; i++) platform_free_rwe(...)` of
`ioctl_unload_vmm`, entered at index `i` with `n` iterations left
(`n = g_num_pmodules - i`; the loop does not change `g_num_pmodules`). -/
def free_pmodules : Nat → Nat → State → Option State
  | 0, _, s => some s
  | n + 1, i, s => do
    let m ← pmodules_load i s
    free_pmodules n (i + 1) (platform_free_rwe m.data m.size s)

/-- The function `ioctl_unload_vmm()`. -/
def ioctl_unload_vmm (cfg : Config) (e : Ext) (s : State) : Option (Int × State) :=
  let status := cfg.BF_IOCTL_SUCCESS
  let ret := e.common_unload_vmm
  let s := emit (Event.common_unload_vmm ret) s
  let (status, s) :=
    if ret ≠ cfg.BF_SUCCESS then
      (cfg.BF_IOCTL_FAILURE, ALERT "IOCTL_UNLOAD_VMM: failed to unload vmm: %d\n" [ret] s)
    else (status, s)
  do
    let s ← free_pmodules s.g_num_pmodules.toNat 0 s
    let s := { s with g_num_pmodules := 0 }
    -- platform_memset(&pmodules, 0, sizeof(pmodules))
    let s := { s with pmodules := List.replicate cfg.MAX_NUM_MODULES { data := 0, size := 0 } }
    let s := if status = cfg.BF_IOCTL_SUCCESS then DEBUG "IOCTL_UNLOAD_VMM: succeeded\n" s else s
    some (status, s)

/-- The function `ioctl_load_vmm()`. -/
def ioctl_load_vmm (cfg : Config) (e : Ext) (s : State) : Option (Int × State) :=
  let ret := e.common_load_vmm
  let s := emit (Event.common_load_vmm ret) s
  if ret ≠ cfg.BF_SUCCESS then do
    let s := ALERT "IOCTL_LOAD_VMM: failed to load vmm: %d\n" [ret] s
    -- failure:
    let (_, s) ← ioctl_unload_vmm cfg e s
    some (cfg.BF_IOCTL_FAILURE, s)
  else
    some (cfg.BF_IOCTL_SUCCESS, DEBUG "IOCTL_LOAD_VMM: succeeded\n" s)

/-- The function `ioctl_stop_vmm()`. -/
def ioctl_stop_vmm (cfg : Config) (e : Ext) (s : State) : Int × State :=
  let status := cfg.BF_IOCTL_SUCCESS
  let ret := e.common_stop_vmm
  let s := emit (Event.common_stop_vmm ret) s
  let (status, s) :=
    if ret ≠ cfg.BF_SUCCESS then
      (cfg.BF_IOCTL_FAILURE, ALERT "IOCTL_STOP_VMM: failed to stop vmm: %d\n" [ret] s)
    else (status, s)
  let s := if status = cfg.BF_IOCTL_SUCCESS then DEBUG "IOCTL_STOP_VMM: succeeded\n" s else s
  (status, s)

/-- The function `ioctl_start_vmm()`. -/
def ioctl_start_vmm (cfg : Config) (e : Ext) (s : State) : Int × State :=
  let ret := e.common_start_vmm
  let s := emit (Event.common_start_vmm ret) s
  if ret ≠ cfg.BF_SUCCESS then
    let s := ALERT "IOCTL_START_VMM: failed to start vmm: %d\n" [ret] s
    -- failure:
    let (_, s) := ioctl_stop_vmm cfg e s
    (cfg.BF_IOCTL_FAILURE, s)
  else
    (cfg.BF_IOCTL_SUCCESS, DEBUG "IOCTL_START_VMM: succeeded\n" s)

/-- The function `ioctl_dump_vmm(user_drr)`.  `user_drr` is the content found at
the pointer (`none` for `NULL`); the third component of the result is that
content afterwards. -/
def ioctl_dump_vmm (cfg : Config) (e : Ext) (user_drr : Option (List Nat)) (s : State) :
    Option (Int × State × Option (List Nat)) :=
  let ret := e.common_dump_vmm
  let s := emit (Event.common_dump_vmm s.g_vcpuid ret) s
  if ret ≠ cfg.BF_SUCCESS then
    some (cfg.BF_IOCTL_FAILURE,
      ALERT "IOCTL_DUMP_VMM: failed to dump vmm: %d\n" [ret] s, user_drr)
  else do
    let dst ← user_drr
    let dst ← platform_memcpy dst e.drr cfg.sizeof_debug_ring_resources_t
    some (cfg.BF_IOCTL_SUCCESS, DEBUG "IOCTL_DUMP_VMM: succeeded\n" s, some dst)

/-- The function `ioctl_vmm_status(status)`.  `status` is the `int64_t` found at
the pointer (`none` for `NULL`); the third component of the result is that
object afterwards. -/
def ioctl_vmm_status (cfg : Config) (e : Ext) (status : Option Int) (s : State) :
    Int × State × Option Int :=
  let vmm_status := e.common_vmm_status
  let s := emit (Event.common_vmm_status vmm_status) s
  match status with
  | none =>
    (cfg.BF_IOCTL_FAILURE, ALERT "IOCTL_VMM_STATUS: failed with status == NULL\n" [] s, none)
  | some _ =>
    (cfg.BF_IOCTL_SUCCESS, DEBUG "IOCTL_VMM_STATUS: succeeded\n" s, some vmm_status)

/-- The function `ioctl_set_vcpuid(vcpuid)`.  `vcpuid` is the `uint64_t` found
at the pointer (`none` for `NULL`). -/
def ioctl_set_vcpuid (cfg : Config) (vcpuid : Option Nat) (s : State) : Int × State :=
  match vcpuid with
  | none =>
    (cfg.BF_IOCTL_FAILURE, ALERT "IOCTL_SET_VCPUID: failed with len == NULL\n" [] s)
  | some v =>
    let s := { s with g_vcpuid := v }
    (cfg.BF_IOCTL_SUCCESS, DEBUG "IOCTL_SET_VCPUID: succeeded\n" s)

/-- The Windows macro `NT_SUCCESS(Status)`, `((NTSTATUS)(Status)) >= 0`. -/
def NT_SUCCESS (status : Int) : Bool :=
  decide (0 ≤ status)

/-- The Windows status `STATUS_INVALID_PARAMETER`, `((NTSTATUS)0xC000000DL)`. -/
def STATUS_INVALID_PARAMETER : Int :=
  0xC000000D - 2 ^ 32

/-- Conversion of an integer to `uint32_t`. -/
def to_uint32 (v : Int) : Nat :=
  (v % 2 ^ 32).toNat

/-- Conversion of an unsigned value to the 32-bit signed `NTSTATUS`. -/
def to_int32 (n : Nat) : Int :=
  if n % 2 ^ 32 < 2 ^ 31 then ((n % 2 ^ 32 : Nat) : Int) else ((n % 2 ^ 32 : Nat) : Int) - 2 ^ 32

/-- Conversion of an integer to `uint64_t`. -/
def to_uint64 (v : Int) : Nat :=
  (v % 2 ^ 64).toNat

/-- The cast `(int64_t)` of a `size_t` or `uint64_t` value. -/
def to_int64 (n : Nat) : Int :=
  if n % 2 ^ 64 < 2 ^ 63 then ((n % 2 ^ 64 : Nat) : Int) else ((n % 2 ^ 64 : Nat) : Int) - 2 ^ 64

/-- The first `k` bytes of the little-endian representation of `n`. -/
def le_bytes (n : Nat) : Nat → List Nat
  | 0 => []
  | k + 1 => n % 256 :: le_bytes (n / 256) k

/-- The number whose little-endian representation is the given bytes. -/
def le_value : List Nat → Nat
  | [] => 0
  | b :: bs => b % 256 + 256 * le_value bs

/-- The status an operation returns as the dispatcher passes it to
`WdfRequestComplete`: stored in `uint32_t ret`, then taken as `NTSTATUS`. -/
def completion_status (ret : Int) : Int :=
  to_int32 (to_uint32 ret)

/-- The label `FAIL_IOCTL` of `bareflankEvtIoDeviceControl`. -/
def FAIL_IOCTL (e : Ext) (s : State) : Option (State × Option (List Nat)) :=
  some (emit (Event.WdfRequestComplete STATUS_INVALID_PARAMETER) s, e.output.buf)

/-- The statements of `bareflankEvtIoDeviceControl` after the `switch`: the
byte count is set when `OutputBufferLength != 0`, then the request is
completed with `ret`.  `out` is the content found at the pointer `out`. -/
def complete (e : Ext) (OutputBufferLength out_size : Nat) (ret : Int) (s : State)
    (out : Option (List Nat)) : Option (State × Option (List Nat)) :=
  let ret := to_uint32 ret
  let s := if OutputBufferLength ≠ 0 then emit (Event.WdfRequestSetInformation out_size) s else s
  some (emit (Event.WdfRequestComplete (to_int32 ret)) s,
    if OutputBufferLength ≠ 0 then out else e.output.buf)

/-- The function `bareflankEvtIoDeviceControl`.  The result is the state
afterwards and the content of the request's output buffer afterwards (`none`
when the framework hands out no buffer).  The casts `(int64_t *)out` and
`(uint64_t *)in` read the buffer as a little-endian 8-byte object; both callees
access that object whenever the pointer is not null, so a buffer of fewer than
8 bytes is an out-of-bounds access. -/
def bareflankEvtIoDeviceControl (cfg : Config) (e : Ext)
    (OutputBufferLength InputBufferLength IoControlCode : Nat) (s : State) :
    Option (State × Option (List Nat)) :=
  let s :=
    if InputBufferLength ≠ 0 then
      emit (Event.WdfRequestRetrieveInputBuffer InputBufferLength e.input.status) s
    else s
  if InputBufferLength ≠ 0 ∧ ¬ NT_SUCCESS e.input.status then FAIL_IOCTL e s
  else
    let in_buf : Option (List Nat) := if InputBufferLength ≠ 0 then e.input.buf else none
    let in_size : Nat := if InputBufferLength ≠ 0 then e.input.size else 0
    let s :=
      if OutputBufferLength ≠ 0 then
        emit (Event.WdfRequestRetrieveOutputBuffer OutputBufferLength e.output.status) s
      else s
    if OutputBufferLength ≠ 0 ∧ ¬ NT_SUCCESS e.output.status then FAIL_IOCTL e s
    else
      let out : Option (List Nat) := if OutputBufferLength ≠ 0 then e.output.buf else none
      let out_size : Nat := if OutputBufferLength ≠ 0 then e.output.size else 0
      if IoControlCode = cfg.IOCTL_ADD_MODULE then do
        let (ret, s) ← ioctl_add_module cfg e in_buf (to_int64 in_size) s
        complete e OutputBufferLength out_size ret s out
      else if IoControlCode = cfg.IOCTL_LOAD_VMM then do
        let (ret, s) ← ioctl_load_vmm cfg e s
        complete e OutputBufferLength out_size ret s out
      else if IoControlCode = cfg.IOCTL_UNLOAD_VMM then do
        let (ret, s) ← ioctl_unload_vmm cfg e s
        complete e OutputBufferLength out_size ret s out
      else if IoControlCode = cfg.IOCTL_START_VMM then
        let (ret, s) := ioctl_start_vmm cfg e s
        complete e OutputBufferLength out_size ret s out
      else if IoControlCode = cfg.IOCTL_STOP_VMM then
        let (ret, s) := ioctl_stop_vmm cfg e s
        complete e OutputBufferLength out_size ret s out
      else if IoControlCode = cfg.IOCTL_DUMP_VMM then do
        let (ret, s, out) ← ioctl_dump_vmm cfg e out s
        complete e OutputBufferLength out_size ret s out
      else if IoControlCode = cfg.IOCTL_VMM_STATUS then
        match out with
        | none =>
          let (ret, s, _) := ioctl_vmm_status cfg e none s
          complete e OutputBufferLength out_size ret s none
        | some bytes =>
          if 8 ≤ bytes.length then
            let (ret, s, status) :=
              ioctl_vmm_status cfg e (some (to_int64 (le_value (bytes.take 8)))) s
            complete e OutputBufferLength out_size ret s
              (status.map (fun v => le_bytes (to_uint64 v) 8 ++ bytes.drop 8))
          else none
      else if IoControlCode = cfg.IOCTL_SET_VCPUID then
        match in_buf with
        | none =>
          let (ret, s) := ioctl_set_vcpuid cfg none s
          complete e OutputBufferLength out_size ret s out
        | some bytes =>
          if 8 ≤ bytes.length then
            let (ret, s) := ioctl_set_vcpuid cfg (some (le_value (bytes.take 8))) s
            complete e OutputBufferLength out_size ret s out
          else none
      else FAIL_IOCTL e s

/-- A configuration used to evaluate the definitions: four slots (the capacity
of Scenario A) and the usual Bareflank status values. -/
def cfg4 : Config where
  MAX_NUM_MODULES := 4
  BF_SUCCESS := 0
  BF_IOCTL_SUCCESS := 0
  BF_IOCTL_FAILURE := -1
  IOCTL_ADD_MODULE := 0x801
  IOCTL_LOAD_VMM := 0x802
  IOCTL_UNLOAD_VMM := 0x803
  IOCTL_START_VMM := 0x804
  IOCTL_STOP_VMM := 0x805
  IOCTL_DUMP_VMM := 0x806
  IOCTL_VMM_STATUS := 0x807
  IOCTL_SET_VCPUID := 0x808
  sizeof_debug_ring_resources_t := 16

/-- The state at driver start: `g_num_pmodules = 0`, `pmodules = { 0 }`,
`g_vcpuid = 0`, nothing allocated, nothing logged. -/
def init (cfg : Config) : State where
  g_num_pmodules := 0
  pmodules := List.replicate cfg.MAX_NUM_MODULES { data := 0, size := 0 }
  g_vcpuid := 0
  heap := []
  trace := []

/-- External results in which every call succeeds: allocation returns `addr`,
every Core API call returns 0, both buffer retrievals succeed. -/
def ext_ok (addr : Nat) (inbuf outbuf : Option (List Nat)) : Ext where
  platform_alloc_rwe := addr
  rwe_fill := fun _ => 0xCC
  common_add_module := 0
  common_unload_vmm := 0
  common_load_vmm := 0
  common_stop_vmm := 0
  common_start_vmm := 0
  common_dump_vmm := 0
  drr := some (List.replicate 16 7)
  common_vmm_status := 0
  input := { status := 0, buf := inbuf, size := (inbuf.getD []).length }
  output := { status := 0, buf := outbuf, size := (outbuf.getD []).length }

/-- A full four-slot registry holding two-byte modules at 4096, 8192, 12288 and
16384. -/
def full4 : State where
  g_num_pmodules := 4
  pmodules := [⟨4096, 2⟩, ⟨8192, 2⟩, ⟨12288, 2⟩, ⟨16384, 2⟩]
  g_vcpuid := 0
  heap := [(16384, [7, 8]), (12288, [5, 6]), (8192, [3, 4]), (4096, [1, 2])]
  trace := []

/-- A four-slot registry holding two-byte modules at 4096 and 8192, with vcpu 3
selected. -/
def two4 : State where
  g_num_pmodules := 2
  pmodules := [⟨4096, 2⟩, ⟨8192, 2⟩, ⟨0, 0⟩, ⟨0, 0⟩]
  g_vcpuid := 3
  heap := [(8192, [3, 4]), (4096, [1, 2])]
  trace := []

/-- External results in which allocation returns `addr` and every Core API call
fails with -1; both buffer retrievals succeed. -/
def ext_core_fails (addr : Nat) (inbuf outbuf : Option (List Nat)) : Ext where
  platform_alloc_rwe := addr
  rwe_fill := fun _ => 0xCC
  common_add_module := -1
  common_unload_vmm := -1
  common_load_vmm := -1
  common_stop_vmm := -1
  common_start_vmm := -1
  common_dump_vmm := -1
  drr := none
  common_vmm_status := -1
  input := { status := 0, buf := inbuf, size := (inbuf.getD []).length }
  output := { status := 0, buf := outbuf, size := (outbuf.getD []).length }

/-- The registry part of a state is well formed: the array `pmodules` has its
`MAX_NUM_MODULES` slots and `g_num_pmodules` counts some of them. -/
def is_registry (cfg : Config) (s : State) : Prop :=
  s.pmodules.length = cfg.MAX_NUM_MODULES ∧
    0 ≤ s.g_num_pmodules ∧ s.g_num_pmodules ≤ cfg.MAX_NUM_MODULES

instance (cfg : Config) (s : State) : Decidable (is_registry cfg s) := by
  unfold is_registry
  infer_instance

/-- The failure mode `CapacityExceeded` of the spec, as the code reports it. -/
def CapacityExceeded : Event :=
  Event.ALERT "IOCTL_ADD_MODULE: too many modules have been loaded\n" []

/-- The failure mode `AllocationFailure` of the spec, as the code reports it. -/
def AllocationFailure : Event :=
  Event.ALERT "IOCTL_ADD_MODULE: failed to allocate memory for the module\n" []

/-- The failure mode `RegistrationFailure` of the spec, as the code reports it. -/
def RegistrationFailure : Event :=
  Event.ALERT "IOCTL_ADD_MODULE: failed to add module\n" []

/-- The failure mode `UnloadFailure` of the spec, as the code reports it. -/
def UnloadFailure (ret : Int) : Event :=
  Event.ALERT "IOCTL_UNLOAD_VMM: failed to unload vmm: %d\n" [ret]

/-- The failure mode `LoadFailure` of the spec, as the code reports it. -/
def LoadFailure (ret : Int) : Event :=
  Event.ALERT "IOCTL_LOAD_VMM: failed to load vmm: %d\n" [ret]

/-- The failure mode `StopFailure` of the spec, as the code reports it. -/
def StopFailure (ret : Int) : Event :=
  Event.ALERT "IOCTL_STOP_VMM: failed to stop vmm: %d\n" [ret]

/-- The failure mode `StartFailure` of the spec, as the code reports it. -/
def StartFailure (ret : Int) : Event :=
  Event.ALERT "IOCTL_START_VMM: failed to start vmm: %d\n" [ret]

/-- The failure mode `DumpUnavailable` of the spec, as the code reports it. -/
def DumpUnavailable (ret : Int) : Event :=
  Event.ALERT "IOCTL_DUMP_VMM: failed to dump vmm: %d\n" [ret]

/-- The failure mode `InvalidArgument` of the spec, as `ioctl_vmm_status`
reports it. -/
def InvalidArgument_status : Event :=
  Event.ALERT "IOCTL_VMM_STATUS: failed with status == NULL\n" []

/-- The failure mode `InvalidArgument` of the spec, as `ioctl_set_vcpuid`
reports it. -/
def InvalidArgument_vcpuid : Event :=
  Event.ALERT "IOCTL_SET_VCPUID: failed with len == NULL\n" []

/-- The status `ioctl_unload_vmm` and `ioctl_stop_vmm` return when the Core API
call they make returns `ret`. -/
def status_of (cfg : Config) (ret : Int) : Int :=
  if ret ≠ cfg.BF_SUCCESS then cfg.BF_IOCTL_FAILURE else cfg.BF_IOCTL_SUCCESS

/-- The array `pmodules` with every slot zeroed. -/
def zeroed_pmodules (cfg : Config) : List pmodule_t :=
  List.replicate cfg.MAX_NUM_MODULES { data := 0, size := 0 }

/-- The calls `platform_free_rwe(pmodules[i].data, pmodules[i].size)` for the
records at the indices below the count, in index order. -/
def frees_of (s : State) : List Event :=
  (s.pmodules.take s.g_num_pmodules.toNat).map (fun m => Event.platform_free_rwe m.data m.size)

/-- The eight case labels of the `switch` in `bareflankEvtIoDeviceControl`, in
source order. -/
def Config.codes (cfg : Config) : List Nat :=
  [cfg.IOCTL_ADD_MODULE, cfg.IOCTL_LOAD_VMM, cfg.IOCTL_UNLOAD_VMM, cfg.IOCTL_START_VMM,
   cfg.IOCTL_STOP_VMM, cfg.IOCTL_DUMP_VMM, cfg.IOCTL_VMM_STATUS, cfg.IOCTL_SET_VCPUID]

/-- The buffer retrievals `bareflankEvtIoDeviceControl` performs before the
`switch`: the input buffer when `InputBufferLength != 0`, then, unless that
failed, the output buffer when `OutputBufferLength != 0`. -/
def retrievals (e : Ext) (OutputBufferLength InputBufferLength : Nat) : List Event :=
  (if InputBufferLength ≠ 0 then
      [Event.WdfRequestRetrieveInputBuffer InputBufferLength e.input.status]
    else []) ++
  (if InputBufferLength ≠ 0 ∧ ¬ NT_SUCCESS e.input.status then []
    else if OutputBufferLength ≠ 0 then
      [Event.WdfRequestRetrieveOutputBuffer OutputBufferLength e.output.status]
    else [])

/-- The calls into the host driver framework, as opposed to the calls an
operation makes (logging, memory services, Core API). -/
def Event.is_framework : Event → Bool
  | Event.WdfRequestRetrieveInputBuffer _ _ => true
  | Event.WdfRequestRetrieveOutputBuffer _ _ => true
  | Event.WdfRequestSetInformation _ => true
  | Event.WdfRequestComplete _ => true
  | _ => false

/-- What every operation leaves fixed: it returns one of the two IOCTL status
values and it only appends to the log, and nothing it appends is a call into
the host driver framework. -/
def op_frame (cfg : Config) (s : State) (ret : Int) (s1 : State) : Prop :=
  (ret = cfg.BF_IOCTL_SUCCESS ∨ ret = cfg.BF_IOCTL_FAILURE) ∧
    ∃ evs, s1.trace = s.trace ++ evs ∧ ∀ ev ∈ evs, ev.is_framework = false

/-- One call of an operation, with the results of the external functions for
that call and the arguments it is given. -/
inductive Call where
  | add_module (e : Ext) (file : Option (List Nat)) (len : Int)
  | load_vmm (e : Ext)
  | unload_vmm (e : Ext)
  | start_vmm (e : Ext)
  | stop_vmm (e : Ext)
  | dump_vmm (e : Ext) (user_drr : Option (List Nat))
  | vmm_status (e : Ext) (status : Option Int)
  | set_vcpuid (vcpuid : Option Nat)

/-- The state after one call; `none` when the call is undefined. -/
def Call.exec (cfg : Config) : Call → State → Option State
  | Call.add_module e file len, s => (ioctl_add_module cfg e file len s).map (fun r => r.2)
  | Call.load_vmm e, s => (ioctl_load_vmm cfg e s).map (fun r => r.2)
  | Call.unload_vmm e, s => (ioctl_unload_vmm cfg e s).map (fun r => r.2)
  | Call.start_vmm e, s => some (ioctl_start_vmm cfg e s).2
  | Call.stop_vmm e, s => some (ioctl_stop_vmm cfg e s).2
  | Call.dump_vmm e user_drr, s => (ioctl_dump_vmm cfg e user_drr s).map (fun r => r.2.1)
  | Call.vmm_status e status, s => some (ioctl_vmm_status cfg e status s).2.1
  | Call.set_vcpuid vcpuid, s => some (ioctl_set_vcpuid cfg vcpuid s).2

/-- The state after a sequence of calls, made one after the other. -/
def exec_all (cfg : Config) : List Call → State → Option State
  | [], s => some s
  | c :: cs, s => (c.exec cfg s).bind (exec_all cfg cs)

/-- The id supplied by the most recent call of `ioctl_set_vcpuid` in the
sequence that supplied one; `v` when there is none. -/
def last_vcpuid : List Call → Nat → Nat
  | [], v => v
  | Call.set_vcpuid (some w) :: cs, _ => last_vcpuid cs w
  | _ :: cs, v => last_vcpuid cs v

/-- A sequence of calls on the four-slot configuration: select vcpu 5, add a
module, ask the status, make a set call that supplies no id, select vcpu 9,
stop. -/
def calls4 : List Call :=
  [Call.set_vcpuid (some 5), Call.add_module (ext_ok 4096 none none) (some [1, 2]) 2,
   Call.vmm_status (ext_ok 0 none none) (some 0), Call.set_vcpuid none,
   Call.set_vcpuid (some 9), Call.stop_vmm (ext_ok 0 none none)]

/-- The state after `calls4`, started from the initial state. -/
def after_calls4 : State where
  g_num_pmodules := 1
  pmodules := [⟨4096, 2⟩, ⟨0, 0⟩, ⟨0, 0⟩, ⟨0, 0⟩]
  g_vcpuid := 9
  heap := [(4096, [1, 2])]
  trace :=
    [Event.DEBUG "IOCTL_SET_VCPUID: succeeded\n", Event.platform_alloc_rwe 2 4096,
     Event.common_add_module 4096 2 0, Event.DEBUG "IOCTL_ADD_MODULE: succeeded\n",
     Event.common_vmm_status 0, Event.DEBUG "IOCTL_VMM_STATUS: succeeded\n",
     InvalidArgument_vcpuid, Event.DEBUG "IOCTL_SET_VCPUID: succeeded\n",
     Event.common_stop_vmm 0, Event.DEBUG "IOCTL_STOP_VMM: succeeded\n"]

/-- What one call of `ioctl_add_module` in a sequence shows: the status it
returned, the count it left and the last thing it logged. -/
structure AddOutcome where
  ret : Int
  count : Int
  report : Option Event
  deriving DecidableEq, Repr

/-- A sequence of `ioctl_add_module` calls, each with its own external results
and its own input bytes (the length passed is the number of bytes), made one
after the other; the result lists the outcome of every call and gives the
final state. -/
def add_each (cfg : Config) : List (Ext × List Nat) → State → Option (List AddOutcome × State)
  | [], s => some ([], s)
  | (e, bytes) :: rest, s => do
    let (ret, s1) ← ioctl_add_module cfg e (some bytes) bytes.length s
    let (outcomes, s2) ← add_each cfg rest s1
    some ({ ret := ret, count := s1.g_num_pmodules, report := s1.trace.getLast? } :: outcomes, s2)

/-- Five modules offered to a four-slot registry, every allocation and every
registration succeeding. -/
def adds5 : List (Ext × List Nat) :=
  [(ext_ok 4096 none none, [1, 2]), (ext_ok 8192 none none, [3, 4]),
   (ext_ok 12288 none none, [5, 6]), (ext_ok 16384 none none, [7, 8]),
   (ext_ok 20480 none none, [9])]

/-- The value of the variable `in` when the `switch` is reached: the content
found at the retrieved input buffer, `none` while the pointer is still null. -/
def req_in (e : Ext) (InputBufferLength : Nat) : Option (List Nat) :=
  if InputBufferLength ≠ 0 then e.input.buf else none

/-- The value of the variable `in_size` when the `switch` is reached. -/
def req_in_size (e : Ext) (InputBufferLength : Nat) : Nat :=
  if InputBufferLength ≠ 0 then e.input.size else 0

/-- The value of the variable `out` when the `switch` is reached: the content
found at the retrieved output buffer, `none` while the pointer is still null. -/
def req_out (e : Ext) (OutputBufferLength : Nat) : Option (List Nat) :=
  if OutputBufferLength ≠ 0 then e.output.buf else none

/-- The value of the variable `out_size` when the `switch` is reached. -/
def req_out_size (e : Ext) (OutputBufferLength : Nat) : Nat :=
  if OutputBufferLength ≠ 0 then e.output.size else 0

/-- The state in which the `switch` is reached: the retrievals are logged. -/
def retrieved (e : Ext) (OutputBufferLength InputBufferLength : Nat) (s : State) : State :=
  { s with trace := s.trace ++ retrievals e OutputBufferLength InputBufferLength }

/-- Some retrieval that `bareflankEvtIoDeviceControl` attempts fails. -/
def retrieval_fails (e : Ext) (OutputBufferLength InputBufferLength : Nat) : Prop :=
  (InputBufferLength ≠ 0 ∧ NT_SUCCESS e.input.status = false) ∨
    (OutputBufferLength ≠ 0 ∧ NT_SUCCESS e.output.status = false)

instance (e : Ext) (OutputBufferLength InputBufferLength : Nat) :
    Decidable (retrieval_fails e OutputBufferLength InputBufferLength) := by
  unfold retrieval_fails
  infer_instance

/-- The `switch` of `bareflankEvtIoDeviceControl` on its own, given the values
of `in`, `in_size` and `out`: the status the selected operation returns, the
state it leaves and the content of the output buffer afterwards.  The inner
`none` is the `default` label; the outer `none` is an undefined access. -/
def dispatch_operation (cfg : Config) (e : Ext) (IoControlCode : Nat)
    (in_buf : Option (List Nat)) (in_size : Nat) (out : Option (List Nat)) (s : State) :
    Option (Option (Int × State × Option (List Nat))) :=
  if IoControlCode = cfg.IOCTL_ADD_MODULE then
    (ioctl_add_module cfg e in_buf (to_int64 in_size) s).map (fun r => some (r.1, r.2, out))
  else if IoControlCode = cfg.IOCTL_LOAD_VMM then
    (ioctl_load_vmm cfg e s).map (fun r => some (r.1, r.2, out))
  else if IoControlCode = cfg.IOCTL_UNLOAD_VMM then
    (ioctl_unload_vmm cfg e s).map (fun r => some (r.1, r.2, out))
  else if IoControlCode = cfg.IOCTL_START_VMM then
    some (some ((ioctl_start_vmm cfg e s).1, (ioctl_start_vmm cfg e s).2, out))
  else if IoControlCode = cfg.IOCTL_STOP_VMM then
    some (some ((ioctl_stop_vmm cfg e s).1, (ioctl_stop_vmm cfg e s).2, out))
  else if IoControlCode = cfg.IOCTL_DUMP_VMM then
    (ioctl_dump_vmm cfg e out s).map some
  else if IoControlCode = cfg.IOCTL_VMM_STATUS then
    match out with
    | none =>
      some (some ((ioctl_vmm_status cfg e none s).1, (ioctl_vmm_status cfg e none s).2.1, none))
    | some bytes =>
      if 8 ≤ bytes.length then
        some (some
          ((ioctl_vmm_status cfg e (some (to_int64 (le_value (bytes.take 8)))) s).1,
           (ioctl_vmm_status cfg e (some (to_int64 (le_value (bytes.take 8)))) s).2.1,
           (ioctl_vmm_status cfg e (some (to_int64 (le_value (bytes.take 8)))) s).2.2.map
             (fun v => le_bytes (to_uint64 v) 8 ++ bytes.drop 8)))
      else none
  else if IoControlCode = cfg.IOCTL_SET_VCPUID then
    match in_buf with
    | none =>
      some (some ((ioctl_set_vcpuid cfg none s).1, (ioctl_set_vcpuid cfg none s).2, out))
    | some bytes =>
      if 8 ≤ bytes.length then
        some (some
          ((ioctl_set_vcpuid cfg (some (le_value (bytes.take 8))) s).1,
           (ioctl_set_vcpuid cfg (some (le_value (bytes.take 8))) s).2, out))
      else none
  else some none

/-- The end of a dispatch that reached the `switch` and ran an operation: the
byte count is set when `OutputBufferLength != 0`, then the request is completed
with the status `ret`; the result pairs the state with the content of the
request's output buffer. -/
def completed (e : Ext) (OutputBufferLength : Nat) (ret : Int) (s : State)
    (out : Option (List Nat)) : State × Option (List Nat) :=
  ({ s with
      trace := s.trace ++
        (if OutputBufferLength ≠ 0 then [Event.WdfRequestSetInformation e.output.size]
          else []) ++
        [Event.WdfRequestComplete ret] },
    if OutputBufferLength ≠ 0 then out else e.output.buf)

/-- The `int64_t` read through `(int64_t *)` at the start of a buffer. -/
def int64_at (bytes : List Nat) : Int :=
  to_int64 (le_value (bytes.take 8))

/-- The `uint64_t` read through `(uint64_t *)` at the start of a buffer. -/
def uint64_at (bytes : List Nat) : Nat :=
  le_value (bytes.take 8)

/-- The buffer after an `int64_t` is stored at its start. -/
def store_int64 (bytes : List Nat) (v : Int) : List Nat :=
  le_bytes (to_uint64 v) 8 ++ bytes.drop 8

/-- The integer is a value of the C type `long` of the Windows target, the
return type of the `ioctl_*` functions (32 bits). -/
def is_long (v : Int) : Prop :=
  -2 ^ 31 ≤ v ∧ v < 2 ^ 31

instance (v : Int) : Decidable (is_long v) := by
  unfold is_long
  infer_instance

/-- External results for a request with an 8-byte input buffer and a 17-byte
output buffer, every external call succeeding, allocation at 12288. -/
def ext_req : Ext := ext_ok 12288 (some [1, 1, 0, 0, 0, 0, 0, 0]) (some (List.replicate 17 1))

/-- The byte counts reported through `WdfRequestSetInformation`, in order. -/
def byte_counts : List Event → List Nat
  | [] => []
  | Event.WdfRequestSetInformation n :: evs => n :: byte_counts evs
  | _ :: evs => byte_counts evs

/-- The statuses passed to `WdfRequestComplete`, in order. -/
def completions : List Event → List Int
  | [] => []
  | Event.WdfRequestComplete status :: evs => status :: completions evs
  | _ :: evs => completions evs

/-- Every memory access of a dispatch is inside the object it addresses: the
registry is well formed; for AddModule the input size is the size of an input
buffer that exists (and fits `int64_t`); for DumpVmm, when the Core API dump
succeeds, the output buffer and the descriptor hold at least
`sizeof(struct debug_ring_resources_t)` bytes; for VmmStatus and SetVcpuId a
buffer that is present holds at least 8 bytes. -/
def in_bounds (cfg : Config) (e : Ext) (OutputBufferLength InputBufferLength IoControlCode : Nat)
    (s : State) : Prop :=
  is_registry cfg s ∧
  (IoControlCode = cfg.IOCTL_ADD_MODULE →
    req_in_size e InputBufferLength < 2 ^ 63 ∧
    match req_in e InputBufferLength with
    | some bytes => req_in_size e InputBufferLength ≤ bytes.length
    | none => req_in_size e InputBufferLength = 0) ∧
  (IoControlCode = cfg.IOCTL_DUMP_VMM → e.common_dump_vmm = cfg.BF_SUCCESS →
    match req_out e OutputBufferLength, e.drr with
    | some slot, some d =>
      cfg.sizeof_debug_ring_resources_t ≤ slot.length ∧
        cfg.sizeof_debug_ring_resources_t ≤ d.length
    | _, _ => False) ∧
  (IoControlCode = cfg.IOCTL_VMM_STATUS →
    match req_out e OutputBufferLength with
    | some bytes => 8 ≤ bytes.length
    | none => True) ∧
  (IoControlCode = cfg.IOCTL_SET_VCPUID →
    match req_in e InputBufferLength with
    | some bytes => 8 ≤ bytes.length
    | none => True)

/-- The registry invariant: the registry is well formed; every record below the
count holds a non-null address at which a region is currently allocated; no
two records below the count hold the same address; every slot from the count
on is zeroed; every region that is currently allocated is held by a record
below the count. -/
def registry_invariant (cfg : Config) (s : State) : Prop :=
  is_registry cfg s ∧
  (∀ m ∈ s.pmodules.take s.g_num_pmodules.toNat, m.data ≠ 0 ∧ region s m.data ≠ none) ∧
  ((s.pmodules.take s.g_num_pmodules.toNat).map pmodule_t.data).Nodup ∧
  (∀ m ∈ s.pmodules.drop s.g_num_pmodules.toNat, m = { data := 0, size := 0 }) ∧
  (∀ r ∈ s.heap, r.1 ∈ (s.pmodules.take s.g_num_pmodules.toNat).map pmodule_t.data)

/-- The allocator contract for one entry into the driver: what
`platform_alloc_rwe` returns is `NULL` or an address at which no region is
currently allocated. -/
def allocator_fresh (e : Ext) (s : State) : Prop :=
  e.platform_alloc_rwe = 0 ∨ region s e.platform_alloc_rwe = none

/-- The states the driver can be in: the initial state, and every state a
dispatched command leaves, for any buffer configuration, command code and
external results within the allocator contract. -/
inductive Reachable (cfg : Config) : State → Prop where
  | init : Reachable cfg (init cfg)
  | step (s s1 : State) (e : Ext) (OutputBufferLength InputBufferLength IoControlCode : Nat)
      (out1 : Option (List Nat)) :
      Reachable cfg s → allocator_fresh e s →
      bareflankEvtIoDeviceControl cfg e OutputBufferLength InputBufferLength IoControlCode s =
        some (s1, out1) →
      Reachable cfg s1

/-- The state after the AddModule request of `ext_req` (8 input bytes, 17-byte
output buffer) on the initial state of the four-slot configuration. -/
def after_add4 : State where
  g_num_pmodules := 1
  pmodules := [⟨12288, 8⟩, ⟨0, 0⟩, ⟨0, 0⟩, ⟨0, 0⟩]
  g_vcpuid := 0
  heap := [(12288, [1, 1, 0, 0, 0, 0, 0, 0])]
  trace :=
    [Event.WdfRequestRetrieveInputBuffer 8 0, Event.WdfRequestRetrieveOutputBuffer 17 0,
     Event.platform_alloc_rwe 8 12288, Event.common_add_module 12288 8 0,
     Event.DEBUG "IOCTL_ADD_MODULE: succeeded\n",
     Event.WdfRequestSetInformation 17, Event.WdfRequestComplete 0]

/-! ## Auxiliary facts -/

theorem memset_memcpy_fresh (fill : Nat → Nat) (bytes : List Nat) :
    (platform_memset ((List.range bytes.length).map fill) 0 (bytes.length : Int)).bind
      (fun zeroed => platform_memcpy zeroed (some bytes) (bytes.length : Int)) = some bytes := by
  simp [platform_memset, platform_memcpy]
  split
  · next h => simp [h]
  · rw [List.drop_of_length_le (by simp)]
    simp

theorem find_filter_addr (h : List (Nat × List Nat)) (P : Nat → Bool) (a : Nat) :
    (h.filter (fun r => P r.1)).find? (fun r => r.1 = a) =
      if P a then h.find? (fun r => r.1 = a) else none := by
  induction h with
  | nil => simp
  | cons r t ih =>
    obtain ⟨x, y⟩ := r
    by_cases hp : P x = true
    · by_cases hr : x = a
      · subst hr
        simp [List.filter_cons, hp]
      · simp [List.filter_cons, hp, hr, ih]
    · by_cases hr : x = a
      · subst hr
        simp [List.filter_cons, hp, ih]
      · simp [List.filter_cons, hp, hr, ih]

theorem free_pmodules_eq (n : Nat) : ∀ (i : Nat) (s : State), i + n ≤ s.pmodules.length →
    free_pmodules n i s = some
      { s with
        heap := s.heap.filter
          (fun r => decide (r.1 ∉ ((s.pmodules.drop i).take n).map pmodule_t.data))
        trace := s.trace ++
          ((s.pmodules.drop i).take n).map (fun m => Event.platform_free_rwe m.data m.size) } := by
  induction n with
  | zero => intro i s _; simp [free_pmodules]
  | succ n ih =>
    intro i s h
    have hi : i < s.pmodules.length := by omega
    have hd : s.pmodules.drop i = s.pmodules[i] :: s.pmodules.drop (i + 1) :=
      List.drop_eq_getElem_cons hi
    simp only [free_pmodules, pmodules_load, List.getElem?_eq_getElem hi, Option.bind_eq_bind,
      Option.some_bind]
    rw [ih (i + 1) _ (by simpa [platform_free_rwe, emit] using (by omega : i + 1 + n ≤ _))]
    simp only [platform_free_rwe, emit, hd, List.take_succ_cons, List.map_cons,
      List.filter_filter, List.append_assoc, List.singleton_append, List.mem_cons, not_or]
    congr 3
    funext r
    by_cases h1 : r.1 = s.pmodules[i].data <;> simp [h1]

theorem region_filter_addr (s t : State) (P : Nat → Bool) (a : Nat)
    (h : t.heap = s.heap.filter (fun r => P r.1)) :
    region t a = if P a then region s a else none := by
  simp only [region, h, find_filter_addr]
  split <;> simp

/-- Closed form of `ioctl_unload_vmm` on a well-formed registry. -/
theorem ioctl_unload_vmm_eq (cfg : Config) (e : Ext) (s : State) (hreg : is_registry cfg s) :
    ioctl_unload_vmm cfg e s = some
      (if e.common_unload_vmm ≠ cfg.BF_SUCCESS then cfg.BF_IOCTL_FAILURE
        else cfg.BF_IOCTL_SUCCESS,
       { g_num_pmodules := 0
         pmodules := List.replicate cfg.MAX_NUM_MODULES { data := 0, size := 0 }
         g_vcpuid := s.g_vcpuid
         heap := s.heap.filter (fun r => decide
           (r.1 ∉ (s.pmodules.take s.g_num_pmodules.toNat).map pmodule_t.data))
         trace := s.trace ++ [Event.common_unload_vmm e.common_unload_vmm] ++
           (if e.common_unload_vmm ≠ cfg.BF_SUCCESS then
              [Event.ALERT "IOCTL_UNLOAD_VMM: failed to unload vmm: %d\n" [e.common_unload_vmm]]
            else []) ++
           (s.pmodules.take s.g_num_pmodules.toNat).map
             (fun m => Event.platform_free_rwe m.data m.size) ++
           (if (if e.common_unload_vmm ≠ cfg.BF_SUCCESS then cfg.BF_IOCTL_FAILURE
                 else cfg.BF_IOCTL_SUCCESS) = cfg.BF_IOCTL_SUCCESS then
              [Event.DEBUG "IOCTL_UNLOAD_VMM: succeeded\n"]
            else []) }) := by
  obtain ⟨hlen, h0, hle⟩ := hreg
  have hn : 0 + s.g_num_pmodules.toNat ≤ s.pmodules.length := by omega
  unfold ioctl_unload_vmm
  by_cases hret : e.common_unload_vmm = cfg.BF_SUCCESS
  · simp only [hret, emit, DEBUG, ne_eq, not_true_eq_false, if_false, if_true]
    rw [free_pmodules_eq _ 0 _ (by simpa using hn)]
    simp
  · by_cases hst : cfg.BF_IOCTL_FAILURE = cfg.BF_IOCTL_SUCCESS
    · simp only [hret, hst, emit, ALERT, DEBUG, ne_eq, not_false_eq_true, if_true]
      rw [free_pmodules_eq _ 0 _ (by simpa using hn)]
      simp
    · simp only [hret, hst, emit, ALERT, DEBUG, ne_eq, not_false_eq_true, if_true, if_false]
      rw [free_pmodules_eq _ 0 _ (by simpa using hn)]
      simp

/-! ## Adding a module -/

/-- C1: below capacity, with a successful allocation and a successful Core API
registration, `ioctl_add_module` returns success, the count grows by exactly
one, the record at the old count holds the new buffer and the given length,
that buffer holds exactly the input bytes, and the records below the old count
are unchanged. -/
theorem ioctl_add_module_success (cfg : Config) (e : Ext) (bytes : List Nat) (s : State)
    (hreg : is_registry cfg s) (hlt : s.g_num_pmodules < cfg.MAX_NUM_MODULES)
    (halloc : e.platform_alloc_rwe ≠ 0) (hadd : e.common_add_module = cfg.BF_SUCCESS) :
    ∃ s1, ioctl_add_module cfg e (some bytes) bytes.length s = some (cfg.BF_IOCTL_SUCCESS, s1) ∧
      s1.g_num_pmodules = s.g_num_pmodules + 1 ∧
      s1.pmodules[s.g_num_pmodules.toNat]? =
        some { data := e.platform_alloc_rwe, size := bytes.length } ∧
      region s1 e.platform_alloc_rwe = some bytes ∧
      ∀ i, i < s.g_num_pmodules.toNat → s1.pmodules[i]? = s.pmodules[i]? := by
  obtain ⟨hlen, h0, -⟩ := hreg
  have hidx : s.g_num_pmodules.toNat < s.pmodules.length := by omega
  have hmm := memset_memcpy_fresh e.rwe_fill bytes
  simp only [Option.bind_eq_some] at hmm
  obtain ⟨zeroed, hz, hc⟩ := hmm
  simp [ioctl_add_module, platform_alloc_rwe, not_le.mpr hlt, halloc, hadd, emit, region,
    hz, hc, set_region, pmodules_store, h0, hidx, DEBUG]
  intro i hi
  rw [List.getElem?_set_ne (by omega)]

/-- Witness for C1: the first module added to the empty four-slot registry. -/
theorem ioctl_add_module_success_witness :
    (is_registry cfg4 (init cfg4) ∧
      (init cfg4).g_num_pmodules < cfg4.MAX_NUM_MODULES ∧
      (ext_ok 4096 none none).platform_alloc_rwe ≠ 0 ∧
      (ext_ok 4096 none none).common_add_module = cfg4.BF_SUCCESS) ∧
    ∃ s1, ioctl_add_module cfg4 (ext_ok 4096 none none) (some [1, 2, 3])
        ([1, 2, 3] : List Nat).length (init cfg4) = some (cfg4.BF_IOCTL_SUCCESS, s1) ∧
      s1.g_num_pmodules = (init cfg4).g_num_pmodules + 1 ∧
      s1.pmodules[(init cfg4).g_num_pmodules.toNat]? =
        some { data := (ext_ok 4096 none none).platform_alloc_rwe,
               size := ([1, 2, 3] : List Nat).length } ∧
      region s1 (ext_ok 4096 none none).platform_alloc_rwe = some [1, 2, 3] ∧
      ∀ i, i < (init cfg4).g_num_pmodules.toNat → s1.pmodules[i]? = (init cfg4).pmodules[i]? :=
  ⟨by decide,
    ioctl_add_module_success cfg4 (ext_ok 4096 none none) [1, 2, 3] (init cfg4)
      (by decide) (by decide) (by decide) (by decide)⟩

/-- C2: with the count at `MAX_NUM_MODULES`, `ioctl_add_module` fails with
CapacityExceeded; the only thing it does is log that alert, so nothing is
allocated, the Core API is not called, and the count, every record, the vcpu
id and the allocated regions are as before. -/
theorem ioctl_add_module_full (cfg : Config) (e : Ext) (file : Option (List Nat)) (len : Int)
    (s : State) (hfull : s.g_num_pmodules = cfg.MAX_NUM_MODULES) :
    ioctl_add_module cfg e file len s =
      some (cfg.BF_IOCTL_FAILURE, { s with trace := s.trace ++ [CapacityExceeded] }) := by
  simp [ioctl_add_module, hfull, ALERT, emit, CapacityExceeded]

/-- Witness for C2: a fifth module offered to the full four-slot registry. -/
theorem ioctl_add_module_full_witness :
    full4.g_num_pmodules = cfg4.MAX_NUM_MODULES ∧
    ioctl_add_module cfg4 (ext_ok 20480 none none) (some [9]) 1 full4 =
      some (cfg4.BF_IOCTL_FAILURE, { full4 with trace := full4.trace ++ [CapacityExceeded] }) :=
  ⟨by decide, ioctl_add_module_full cfg4 (ext_ok 20480 none none) (some [9]) 1 full4 (by decide)⟩

/-- C3: below capacity, when the allocation succeeds and the Core API
registration fails, `ioctl_add_module` fails with RegistrationFailure. Its
external calls are, in order, the allocation, the registration, the alert and
one `platform_free_rwe` of the address just allocated with the same length;
the count, every record and the vcpu id are as before, the new region is no
longer allocated and every region at another address is untouched. -/
theorem ioctl_add_module_registration_failure (cfg : Config) (e : Ext) (bytes : List Nat)
    (s : State) (hlt : s.g_num_pmodules < cfg.MAX_NUM_MODULES)
    (halloc : e.platform_alloc_rwe ≠ 0) (hadd : e.common_add_module ≠ cfg.BF_SUCCESS) :
    ∃ s1, ioctl_add_module cfg e (some bytes) bytes.length s = some (cfg.BF_IOCTL_FAILURE, s1) ∧
      s1.trace = s.trace ++
        [Event.platform_alloc_rwe bytes.length e.platform_alloc_rwe,
         Event.common_add_module e.platform_alloc_rwe bytes.length e.common_add_module,
         RegistrationFailure,
         Event.platform_free_rwe e.platform_alloc_rwe bytes.length,
         Event.DEBUG "IOCTL_ADD_MODULE: failed\n"] ∧
      s1.g_num_pmodules = s.g_num_pmodules ∧
      s1.pmodules = s.pmodules ∧
      s1.g_vcpuid = s.g_vcpuid ∧
      region s1 e.platform_alloc_rwe = none ∧
      ∀ a, a ≠ e.platform_alloc_rwe → region s1 a = region s a := by
  have hmm := memset_memcpy_fresh e.rwe_fill bytes
  simp only [Option.bind_eq_some] at hmm
  obtain ⟨zeroed, hz, hc⟩ := hmm
  simp [ioctl_add_module, platform_alloc_rwe, not_le.mpr hlt, halloc, hadd, emit, region,
    hz, hc, set_region, platform_free_rwe, DEBUG, ALERT, RegistrationFailure]
  intro a ha
  congr 2
  funext r
  by_cases h : r.1 = a
  · simp [h, ha]
  · simp [h]

/-- Witness for C3: a third module whose registration the Core API rejects. -/
theorem ioctl_add_module_registration_failure_witness :
    (two4.g_num_pmodules < cfg4.MAX_NUM_MODULES ∧
      (ext_core_fails 12288 none none).platform_alloc_rwe ≠ 0 ∧
      (ext_core_fails 12288 none none).common_add_module ≠ cfg4.BF_SUCCESS) ∧
    ∃ s1, ioctl_add_module cfg4 (ext_core_fails 12288 none none) (some [5, 6, 7])
        ([5, 6, 7] : List Nat).length two4 = some (cfg4.BF_IOCTL_FAILURE, s1) ∧
      s1.trace = two4.trace ++
        [Event.platform_alloc_rwe ([5, 6, 7] : List Nat).length
           (ext_core_fails 12288 none none).platform_alloc_rwe,
         Event.common_add_module (ext_core_fails 12288 none none).platform_alloc_rwe
           ([5, 6, 7] : List Nat).length (ext_core_fails 12288 none none).common_add_module,
         RegistrationFailure,
         Event.platform_free_rwe (ext_core_fails 12288 none none).platform_alloc_rwe
           ([5, 6, 7] : List Nat).length,
         Event.DEBUG "IOCTL_ADD_MODULE: failed\n"] ∧
      s1.g_num_pmodules = two4.g_num_pmodules ∧
      s1.pmodules = two4.pmodules ∧
      s1.g_vcpuid = two4.g_vcpuid ∧
      region s1 (ext_core_fails 12288 none none).platform_alloc_rwe = none ∧
      ∀ a, a ≠ (ext_core_fails 12288 none none).platform_alloc_rwe →
        region s1 a = region two4 a :=
  ⟨by decide,
    ioctl_add_module_registration_failure cfg4 (ext_core_fails 12288 none none) [5, 6, 7] two4
      (by decide) (by decide) (by decide)⟩

/-! ## Unloading and loading -/

/-- C6: on every well-formed registry and for every result of the Core API
unload, `ioctl_unload_vmm` returns; it calls the Core API unload once, then
(after the alert, when that call failed) frees the buffer of each record below
the count once, in index order and with the recorded size, zeroes the whole
array and sets the count to 0.  The freed regions are no longer allocated and
regions at other addresses are untouched.  The returned status is the failure
status exactly when the Core API call failed. -/
theorem ioctl_unload_vmm_cleanup (cfg : Config) (e : Ext) (s : State)
    (hreg : is_registry cfg s) :
    ∃ s1, ioctl_unload_vmm cfg e s = some (status_of cfg e.common_unload_vmm, s1) ∧
      s1.trace = s.trace ++ [Event.common_unload_vmm e.common_unload_vmm] ++
        (if e.common_unload_vmm ≠ cfg.BF_SUCCESS then [UnloadFailure e.common_unload_vmm]
          else []) ++
        frees_of s ++
        (if status_of cfg e.common_unload_vmm = cfg.BF_IOCTL_SUCCESS then
            [Event.DEBUG "IOCTL_UNLOAD_VMM: succeeded\n"]
          else []) ∧
      s1.g_num_pmodules = 0 ∧
      s1.pmodules = zeroed_pmodules cfg ∧
      s1.g_vcpuid = s.g_vcpuid ∧
      (∀ m ∈ s.pmodules.take s.g_num_pmodules.toNat, region s1 m.data = none) ∧
      ∀ a, (∀ m ∈ s.pmodules.take s.g_num_pmodules.toNat, m.data ≠ a) →
        region s1 a = region s a := by
  refine ⟨_, ioctl_unload_vmm_eq cfg e s hreg, ?_, rfl, rfl, rfl, ?_, ?_⟩
  · simp [status_of, UnloadFailure, frees_of]
  · intro m hm
    rw [region_filter_addr s _ (fun x => decide
      (x ∉ (s.pmodules.take s.g_num_pmodules.toNat).map pmodule_t.data)) _ rfl]
    have : m.data ∈ (s.pmodules.take s.g_num_pmodules.toNat).map pmodule_t.data :=
      List.mem_map_of_mem _ hm
    rw [if_neg (by simpa using this)]
  · intro a ha
    rw [region_filter_addr s _ (fun x => decide
      (x ∉ (s.pmodules.take s.g_num_pmodules.toNat).map pmodule_t.data)) _ rfl]
    have : a ∉ (s.pmodules.take s.g_num_pmodules.toNat).map pmodule_t.data := by
      intro hmem
      obtain ⟨m, hm, rfl⟩ := List.mem_map.mp hmem
      exact ha m hm rfl
    rw [if_pos (by simpa using this)]

/-- Witness for C6: unloading two modules while the Core API unload fails. -/
theorem ioctl_unload_vmm_cleanup_witness :
    is_registry cfg4 two4 ∧
    ∃ s1, ioctl_unload_vmm cfg4 (ext_core_fails 0 none none) two4 =
        some (status_of cfg4 (ext_core_fails 0 none none).common_unload_vmm, s1) ∧
      s1.trace = two4.trace ++
        [Event.common_unload_vmm (ext_core_fails 0 none none).common_unload_vmm] ++
        (if (ext_core_fails 0 none none).common_unload_vmm ≠ cfg4.BF_SUCCESS then
            [UnloadFailure (ext_core_fails 0 none none).common_unload_vmm]
          else []) ++
        frees_of two4 ++
        (if status_of cfg4 (ext_core_fails 0 none none).common_unload_vmm
              = cfg4.BF_IOCTL_SUCCESS then
            [Event.DEBUG "IOCTL_UNLOAD_VMM: succeeded\n"]
          else []) ∧
      s1.g_num_pmodules = 0 ∧
      s1.pmodules = zeroed_pmodules cfg4 ∧
      s1.g_vcpuid = two4.g_vcpuid ∧
      (∀ m ∈ two4.pmodules.take two4.g_num_pmodules.toNat, region s1 m.data = none) ∧
      ∀ a, (∀ m ∈ two4.pmodules.take two4.g_num_pmodules.toNat, m.data ≠ a) →
        region s1 a = region two4 a :=
  ⟨by decide, ioctl_unload_vmm_cleanup cfg4 (ext_core_fails 0 none none) two4 (by decide)⟩

/-- C5: on every well-formed registry, whatever it holds and whatever the Core
API unload returns, a failing Core API load makes `ioctl_load_vmm` return the
failure status after running the whole of `ioctl_unload_vmm`: afterwards the
count is 0, every slot is zeroed, and the buffer of each record that was below
the old count has been passed to `platform_free_rwe` and is no longer
allocated. -/
theorem ioctl_load_vmm_failure (cfg : Config) (e : Ext) (s : State)
    (hreg : is_registry cfg s) (hload : e.common_load_vmm ≠ cfg.BF_SUCCESS) :
    ∃ s1, ioctl_load_vmm cfg e s = some (cfg.BF_IOCTL_FAILURE, s1) ∧
      s1.trace = s.trace ++
        [Event.common_load_vmm e.common_load_vmm, LoadFailure e.common_load_vmm,
         Event.common_unload_vmm e.common_unload_vmm] ++
        (if e.common_unload_vmm ≠ cfg.BF_SUCCESS then [UnloadFailure e.common_unload_vmm]
          else []) ++
        frees_of s ++
        (if status_of cfg e.common_unload_vmm = cfg.BF_IOCTL_SUCCESS then
            [Event.DEBUG "IOCTL_UNLOAD_VMM: succeeded\n"]
          else []) ∧
      s1.g_num_pmodules = 0 ∧
      s1.pmodules = zeroed_pmodules cfg ∧
      ∀ m ∈ s.pmodules.take s.g_num_pmodules.toNat, region s1 m.data = none := by
  have hreg1 : is_registry cfg
      (ALERT "IOCTL_LOAD_VMM: failed to load vmm: %d\n" [e.common_load_vmm]
        (emit (Event.common_load_vmm e.common_load_vmm) s)) := hreg
  have hu := ioctl_unload_vmm_eq cfg e _ hreg1
  simp only [ioctl_load_vmm, hload, ne_eq, not_false_eq_true, if_true, hu, Option.bind_eq_bind,
    Option.some_bind]
  refine ⟨_, rfl, ?_, rfl, rfl, ?_⟩
  · simp [status_of, UnloadFailure, LoadFailure, frees_of, ALERT, emit]
  · intro m hm
    rw [region_filter_addr s _ (fun x => decide
      (x ∉ (s.pmodules.take s.g_num_pmodules.toNat).map pmodule_t.data)) _ rfl]
    have : m.data ∈ (s.pmodules.take s.g_num_pmodules.toNat).map pmodule_t.data :=
      List.mem_map_of_mem _ hm
    rw [if_neg (by simpa using this)]

/-- Witness for C5: a failing load on a registry that holds two modules. -/
theorem ioctl_load_vmm_failure_witness :
    (is_registry cfg4 two4 ∧
      (ext_core_fails 0 none none).common_load_vmm ≠ cfg4.BF_SUCCESS) ∧
    ∃ s1, ioctl_load_vmm cfg4 (ext_core_fails 0 none none) two4 =
        some (cfg4.BF_IOCTL_FAILURE, s1) ∧
      s1.trace = two4.trace ++
        [Event.common_load_vmm (ext_core_fails 0 none none).common_load_vmm,
         LoadFailure (ext_core_fails 0 none none).common_load_vmm,
         Event.common_unload_vmm (ext_core_fails 0 none none).common_unload_vmm] ++
        (if (ext_core_fails 0 none none).common_unload_vmm ≠ cfg4.BF_SUCCESS then
            [UnloadFailure (ext_core_fails 0 none none).common_unload_vmm]
          else []) ++
        frees_of two4 ++
        (if status_of cfg4 (ext_core_fails 0 none none).common_unload_vmm
              = cfg4.BF_IOCTL_SUCCESS then
            [Event.DEBUG "IOCTL_UNLOAD_VMM: succeeded\n"]
          else []) ∧
      s1.g_num_pmodules = 0 ∧
      s1.pmodules = zeroed_pmodules cfg4 ∧
      ∀ m ∈ two4.pmodules.take two4.g_num_pmodules.toNat, region s1 m.data = none :=
  ⟨by decide,
    ioctl_load_vmm_failure cfg4 (ext_core_fails 0 none none) two4 (by decide) (by decide)⟩

/-- C7: on every well-formed registry and for every pair of Core API unload
results, two calls of `ioctl_unload_vmm` in succession both return; after each
the count is 0 and every slot is zeroed; the second call changes nothing but
the log (count, array, vcpu id and allocated regions are those left by the
first), and what it logs is the Core API unload and its report only, with no
`platform_free_rwe`. -/
theorem ioctl_unload_vmm_twice (cfg : Config) (e1 e2 : Ext) (s : State)
    (hreg : is_registry cfg s) :
    ∃ s1 s2, ioctl_unload_vmm cfg e1 s = some (status_of cfg e1.common_unload_vmm, s1) ∧
      ioctl_unload_vmm cfg e2 s1 = some (status_of cfg e2.common_unload_vmm, s2) ∧
      s1.g_num_pmodules = 0 ∧ s1.pmodules = zeroed_pmodules cfg ∧
      s2.g_num_pmodules = 0 ∧ s2.pmodules = zeroed_pmodules cfg ∧
      s2 = { s1 with
        trace := s1.trace ++ [Event.common_unload_vmm e2.common_unload_vmm] ++
          (if e2.common_unload_vmm ≠ cfg.BF_SUCCESS then [UnloadFailure e2.common_unload_vmm]
            else []) ++
          (if status_of cfg e2.common_unload_vmm = cfg.BF_IOCTL_SUCCESS then
              [Event.DEBUG "IOCTL_UNLOAD_VMM: succeeded\n"]
            else []) } := by
  have h1 := ioctl_unload_vmm_eq cfg e1 s hreg
  refine ⟨_, _, h1, ioctl_unload_vmm_eq cfg e2 _ ?_, rfl, rfl, rfl, rfl, ?_⟩
  · exact ⟨by simp, le_refl _, by simp⟩
  · simp [status_of, UnloadFailure]

/-- Witness for C7: two modules unloaded, then unloaded again, the Core API
unload failing the first time and succeeding the second. -/
theorem ioctl_unload_vmm_twice_witness :
    is_registry cfg4 two4 ∧
    ∃ s1 s2, ioctl_unload_vmm cfg4 (ext_core_fails 0 none none) two4 =
        some (status_of cfg4 (ext_core_fails 0 none none).common_unload_vmm, s1) ∧
      ioctl_unload_vmm cfg4 (ext_ok 0 none none) s1 =
        some (status_of cfg4 (ext_ok 0 none none).common_unload_vmm, s2) ∧
      s1.g_num_pmodules = 0 ∧ s1.pmodules = zeroed_pmodules cfg4 ∧
      s2.g_num_pmodules = 0 ∧ s2.pmodules = zeroed_pmodules cfg4 ∧
      s2 = { s1 with
        trace := s1.trace ++ [Event.common_unload_vmm (ext_ok 0 none none).common_unload_vmm] ++
          (if (ext_ok 0 none none).common_unload_vmm ≠ cfg4.BF_SUCCESS then
              [UnloadFailure (ext_ok 0 none none).common_unload_vmm]
            else []) ++
          (if status_of cfg4 (ext_ok 0 none none).common_unload_vmm = cfg4.BF_IOCTL_SUCCESS then
              [Event.DEBUG "IOCTL_UNLOAD_VMM: succeeded\n"]
            else []) } :=
  ⟨by decide,
    ioctl_unload_vmm_twice cfg4 (ext_core_fails 0 none none) (ext_ok 0 none none) two4
      (by decide)⟩

/-! ## Starting and stopping -/

/-- C8: in every state, when the Core API start fails, `ioctl_start_vmm`
returns the failure status; after the start and its alert it has called the
Core API stop exactly once, whatever that returns, and it has changed nothing
but the log: the count, every record, the vcpu id and the allocated regions are
as before. -/
theorem ioctl_start_vmm_failure (cfg : Config) (e : Ext) (s : State)
    (hstart : e.common_start_vmm ≠ cfg.BF_SUCCESS) :
    ioctl_start_vmm cfg e s =
      (cfg.BF_IOCTL_FAILURE,
       { s with
         trace := s.trace ++
           [Event.common_start_vmm e.common_start_vmm, StartFailure e.common_start_vmm,
            Event.common_stop_vmm e.common_stop_vmm] ++
           (if e.common_stop_vmm ≠ cfg.BF_SUCCESS then [StopFailure e.common_stop_vmm]
             else []) ++
           (if status_of cfg e.common_stop_vmm = cfg.BF_IOCTL_SUCCESS then
               [Event.DEBUG "IOCTL_STOP_VMM: succeeded\n"]
             else []) }) := by
  by_cases hstop : e.common_stop_vmm = cfg.BF_SUCCESS
  · simp [ioctl_start_vmm, ioctl_stop_vmm, hstart, hstop, status_of, StartFailure, ALERT,
      DEBUG, emit]
  · by_cases hst : cfg.BF_IOCTL_FAILURE = cfg.BF_IOCTL_SUCCESS
    · simp [ioctl_start_vmm, ioctl_stop_vmm, hstart, hstop, hst, status_of, StartFailure,
        StopFailure, ALERT, DEBUG, emit]
    · simp [ioctl_start_vmm, ioctl_stop_vmm, hstart, hstop, hst, status_of, StartFailure,
        StopFailure, ALERT, DEBUG, emit]

/-- Witness for C8: a failing start on a registry that holds two modules, the
stop that follows failing as well. -/
theorem ioctl_start_vmm_failure_witness :
    (ext_core_fails 0 none none).common_start_vmm ≠ cfg4.BF_SUCCESS ∧
    ioctl_start_vmm cfg4 (ext_core_fails 0 none none) two4 =
      (cfg4.BF_IOCTL_FAILURE,
       { two4 with
         trace := two4.trace ++
           [Event.common_start_vmm (ext_core_fails 0 none none).common_start_vmm,
            StartFailure (ext_core_fails 0 none none).common_start_vmm,
            Event.common_stop_vmm (ext_core_fails 0 none none).common_stop_vmm] ++
           (if (ext_core_fails 0 none none).common_stop_vmm ≠ cfg4.BF_SUCCESS then
               [StopFailure (ext_core_fails 0 none none).common_stop_vmm]
             else []) ++
           (if status_of cfg4 (ext_core_fails 0 none none).common_stop_vmm
                 = cfg4.BF_IOCTL_SUCCESS then
               [Event.DEBUG "IOCTL_STOP_VMM: succeeded\n"]
             else []) }) :=
  ⟨by decide, ioctl_start_vmm_failure cfg4 (ext_core_fails 0 none none) two4 (by decide)⟩

/-! ## Status -/

/-- C10: in every state, `ioctl_vmm_status` with a null slot fails with
InvalidArgument, and with a present slot it succeeds and leaves in the slot
exactly the status the Core API reported; in both cases it changes nothing but
the log (count, records, vcpu id and allocated regions are as before), where
it records the Core API status query and the report. -/
theorem ioctl_vmm_status_spec (cfg : Config) (e : Ext) (s : State) :
    ioctl_vmm_status cfg e none s =
      (cfg.BF_IOCTL_FAILURE,
       { s with trace := s.trace ++
           [Event.common_vmm_status e.common_vmm_status, InvalidArgument_status] },
       none) ∧
    ∀ old : Int, ioctl_vmm_status cfg e (some old) s =
      (cfg.BF_IOCTL_SUCCESS,
       { s with trace := s.trace ++
           [Event.common_vmm_status e.common_vmm_status,
            Event.DEBUG "IOCTL_VMM_STATUS: succeeded\n"] },
       some e.common_vmm_status) := by
  simp [ioctl_vmm_status, InvalidArgument_status, ALERT, DEBUG, emit]

/-! ## The dispatcher -/

/-- C9: in every state, for every buffer configuration and every command code
that is none of the eight case labels, `bareflankEvtIoDeviceControl` returns
having completed the request with `STATUS_INVALID_PARAMETER` as its last
action; everything it did before is buffer retrieval, so no operation ran, no
Core API call was made, no byte count was set; the count, every record, the
vcpu id, the allocated regions and the output buffer are as before. -/
theorem dispatch_unrecognised_code (cfg : Config) (e : Ext)
    (OutputBufferLength InputBufferLength IoControlCode : Nat) (s : State)
    (hcode : IoControlCode ∉ cfg.codes) :
    ∃ s1, bareflankEvtIoDeviceControl cfg e OutputBufferLength InputBufferLength
        IoControlCode s = some (s1, e.output.buf) ∧
      s1.g_num_pmodules = s.g_num_pmodules ∧
      s1.pmodules = s.pmodules ∧
      s1.g_vcpuid = s.g_vcpuid ∧
      s1.heap = s.heap ∧
      ∃ evs, s1.trace = s.trace ++ evs ++ [Event.WdfRequestComplete STATUS_INVALID_PARAMETER] ∧
        ∀ ev ∈ evs,
          ev = Event.WdfRequestRetrieveInputBuffer InputBufferLength e.input.status ∨
          ev = Event.WdfRequestRetrieveOutputBuffer OutputBufferLength e.output.status := by
  simp only [Config.codes, List.mem_cons, List.mem_singleton, not_or, List.not_mem_nil,
    or_false] at hcode
  obtain ⟨h1, h2, h3, h4, h5, h6, h7, h8⟩ := hcode
  refine ⟨{ s with trace := s.trace ++ retrievals e OutputBufferLength InputBufferLength ++
    [Event.WdfRequestComplete STATUS_INVALID_PARAMETER] }, ?_, rfl, rfl, rfl, rfl,
    retrievals e OutputBufferLength InputBufferLength, rfl, ?_⟩
  · unfold bareflankEvtIoDeviceControl
    simp only [h1, h2, h3, h4, h5, h6, h7, h8, if_false, FAIL_IOCTL, emit, retrievals]
    by_cases hi : InputBufferLength = 0 <;> by_cases ho : OutputBufferLength = 0 <;>
      by_cases hsi : NT_SUCCESS e.input.status = true <;>
      by_cases hso : NT_SUCCESS e.output.status = true <;>
      simp [hi, ho, hsi, hso]
  · intro ev hev
    simp only [retrievals, List.mem_append] at hev
    rcases hev with hev | hev
    · split at hev
      · left; simpa using hev
      · simp at hev
    · split at hev
      · simp at hev
      · split at hev
        · right; simpa using hev
        · simp at hev

/-- Witness for C9: code 0x809 with an 8-byte input and a 17-byte output
buffer, on a registry that holds two modules. -/
theorem dispatch_unrecognised_code_witness :
    0x809 ∉ cfg4.codes ∧
    ∃ s1, bareflankEvtIoDeviceControl cfg4
        (ext_ok 0 (some [1, 1, 0, 0, 0, 0, 0, 0]) (some (List.replicate 17 1))) 17 8 0x809 two4 =
        some (s1, (ext_ok 0 (some [1, 1, 0, 0, 0, 0, 0, 0]) (some (List.replicate 17 1))).output.buf) ∧
      s1.g_num_pmodules = two4.g_num_pmodules ∧
      s1.pmodules = two4.pmodules ∧
      s1.g_vcpuid = two4.g_vcpuid ∧
      s1.heap = two4.heap ∧
      ∃ evs, s1.trace = two4.trace ++ evs ++
          [Event.WdfRequestComplete STATUS_INVALID_PARAMETER] ∧
        ∀ ev ∈ evs,
          ev = Event.WdfRequestRetrieveInputBuffer 8
            (ext_ok 0 (some [1, 1, 0, 0, 0, 0, 0, 0]) (some (List.replicate 17 1))).input.status ∨
          ev = Event.WdfRequestRetrieveOutputBuffer 17
            (ext_ok 0 (some [1, 1, 0, 0, 0, 0, 0, 0]) (some (List.replicate 17 1))).output.status :=
  ⟨by decide,
    dispatch_unrecognised_code cfg4
      (ext_ok 0 (some [1, 1, 0, 0, 0, 0, 0, 0]) (some (List.replicate 17 1))) 17 8 0x809 two4
      (by decide)⟩

/-- C4, as stated, fails.  VmmStatus dispatched with no output buffer: the
dispatcher calls `ioctl_vmm_status`, which queries the Core API and only then
reports the null slot; the request is completed with that operation's status,
not with `STATUS_INVALID_PARAMETER`.  DumpVmm dispatched with a 17-byte output
buffer, the descriptor being 16 bytes: the dispatcher calls `ioctl_dump_vmm`,
the Core API dump is made and the output buffer is overwritten. -/
theorem dispatch_runs_operation_without_size_check :
    (∃ s1 out1, bareflankEvtIoDeviceControl cfg4 (ext_ok 0 none none) 0 0
        cfg4.IOCTL_VMM_STATUS two4 = some (s1, out1) ∧
      Event.common_vmm_status 0 ∈ s1.trace ∧
      InvalidArgument_status ∈ s1.trace ∧
      Event.WdfRequestComplete STATUS_INVALID_PARAMETER ∉ s1.trace ∧
      Event.WdfRequestComplete (-1) ∈ s1.trace) ∧
    (∃ s1 out1, bareflankEvtIoDeviceControl cfg4 (ext_ok 0 none (some (List.replicate 17 1)))
        17 0 cfg4.IOCTL_DUMP_VMM two4 = some (s1, out1) ∧
      (List.replicate 17 1).length ≠ cfg4.sizeof_debug_ring_resources_t ∧
      Event.common_dump_vmm 3 0 ∈ s1.trace ∧
      Event.DEBUG "IOCTL_DUMP_VMM: succeeded\n" ∈ s1.trace ∧
      Event.WdfRequestComplete STATUS_INVALID_PARAMETER ∉ s1.trace ∧
      out1 = some (List.replicate 16 7 ++ [1]) ∧
      out1 ≠ (ext_ok 0 none (some (List.replicate 17 1))).output.buf) := by
  refine ⟨⟨{ two4 with trace := [Event.common_vmm_status 0, InvalidArgument_status,
      Event.WdfRequestComplete (-1)] }, none, by decide, by decide, by decide, by decide,
      by decide⟩,
    ⟨{ two4 with trace := [Event.WdfRequestRetrieveOutputBuffer 17 0, Event.common_dump_vmm 3 0,
      Event.DEBUG "IOCTL_DUMP_VMM: succeeded\n", Event.WdfRequestSetInformation 17,
      Event.WdfRequestComplete 0] }, some (List.replicate 16 7 ++ [1]), by decide, by decide,
      by decide, by decide, by decide, rfl, by decide⟩⟩

/-- C4 as amended: the dispatcher does not reject a request whose required
buffer is absent; it calls the operation with a null pointer and the operation
itself fails with InvalidArgument.  For VmmStatus with no output buffer the
Core API status is queried once before the failure is reported; for SetVcpuId
with no input buffer no Core API call is made.  In both cases the request is
completed with the operation's failure status, and the count, every record,
the vcpu id, the allocated regions and the output buffer are as before. -/
theorem dispatch_absent_buffer (cfg : Config) (e : Ext)
    (OutputBufferLength InputBufferLength : Nat) (s : State)
    (hcodes : cfg.codes.Nodup)
    (hin : InputBufferLength = 0 ∨ NT_SUCCESS e.input.status = true)
    (hout : OutputBufferLength = 0 ∨ NT_SUCCESS e.output.status = true) :
    bareflankEvtIoDeviceControl cfg e 0 InputBufferLength cfg.IOCTL_VMM_STATUS s =
      some ({ s with
          trace := s.trace ++ retrievals e 0 InputBufferLength ++
            [Event.common_vmm_status e.common_vmm_status, InvalidArgument_status,
             Event.WdfRequestComplete (completion_status cfg.BF_IOCTL_FAILURE)] },
        e.output.buf) ∧
    bareflankEvtIoDeviceControl cfg e OutputBufferLength 0 cfg.IOCTL_SET_VCPUID s =
      some ({ s with
          trace := s.trace ++ retrievals e OutputBufferLength 0 ++
            [InvalidArgument_vcpuid] ++
            (if OutputBufferLength ≠ 0 then [Event.WdfRequestSetInformation e.output.size]
              else []) ++
            [Event.WdfRequestComplete (completion_status cfg.BF_IOCTL_FAILURE)] },
        e.output.buf) := by
  simp only [Config.codes, List.nodup_cons, List.mem_cons, List.mem_singleton, not_or,
    List.not_mem_nil, or_false] at hcodes
  obtain ⟨⟨-, -, -, -, -, h17, h18⟩, ⟨-, -, -, -, h27, h28⟩, ⟨-, -, -, h37, h38⟩,
    ⟨-, -, h47, h48⟩, ⟨-, h57, h58⟩, ⟨h67, h68⟩, h78, -⟩ := hcodes
  constructor
  · unfold bareflankEvtIoDeviceControl
    simp only [Ne.symm h17, Ne.symm h27, Ne.symm h37, Ne.symm h47, Ne.symm h57, Ne.symm h67,
      if_false, if_true, ne_eq, not_true_eq_false, false_and, ioctl_vmm_status, complete,
      emit, ALERT, retrievals, completion_status, InvalidArgument_status]
    rcases hin with hi | hi
    · simp [hi]
    · by_cases h0 : InputBufferLength = 0 <;> simp [hi, h0]
  · unfold bareflankEvtIoDeviceControl
    simp only [Ne.symm h18, Ne.symm h28, Ne.symm h38, Ne.symm h48, Ne.symm h58, Ne.symm h68,
      Ne.symm h78, if_false, if_true, ne_eq, not_true_eq_false, false_and, ioctl_set_vcpuid,
      complete, emit, ALERT, retrievals, completion_status, InvalidArgument_vcpuid]
    rcases hout with ho | ho
    · simp [ho]
    · by_cases h0 : OutputBufferLength = 0 <;> simp [ho, h0]

/-- Witness for the amended C4: VmmStatus with an 8-byte input and no output
buffer, SetVcpuId with a 17-byte output and no input buffer. -/
theorem dispatch_absent_buffer_witness :
    (cfg4.codes.Nodup ∧
      ((8 : Nat) = 0 ∨ NT_SUCCESS
        (ext_ok 0 (some [1, 1, 0, 0, 0, 0, 0, 0]) (some (List.replicate 17 1))).input.status
          = true) ∧
      ((17 : Nat) = 0 ∨ NT_SUCCESS
        (ext_ok 0 (some [1, 1, 0, 0, 0, 0, 0, 0]) (some (List.replicate 17 1))).output.status
          = true)) ∧
    (bareflankEvtIoDeviceControl cfg4
        (ext_ok 0 (some [1, 1, 0, 0, 0, 0, 0, 0]) (some (List.replicate 17 1)))
        0 8 cfg4.IOCTL_VMM_STATUS two4 =
      some ({ two4 with
          trace := two4.trace ++
            retrievals (ext_ok 0 (some [1, 1, 0, 0, 0, 0, 0, 0]) (some (List.replicate 17 1)))
              0 8 ++
            [Event.common_vmm_status
               (ext_ok 0 (some [1, 1, 0, 0, 0, 0, 0, 0])
                 (some (List.replicate 17 1))).common_vmm_status,
             InvalidArgument_status,
             Event.WdfRequestComplete (completion_status cfg4.BF_IOCTL_FAILURE)] },
        (ext_ok 0 (some [1, 1, 0, 0, 0, 0, 0, 0]) (some (List.replicate 17 1))).output.buf) ∧
    bareflankEvtIoDeviceControl cfg4
        (ext_ok 0 (some [1, 1, 0, 0, 0, 0, 0, 0]) (some (List.replicate 17 1)))
        17 0 cfg4.IOCTL_SET_VCPUID two4 =
      some ({ two4 with
          trace := two4.trace ++
            retrievals (ext_ok 0 (some [1, 1, 0, 0, 0, 0, 0, 0]) (some (List.replicate 17 1)))
              17 0 ++
            [InvalidArgument_vcpuid] ++
            (if (17 : Nat) ≠ 0 then
                [Event.WdfRequestSetInformation
                  (ext_ok 0 (some [1, 1, 0, 0, 0, 0, 0, 0])
                    (some (List.replicate 17 1))).output.size]
              else []) ++
            [Event.WdfRequestComplete (completion_status cfg4.BF_IOCTL_FAILURE)] },
        (ext_ok 0 (some [1, 1, 0, 0, 0, 0, 0, 0]) (some (List.replicate 17 1))).output.buf)) :=
  ⟨by decide,
    dispatch_absent_buffer cfg4
      (ext_ok 0 (some [1, 1, 0, 0, 0, 0, 0, 0]) (some (List.replicate 17 1))) 17 8 two4
      (by decide) (by decide) (by decide)⟩

/-! ## Further contracts of the operations -/

/-- C17: below capacity, when `platform_alloc_rwe` returns `NULL`,
`ioctl_add_module` fails with AllocationFailure; its only external calls are
the allocation and the alert, so the Core API registration is not called and
nothing is freed, and the count, every record, the vcpu id and the allocated
regions are as before. -/
theorem ioctl_add_module_allocation_failure (cfg : Config) (e : Ext)
    (file : Option (List Nat)) (len : Int) (s : State)
    (hlt : s.g_num_pmodules < cfg.MAX_NUM_MODULES) (halloc : e.platform_alloc_rwe = 0) :
    ioctl_add_module cfg e file len s =
      some (cfg.BF_IOCTL_FAILURE,
        { s with trace := s.trace ++ [Event.platform_alloc_rwe len 0, AllocationFailure] }) := by
  simp [ioctl_add_module, platform_alloc_rwe, not_le.mpr hlt, halloc, emit, ALERT,
    AllocationFailure]

/-- Witness for C17: a third module for which no memory can be allocated. -/
theorem ioctl_add_module_allocation_failure_witness :
    (two4.g_num_pmodules < cfg4.MAX_NUM_MODULES ∧
      (ext_ok 0 none none).platform_alloc_rwe = 0) ∧
    ioctl_add_module cfg4 (ext_ok 0 none none) (some [5, 6, 7]) 3 two4 =
      some (cfg4.BF_IOCTL_FAILURE,
        { two4 with
          trace := two4.trace ++ [Event.platform_alloc_rwe 3 0, AllocationFailure] }) :=
  ⟨by decide,
    ioctl_add_module_allocation_failure cfg4 (ext_ok 0 none none) (some [5, 6, 7]) 3 two4
      (by decide) (by decide)⟩

/-- C16: in every state and for every result of the Core API stop,
`ioctl_stop_vmm` returns; it calls the Core API stop exactly once, logs the
StopFailure alert exactly when that call failed, returns the failure status
when it failed and the success status otherwise, and changes nothing but the
log: the count, every record, the vcpu id and the allocated regions are as
before. -/
theorem ioctl_stop_vmm_spec (cfg : Config) (e : Ext) (s : State) :
    ioctl_stop_vmm cfg e s =
      (if e.common_stop_vmm ≠ cfg.BF_SUCCESS then cfg.BF_IOCTL_FAILURE
        else cfg.BF_IOCTL_SUCCESS,
       { s with
         trace := s.trace ++ [Event.common_stop_vmm e.common_stop_vmm] ++
           (if e.common_stop_vmm ≠ cfg.BF_SUCCESS then [StopFailure e.common_stop_vmm]
             else []) ++
           (if status_of cfg e.common_stop_vmm = cfg.BF_IOCTL_SUCCESS then
               [Event.DEBUG "IOCTL_STOP_VMM: succeeded\n"]
             else []) }) ∧
    (cfg.BF_IOCTL_SUCCESS ≠ cfg.BF_IOCTL_FAILURE →
      ((ioctl_stop_vmm cfg e s).1 = cfg.BF_IOCTL_FAILURE ↔
        e.common_stop_vmm ≠ cfg.BF_SUCCESS)) := by
  by_cases hstop : e.common_stop_vmm = cfg.BF_SUCCESS
  · constructor
    · simp [ioctl_stop_vmm, hstop, status_of, DEBUG, emit]
    · intro hne
      simp [ioctl_stop_vmm, hstop, hne]
  · by_cases hst : cfg.BF_IOCTL_FAILURE = cfg.BF_IOCTL_SUCCESS
    · constructor
      · simp [ioctl_stop_vmm, hstop, hst, status_of, StopFailure, ALERT, DEBUG, emit]
      · intro hne
        exact absurd hst.symm hne
    · constructor
      · simp [ioctl_stop_vmm, hstop, hst, status_of, StopFailure, ALERT, DEBUG, emit]
      · intro _
        simp [ioctl_stop_vmm, hstop]

/-- Witness for C16: a stop that the Core API rejects, on a registry that holds
two modules. -/
theorem ioctl_stop_vmm_spec_witness :
    cfg4.BF_IOCTL_SUCCESS ≠ cfg4.BF_IOCTL_FAILURE ∧
    ((ioctl_stop_vmm cfg4 (ext_core_fails 0 none none) two4).1 = cfg4.BF_IOCTL_FAILURE ↔
      (ext_core_fails 0 none none).common_stop_vmm ≠ cfg4.BF_SUCCESS) ∧
    ioctl_stop_vmm cfg4 (ext_core_fails 0 none none) two4 =
      (-1, { two4 with trace := [Event.common_stop_vmm (-1), StopFailure (-1)] }) :=
  ⟨by decide,
    (ioctl_stop_vmm_spec cfg4 (ext_core_fails 0 none none) two4).2 (by decide),
    by decide⟩

/-- C18, as stated, fails: on the initial state `ioctl_unload_vmm` returns the
failure status when the Core API unload reports a failure, although nothing
was ever added or loaded. -/
theorem ioctl_unload_vmm_initial_may_fail :
    ioctl_unload_vmm cfg4 (ext_core_fails 0 none none) (init cfg4) =
      some (cfg4.BF_IOCTL_FAILURE,
        { init cfg4 with trace := [Event.common_unload_vmm (-1), UnloadFailure (-1)] }) ∧
    cfg4.BF_IOCTL_FAILURE ≠ cfg4.BF_IOCTL_SUCCESS := by
  decide

/-- C18 as amended: on the initial state (count 0, every slot zeroed, nothing
allocated) `ioctl_unload_vmm` returns for every result of the Core API unload;
it returns the success status when that call succeeded and the failure status,
after the UnloadFailure alert, when it failed.  In both cases it calls
`platform_free_rwe` not at all and leaves the state as it was apart from the
log: the count is 0 and every slot is zeroed. -/
theorem ioctl_unload_vmm_initial (cfg : Config) (e : Ext) :
    ioctl_unload_vmm cfg e (init cfg) =
      some (if e.common_unload_vmm ≠ cfg.BF_SUCCESS then cfg.BF_IOCTL_FAILURE
          else cfg.BF_IOCTL_SUCCESS,
        { init cfg with
          trace := [Event.common_unload_vmm e.common_unload_vmm] ++
            (if e.common_unload_vmm ≠ cfg.BF_SUCCESS then [UnloadFailure e.common_unload_vmm]
              else []) ++
            (if status_of cfg e.common_unload_vmm = cfg.BF_IOCTL_SUCCESS then
                [Event.DEBUG "IOCTL_UNLOAD_VMM: succeeded\n"]
              else []) }) := by
  have hreg : is_registry cfg (init cfg) := ⟨by simp [init], le_refl _, by simp [init]⟩
  rw [ioctl_unload_vmm_eq cfg e (init cfg) hreg]
  simp [init, status_of, UnloadFailure]

/-! ## The diagnostic dump -/

/-- C15: in every state, when the Core API dump succeeds and leaves a
descriptor of at least the descriptor size, `ioctl_dump_vmm` called with a
slot of at least that size succeeds; exactly the first
`sizeof(struct debug_ring_resources_t)` bytes of the slot are replaced by those
of the descriptor, so a slot and a descriptor of exactly that size are equal
afterwards.  When the Core API dump fails, `ioctl_dump_vmm` fails with
DumpUnavailable for every slot, null included, and the slot is as before.  In
both cases the Core API was asked once, for `g_vcpuid`, and nothing but the log
changed in the state. -/
theorem ioctl_dump_vmm_spec (cfg : Config) (e : Ext) (s : State) :
    (∀ slot d : List Nat, e.common_dump_vmm = cfg.BF_SUCCESS → e.drr = some d →
      cfg.sizeof_debug_ring_resources_t ≤ d.length →
      cfg.sizeof_debug_ring_resources_t ≤ slot.length →
      ioctl_dump_vmm cfg e (some slot) s =
        some (cfg.BF_IOCTL_SUCCESS,
          { s with trace := s.trace ++
              [Event.common_dump_vmm s.g_vcpuid e.common_dump_vmm,
               Event.DEBUG "IOCTL_DUMP_VMM: succeeded\n"] },
          some (d.take cfg.sizeof_debug_ring_resources_t ++
            slot.drop cfg.sizeof_debug_ring_resources_t)) ∧
      (d.length = cfg.sizeof_debug_ring_resources_t →
        slot.length = cfg.sizeof_debug_ring_resources_t →
        d.take cfg.sizeof_debug_ring_resources_t ++
          slot.drop cfg.sizeof_debug_ring_resources_t = d)) ∧
    (∀ user_drr : Option (List Nat), e.common_dump_vmm ≠ cfg.BF_SUCCESS →
      ioctl_dump_vmm cfg e user_drr s =
        some (cfg.BF_IOCTL_FAILURE,
          { s with trace := s.trace ++
              [Event.common_dump_vmm s.g_vcpuid e.common_dump_vmm,
               DumpUnavailable e.common_dump_vmm] },
          user_drr)) := by
  constructor
  · intro slot d hret hdrr hd hslot
    constructor
    · by_cases h0 : cfg.sizeof_debug_ring_resources_t = 0
      · simp [ioctl_dump_vmm, hret, hdrr, platform_memcpy, h0, DEBUG, emit]
      · simp [ioctl_dump_vmm, hret, hdrr, platform_memcpy, h0, hd, hslot, DEBUG, emit]
    · intro hd1 hs1
      rw [← hd1, List.take_length, List.drop_of_length_le (by omega)]
      simp
  · intro user_drr hret
    simp [ioctl_dump_vmm, hret, DumpUnavailable, ALERT, emit]

/-- Witness for C15: a 16-byte descriptor copied into a 16-byte slot, and a
dump that the Core API cannot produce. -/
theorem ioctl_dump_vmm_spec_witness :
    ioctl_dump_vmm cfg4 (ext_ok 0 none none) (some (List.replicate 16 1)) two4 =
      some (cfg4.BF_IOCTL_SUCCESS,
        { two4 with trace := two4.trace ++
            [Event.common_dump_vmm two4.g_vcpuid (ext_ok 0 none none).common_dump_vmm,
             Event.DEBUG "IOCTL_DUMP_VMM: succeeded\n"] },
        some ((List.replicate 16 7).take cfg4.sizeof_debug_ring_resources_t ++
          (List.replicate 16 1).drop cfg4.sizeof_debug_ring_resources_t)) ∧
    (List.replicate 16 7).take cfg4.sizeof_debug_ring_resources_t ++
      (List.replicate 16 1).drop cfg4.sizeof_debug_ring_resources_t = List.replicate 16 7 ∧
    ioctl_dump_vmm cfg4 (ext_core_fails 0 none none) (some (List.replicate 16 1)) two4 =
      some (cfg4.BF_IOCTL_FAILURE,
        { two4 with trace := two4.trace ++
            [Event.common_dump_vmm two4.g_vcpuid (ext_core_fails 0 none none).common_dump_vmm,
             DumpUnavailable (ext_core_fails 0 none none).common_dump_vmm] },
        some (List.replicate 16 1)) :=
  ⟨((ioctl_dump_vmm_spec cfg4 (ext_ok 0 none none) two4).1 (List.replicate 16 1)
      (List.replicate 16 7) (by decide) (by decide) (by decide) (by decide)).1,
    ((ioctl_dump_vmm_spec cfg4 (ext_ok 0 none none) two4).1 (List.replicate 16 1)
      (List.replicate 16 7) (by decide) (by decide) (by decide) (by decide)).2
      (by decide) (by decide),
    (ioctl_dump_vmm_spec cfg4 (ext_core_fails 0 none none) two4).2 (some (List.replicate 16 1))
      (by decide)⟩

/-! ## What every operation leaves fixed -/

theorem op_frame_of_events (cfg : Config) (s : State) (ret : Int) (s1 : State)
    (evs : List Event) (hret : ret = cfg.BF_IOCTL_SUCCESS ∨ ret = cfg.BF_IOCTL_FAILURE)
    (htrace : s1.trace = s.trace ++ evs) (hevs : ∀ ev ∈ evs, ev.is_framework = false) :
    op_frame cfg s ret s1 :=
  ⟨hret, evs, htrace, hevs⟩

/-- Every way `ioctl_add_module` can return, with the state it leaves. -/
theorem ioctl_add_module_cases (cfg : Config) (e : Ext) (file : Option (List Nat)) (len : Int)
    (s : State) (ret : Int) (s1 : State)
    (h : ioctl_add_module cfg e file len s = some (ret, s1)) :
    (cfg.MAX_NUM_MODULES ≤ s.g_num_pmodules ∧ ret = cfg.BF_IOCTL_FAILURE ∧
      s1 = { s with trace := s.trace ++ [CapacityExceeded] }) ∨
    (s.g_num_pmodules < cfg.MAX_NUM_MODULES ∧ e.platform_alloc_rwe = 0 ∧
      ret = cfg.BF_IOCTL_FAILURE ∧
      s1 = { s with trace := s.trace ++ [Event.platform_alloc_rwe len 0, AllocationFailure] }) ∨
    (s.g_num_pmodules < cfg.MAX_NUM_MODULES ∧ e.platform_alloc_rwe ≠ 0 ∧
      e.common_add_module ≠ cfg.BF_SUCCESS ∧ ret = cfg.BF_IOCTL_FAILURE ∧
      s1 = { s with
        heap := s.heap.filter (fun r => decide (r.1 ≠ e.platform_alloc_rwe))
        trace := s.trace ++
          [Event.platform_alloc_rwe len e.platform_alloc_rwe,
           Event.common_add_module e.platform_alloc_rwe len e.common_add_module,
           RegistrationFailure,
           Event.platform_free_rwe e.platform_alloc_rwe len,
           Event.DEBUG "IOCTL_ADD_MODULE: failed\n"] }) ∨
    (s.g_num_pmodules < cfg.MAX_NUM_MODULES ∧ e.platform_alloc_rwe ≠ 0 ∧
      e.common_add_module = cfg.BF_SUCCESS ∧ ret = cfg.BF_IOCTL_SUCCESS ∧
      0 ≤ s.g_num_pmodules ∧ s.g_num_pmodules.toNat < s.pmodules.length ∧
      ∃ copied, s1 =
        { g_num_pmodules := s.g_num_pmodules + 1
          pmodules := s.pmodules.set s.g_num_pmodules.toNat
            { data := e.platform_alloc_rwe, size := len }
          g_vcpuid := s.g_vcpuid
          heap := (e.platform_alloc_rwe, copied) ::
            s.heap.filter (fun r => decide (r.1 ≠ e.platform_alloc_rwe))
          trace := s.trace ++
            [Event.platform_alloc_rwe len e.platform_alloc_rwe,
             Event.common_add_module e.platform_alloc_rwe len e.common_add_module,
             Event.DEBUG "IOCTL_ADD_MODULE: succeeded\n"] }) := by
  unfold ioctl_add_module at h
  split at h
  · next hfull =>
    simp only [Option.some.injEq, Prod.mk.injEq] at h
    obtain ⟨rfl, rfl⟩ := h
    exact Or.inl ⟨hfull, rfl, rfl⟩
  · next hfull =>
    have hlt : s.g_num_pmodules < cfg.MAX_NUM_MODULES := not_le.mp hfull
    simp only [platform_alloc_rwe] at h
    by_cases h0 : e.platform_alloc_rwe = 0
    · simp only [h0, if_true, ALERT, emit, Option.some.injEq, Prod.mk.injEq] at h
      obtain ⟨rfl, rfl⟩ := h
      exact Or.inr (Or.inl ⟨hlt, h0, rfl, by simp [AllocationFailure]⟩)
    · simp only [h0, if_false, Option.bind_eq_bind, Option.bind_eq_some] at h
      obtain ⟨fresh, -, zeroed, -, copied, -, h⟩ := h
      by_cases hadd : e.common_add_module = cfg.BF_SUCCESS
      · simp only [hadd, ne_eq, not_true_eq_false, if_false, pmodules_store, emit, set_region,
          DEBUG, Option.bind_eq_some] at h
        obtain ⟨s2, hs2, h⟩ := h
        split at hs2
        · next hidx =>
          simp only [Option.some.injEq, Prod.mk.injEq] at h hs2
          obtain ⟨rfl, rfl⟩ := h
          subst hs2
          refine Or.inr (Or.inr (Or.inr ⟨hlt, h0, hadd, rfl, hidx.1, hidx.2, copied, ?_⟩))
          simp [List.filter_cons, hadd]
        · exact absurd hs2 (by simp)
      · simp only [hadd, ne_eq, not_false_eq_true, if_true, emit, set_region, DEBUG, ALERT,
          platform_free_rwe, Option.some.injEq, Prod.mk.injEq] at h
        obtain ⟨rfl, rfl⟩ := h
        refine Or.inr (Or.inr (Or.inl ⟨hlt, h0, hadd, rfl, ?_⟩))
        simp [List.filter_cons, List.filter_filter, RegistrationFailure]

theorem free_pmodules_bound (n : Nat) : ∀ (i : Nat) (s s1 : State),
    free_pmodules n i s = some s1 → n = 0 ∨ i + n ≤ s.pmodules.length := by
  induction n with
  | zero => intro i s s1 _; exact Or.inl rfl
  | succ n ih =>
    intro i s s1 h
    simp only [free_pmodules, pmodules_load, Option.bind_eq_bind, Option.bind_eq_some] at h
    obtain ⟨m, hm, h⟩ := h
    have hi : i < s.pmodules.length := by
      by_contra hge
      rw [List.getElem?_eq_none (by omega)] at hm
      exact absurd hm (by simp)
    have := ih (i + 1) _ s1 h
    simp only [platform_free_rwe, emit] at this
    omega

/-- Closed form of `ioctl_unload_vmm` whenever the loop stays inside the
array. -/
theorem ioctl_unload_vmm_eq_of_bound (cfg : Config) (e : Ext) (s : State)
    (hn : s.g_num_pmodules.toNat ≤ s.pmodules.length) :
    ioctl_unload_vmm cfg e s = some
      (status_of cfg e.common_unload_vmm,
       { g_num_pmodules := 0
         pmodules := zeroed_pmodules cfg
         g_vcpuid := s.g_vcpuid
         heap := s.heap.filter (fun r => decide
           (r.1 ∉ (s.pmodules.take s.g_num_pmodules.toNat).map pmodule_t.data))
         trace := s.trace ++ [Event.common_unload_vmm e.common_unload_vmm] ++
           (if e.common_unload_vmm ≠ cfg.BF_SUCCESS then [UnloadFailure e.common_unload_vmm]
            else []) ++
           frees_of s ++
           (if status_of cfg e.common_unload_vmm = cfg.BF_IOCTL_SUCCESS then
              [Event.DEBUG "IOCTL_UNLOAD_VMM: succeeded\n"]
            else []) }) := by
  have hn0 : 0 + s.g_num_pmodules.toNat ≤ s.pmodules.length := by omega
  unfold ioctl_unload_vmm
  by_cases hret : e.common_unload_vmm = cfg.BF_SUCCESS
  · simp only [hret, emit, DEBUG, ne_eq, not_true_eq_false, if_false, if_true]
    rw [free_pmodules_eq _ 0 _ (by simpa using hn0)]
    simp [status_of, zeroed_pmodules, frees_of]
  · by_cases hst : cfg.BF_IOCTL_FAILURE = cfg.BF_IOCTL_SUCCESS
    · simp only [hret, hst, emit, ALERT, DEBUG, ne_eq, not_false_eq_true, if_true]
      rw [free_pmodules_eq _ 0 _ (by simpa using hn0)]
      simp [status_of, zeroed_pmodules, frees_of, hret, hst, UnloadFailure]
    · simp only [hret, hst, emit, ALERT, DEBUG, ne_eq, not_false_eq_true, if_true, if_false]
      rw [free_pmodules_eq _ 0 _ (by simpa using hn0)]
      simp [status_of, zeroed_pmodules, frees_of, hret, hst, UnloadFailure]

theorem ioctl_unload_vmm_bound (cfg : Config) (e : Ext) (s : State) (r : Int × State)
    (h : ioctl_unload_vmm cfg e s = some r) :
    s.g_num_pmodules.toNat ≤ s.pmodules.length := by
  unfold ioctl_unload_vmm at h
  by_cases hret : e.common_unload_vmm = cfg.BF_SUCCESS
  · simp only [hret, ne_eq, not_true_eq_false, if_false, Option.bind_eq_bind,
      Option.bind_eq_some] at h
    obtain ⟨s2, h2, -⟩ := h
    have := free_pmodules_bound _ _ _ _ h2
    simp only [emit] at this
    omega
  · simp only [hret, ne_eq, not_false_eq_true, if_true, Option.bind_eq_bind,
      Option.bind_eq_some] at h
    obtain ⟨s2, h2, -⟩ := h
    have := free_pmodules_bound _ _ _ _ h2
    simp only [emit, ALERT] at this
    omega

theorem ioctl_add_module_frame (cfg : Config) (e : Ext) (file : Option (List Nat)) (len : Int)
    (s : State) (ret : Int) (s1 : State)
    (h : ioctl_add_module cfg e file len s = some (ret, s1)) :
    op_frame cfg s ret s1 ∧ s1.g_vcpuid = s.g_vcpuid := by
  rcases ioctl_add_module_cases cfg e file len s ret s1 h with
    ⟨-, rfl, rfl⟩ | ⟨-, -, rfl, rfl⟩ | ⟨-, -, -, rfl, rfl⟩ | ⟨-, -, -, rfl, -, -, copied, rfl⟩
  · exact ⟨op_frame_of_events _ _ _ _ _ (Or.inr rfl) rfl
      (by simp [Event.is_framework, CapacityExceeded]), rfl⟩
  · exact ⟨op_frame_of_events _ _ _ _ _ (Or.inr rfl) rfl
      (by simp [Event.is_framework, AllocationFailure]), rfl⟩
  · exact ⟨op_frame_of_events _ _ _ _ _ (Or.inr rfl) rfl
      (by simp [Event.is_framework, RegistrationFailure]), rfl⟩
  · exact ⟨op_frame_of_events _ _ _ _ _ (Or.inl rfl) rfl (by simp [Event.is_framework]), rfl⟩

theorem status_of_cases (cfg : Config) (ret : Int) :
    status_of cfg ret = cfg.BF_IOCTL_SUCCESS ∨ status_of cfg ret = cfg.BF_IOCTL_FAILURE := by
  unfold status_of
  split
  · exact Or.inr rfl
  · exact Or.inl rfl

theorem ioctl_unload_vmm_frame (cfg : Config) (e : Ext) (s : State) (ret : Int) (s1 : State)
    (h : ioctl_unload_vmm cfg e s = some (ret, s1)) :
    op_frame cfg s ret s1 ∧ s1.g_vcpuid = s.g_vcpuid := by
  have hn := ioctl_unload_vmm_bound cfg e s _ h
  rw [ioctl_unload_vmm_eq_of_bound cfg e s hn] at h
  simp only [Option.some.injEq, Prod.mk.injEq] at h
  obtain ⟨rfl, rfl⟩ := h
  refine ⟨op_frame_of_events _ _ _ _
    ([Event.common_unload_vmm e.common_unload_vmm] ++
      (if e.common_unload_vmm ≠ cfg.BF_SUCCESS then [UnloadFailure e.common_unload_vmm]
        else []) ++ frees_of s ++
      (if status_of cfg e.common_unload_vmm = cfg.BF_IOCTL_SUCCESS then
        [Event.DEBUG "IOCTL_UNLOAD_VMM: succeeded\n"] else []))
    (status_of_cases _ _) (by simp) ?_, rfl⟩
  intro ev hev
  simp only [List.mem_append, List.mem_singleton, frees_of, List.mem_map] at hev
  rcases hev with ((rfl | hev) | ⟨m, -, rfl⟩) | hev
  · rfl
  · split at hev
    · simp only [List.mem_singleton] at hev
      subst hev
      rfl
    · simp at hev
  · rfl
  · split at hev
    · simp only [List.mem_singleton] at hev
      subst hev
      rfl
    · simp at hev

theorem op_frame_trans (cfg : Config) (s s1 s2 : State) (ret1 ret2 : Int)
    (evs : List Event) (htrace : s1.trace = s.trace ++ evs)
    (hevs : ∀ ev ∈ evs, ev.is_framework = false) (h : op_frame cfg s1 ret1 s2)
    (hret : ret2 = cfg.BF_IOCTL_SUCCESS ∨ ret2 = cfg.BF_IOCTL_FAILURE) :
    op_frame cfg s ret2 s2 := by
  obtain ⟨-, evs2, h2, hevs2⟩ := h
  refine ⟨hret, evs ++ evs2, by rw [h2, htrace, List.append_assoc], ?_⟩
  intro ev hev
  rcases List.mem_append.mp hev with hev | hev
  · exact hevs ev hev
  · exact hevs2 ev hev

theorem ioctl_load_vmm_frame (cfg : Config) (e : Ext) (s : State) (ret : Int) (s1 : State)
    (h : ioctl_load_vmm cfg e s = some (ret, s1)) :
    op_frame cfg s ret s1 ∧ s1.g_vcpuid = s.g_vcpuid := by
  unfold ioctl_load_vmm at h
  by_cases hload : e.common_load_vmm = cfg.BF_SUCCESS
  case neg =>
    simp only [hload, ne_eq, not_false_eq_true, if_true, Option.bind_eq_bind,
      Option.bind_eq_some] at h
    obtain ⟨⟨ret2, s2⟩, hu, h⟩ := h
    simp only [Option.some.injEq, Prod.mk.injEq] at h
    obtain ⟨rfl, rfl⟩ := h
    obtain ⟨hf, hv⟩ := ioctl_unload_vmm_frame cfg e _ ret2 s2 hu
    refine ⟨op_frame_trans cfg s _ s2 ret2 _
      [Event.common_load_vmm e.common_load_vmm, LoadFailure e.common_load_vmm]
      (by simp [ALERT, emit, LoadFailure]) (by simp [Event.is_framework, LoadFailure]) hf
      (Or.inr rfl), ?_⟩
    rw [hv]
    rfl
  case pos =>
    simp only [hload, ne_eq, not_true_eq_false, if_false, Option.some.injEq,
      Prod.mk.injEq] at h
    obtain ⟨rfl, rfl⟩ := h
    exact ⟨op_frame_of_events _ _ _ _ [Event.common_load_vmm e.common_load_vmm,
      Event.DEBUG "IOCTL_LOAD_VMM: succeeded\n"] (Or.inl rfl) (by simp [DEBUG, emit, hload])
      (by simp [Event.is_framework]), rfl⟩

theorem ioctl_stop_vmm_frame (cfg : Config) (e : Ext) (s : State) :
    op_frame cfg s (ioctl_stop_vmm cfg e s).1 (ioctl_stop_vmm cfg e s).2 ∧
      (ioctl_stop_vmm cfg e s).2.g_vcpuid = s.g_vcpuid ∧
      (ioctl_stop_vmm cfg e s).2.g_num_pmodules = s.g_num_pmodules ∧
      (ioctl_stop_vmm cfg e s).2.pmodules = s.pmodules ∧
      (ioctl_stop_vmm cfg e s).2.heap = s.heap := by
  by_cases hstop : e.common_stop_vmm = cfg.BF_SUCCESS
  · refine ⟨op_frame_of_events _ _ _ _ [Event.common_stop_vmm e.common_stop_vmm,
      Event.DEBUG "IOCTL_STOP_VMM: succeeded\n"] (Or.inl ?_) ?_
      (by simp [Event.is_framework]), ?_, ?_, ?_, ?_⟩ <;>
      simp [ioctl_stop_vmm, hstop, DEBUG, emit]
  · by_cases hst : cfg.BF_IOCTL_FAILURE = cfg.BF_IOCTL_SUCCESS
    · refine ⟨op_frame_of_events _ _ _ _ [Event.common_stop_vmm e.common_stop_vmm,
        StopFailure e.common_stop_vmm, Event.DEBUG "IOCTL_STOP_VMM: succeeded\n"] (Or.inr ?_) ?_
        (by simp [Event.is_framework, StopFailure]), ?_, ?_, ?_, ?_⟩ <;>
        simp [ioctl_stop_vmm, hstop, hst, DEBUG, ALERT, StopFailure, emit]
    · refine ⟨op_frame_of_events _ _ _ _ [Event.common_stop_vmm e.common_stop_vmm,
        StopFailure e.common_stop_vmm] (Or.inr ?_) ?_
        (by simp [Event.is_framework, StopFailure]), ?_, ?_, ?_, ?_⟩ <;>
        simp [ioctl_stop_vmm, hstop, hst, DEBUG, ALERT, StopFailure, emit]

theorem ioctl_start_vmm_frame (cfg : Config) (e : Ext) (s : State) :
    op_frame cfg s (ioctl_start_vmm cfg e s).1 (ioctl_start_vmm cfg e s).2 ∧
      (ioctl_start_vmm cfg e s).2.g_vcpuid = s.g_vcpuid ∧
      (ioctl_start_vmm cfg e s).2.g_num_pmodules = s.g_num_pmodules ∧
      (ioctl_start_vmm cfg e s).2.pmodules = s.pmodules ∧
      (ioctl_start_vmm cfg e s).2.heap = s.heap := by
  by_cases hstart : e.common_start_vmm = cfg.BF_SUCCESS
  · refine ⟨op_frame_of_events _ _ _ _ [Event.common_start_vmm e.common_start_vmm,
      Event.DEBUG "IOCTL_START_VMM: succeeded\n"] (Or.inl ?_) ?_
      (by simp [Event.is_framework]), ?_, ?_, ?_, ?_⟩ <;>
      simp [ioctl_start_vmm, hstart, DEBUG, emit]
  · obtain ⟨hf, hv, hn, hp, hh⟩ := ioctl_stop_vmm_frame cfg e
      (ALERT "IOCTL_START_VMM: failed to start vmm: %d\n" [e.common_start_vmm]
        (emit (Event.common_start_vmm e.common_start_vmm) s))
    have hdef : ioctl_start_vmm cfg e s = (cfg.BF_IOCTL_FAILURE,
        (ioctl_stop_vmm cfg e
          (ALERT "IOCTL_START_VMM: failed to start vmm: %d\n" [e.common_start_vmm]
            (emit (Event.common_start_vmm e.common_start_vmm) s))).2) := by
      simp [ioctl_start_vmm, hstart]
    rw [hdef]
    refine ⟨op_frame_trans cfg s _ _ _ _
      [Event.common_start_vmm e.common_start_vmm, StartFailure e.common_start_vmm]
      (by simp [ALERT, emit, StartFailure]) (by simp [Event.is_framework, StartFailure]) hf
      (Or.inr rfl), ?_, ?_, ?_, ?_⟩
    · rw [hv]; rfl
    · rw [hn]; rfl
    · rw [hp]; rfl
    · rw [hh]; rfl

theorem ioctl_dump_vmm_frame (cfg : Config) (e : Ext) (user_drr : Option (List Nat))
    (s : State) (ret : Int) (s1 : State) (out : Option (List Nat))
    (h : ioctl_dump_vmm cfg e user_drr s = some (ret, s1, out)) :
    op_frame cfg s ret s1 ∧ s1.g_vcpuid = s.g_vcpuid ∧
      s1.g_num_pmodules = s.g_num_pmodules ∧ s1.pmodules = s.pmodules ∧ s1.heap = s.heap := by
  unfold ioctl_dump_vmm at h
  by_cases hdump : e.common_dump_vmm = cfg.BF_SUCCESS
  · simp only [hdump, ne_eq, not_true_eq_false, if_false, Option.bind_eq_bind,
      Option.bind_eq_some, Option.some.injEq, Prod.mk.injEq] at h
    obtain ⟨dst, -, dst2, -, rfl, rfl, -⟩ := h
    exact ⟨op_frame_of_events _ _ _ _ [Event.common_dump_vmm s.g_vcpuid cfg.BF_SUCCESS,
      Event.DEBUG "IOCTL_DUMP_VMM: succeeded\n"] (Or.inl rfl) (by simp [DEBUG, emit])
      (by simp [Event.is_framework]), rfl, rfl, rfl, rfl⟩
  · simp only [hdump, ne_eq, not_false_eq_true, if_true, Option.some.injEq,
      Prod.mk.injEq] at h
    obtain ⟨rfl, rfl, -⟩ := h
    exact ⟨op_frame_of_events _ _ _ _ [Event.common_dump_vmm s.g_vcpuid e.common_dump_vmm,
      DumpUnavailable e.common_dump_vmm] (Or.inr rfl) (by simp [ALERT, emit, DumpUnavailable])
      (by simp [Event.is_framework, DumpUnavailable]), rfl, rfl, rfl, rfl⟩

theorem ioctl_vmm_status_frame (cfg : Config) (e : Ext) (status : Option Int) (s : State) :
    op_frame cfg s (ioctl_vmm_status cfg e status s).1 (ioctl_vmm_status cfg e status s).2.1 ∧
      (ioctl_vmm_status cfg e status s).2.1.g_vcpuid = s.g_vcpuid ∧
      (ioctl_vmm_status cfg e status s).2.1.g_num_pmodules = s.g_num_pmodules ∧
      (ioctl_vmm_status cfg e status s).2.1.pmodules = s.pmodules ∧
      (ioctl_vmm_status cfg e status s).2.1.heap = s.heap := by
  cases status with
  | none =>
    exact ⟨op_frame_of_events _ _ _ _ [Event.common_vmm_status e.common_vmm_status,
      InvalidArgument_status] (Or.inr rfl)
      (by simp [ioctl_vmm_status, ALERT, emit, InvalidArgument_status])
      (by simp [Event.is_framework, InvalidArgument_status]), rfl, rfl, rfl, rfl⟩
  | some v =>
    exact ⟨op_frame_of_events _ _ _ _ [Event.common_vmm_status e.common_vmm_status,
      Event.DEBUG "IOCTL_VMM_STATUS: succeeded\n"] (Or.inl rfl)
      (by simp [ioctl_vmm_status, DEBUG, emit])
      (by simp [Event.is_framework]), rfl, rfl, rfl, rfl⟩

theorem ioctl_set_vcpuid_frame (cfg : Config) (vcpuid : Option Nat) (s : State) :
    op_frame cfg s (ioctl_set_vcpuid cfg vcpuid s).1 (ioctl_set_vcpuid cfg vcpuid s).2 ∧
      (ioctl_set_vcpuid cfg vcpuid s).2.g_vcpuid = vcpuid.getD s.g_vcpuid ∧
      (ioctl_set_vcpuid cfg vcpuid s).2.g_num_pmodules = s.g_num_pmodules ∧
      (ioctl_set_vcpuid cfg vcpuid s).2.pmodules = s.pmodules ∧
      (ioctl_set_vcpuid cfg vcpuid s).2.heap = s.heap := by
  cases vcpuid with
  | none =>
    exact ⟨op_frame_of_events _ _ _ _ [InvalidArgument_vcpuid] (Or.inr rfl)
      (by simp [ioctl_set_vcpuid, ALERT, emit, InvalidArgument_vcpuid])
      (by simp [Event.is_framework, InvalidArgument_vcpuid]), rfl, rfl, rfl, rfl⟩
  | some v =>
    exact ⟨op_frame_of_events _ _ _ _ [Event.DEBUG "IOCTL_SET_VCPUID: succeeded\n"] (Or.inl rfl)
      (by simp [ioctl_set_vcpuid, DEBUG, emit])
      (by simp [Event.is_framework]), rfl, rfl, rfl, rfl⟩

/-! ## The selected vcpu -/

theorem Call.exec_vcpuid (cfg : Config) (c : Call) (s s1 : State)
    (h : c.exec cfg s = some s1) : s1.g_vcpuid = last_vcpuid [c] s.g_vcpuid := by
  cases c with
  | add_module e file len =>
    simp only [Call.exec, Option.map_eq_some'] at h
    obtain ⟨⟨ret, s2⟩, h, rfl⟩ := h
    exact (ioctl_add_module_frame cfg e file len s ret s2 h).2
  | load_vmm e =>
    simp only [Call.exec, Option.map_eq_some'] at h
    obtain ⟨⟨ret, s2⟩, h, rfl⟩ := h
    exact (ioctl_load_vmm_frame cfg e s ret s2 h).2
  | unload_vmm e =>
    simp only [Call.exec, Option.map_eq_some'] at h
    obtain ⟨⟨ret, s2⟩, h, rfl⟩ := h
    exact (ioctl_unload_vmm_frame cfg e s ret s2 h).2
  | start_vmm e =>
    simp only [Call.exec, Option.some.injEq] at h
    subst h
    exact (ioctl_start_vmm_frame cfg e s).2.1
  | stop_vmm e =>
    simp only [Call.exec, Option.some.injEq] at h
    subst h
    exact (ioctl_stop_vmm_frame cfg e s).2.1
  | dump_vmm e user_drr =>
    simp only [Call.exec, Option.map_eq_some'] at h
    obtain ⟨⟨ret, s2, out⟩, h, rfl⟩ := h
    exact (ioctl_dump_vmm_frame cfg e user_drr s ret s2 out h).2.1
  | vmm_status e status =>
    simp only [Call.exec, Option.some.injEq] at h
    subst h
    exact (ioctl_vmm_status_frame cfg e status s).2.1
  | set_vcpuid vcpuid =>
    simp only [Call.exec, Option.some.injEq] at h
    subst h
    cases vcpuid <;> rfl

theorem last_vcpuid_cons (c : Call) (cs : List Call) (v : Nat) :
    last_vcpuid (c :: cs) v = last_vcpuid cs (last_vcpuid [c] v) := by
  cases c with
  | set_vcpuid vcpuid => cases vcpuid <;> rfl
  | _ => rfl

theorem exec_all_vcpuid (cfg : Config) (calls : List Call) : ∀ (s s1 : State),
    exec_all cfg calls s = some s1 → s1.g_vcpuid = last_vcpuid calls s.g_vcpuid := by
  induction calls with
  | nil =>
    intro s s1 h
    simp only [exec_all, Option.some.injEq] at h
    subst h
    rfl
  | cons c cs ih =>
    intro s s1 h
    simp only [exec_all, Option.bind_eq_some] at h
    obtain ⟨s2, h2, h⟩ := h
    rw [ih s2 s1 h, Call.exec_vcpuid cfg c s s2 h2, ← last_vcpuid_cons]

/-- C11: after every sequence of calls that runs from a state `s` (set calls
with or without an id, interleaved in any way with Add, Load, Unload, Start,
Stop, Dump and Status calls), the stored id is the one supplied by the most
recent set call that supplied one, and the id `s` held when there is none,
which is 0 for the initial state.  A following `ioctl_dump_vmm` asks the Core
API for exactly that id, once, whether the dump then fails or succeeds.  A set
call that supplies no id fails with InvalidArgument and changes nothing but
the log. -/
theorem vcpuid_last_writer_wins (cfg : Config) (calls : List Call) (s s1 : State) (e : Ext)
    (hexec : exec_all cfg calls s = some s1) :
    s1.g_vcpuid = last_vcpuid calls s.g_vcpuid ∧
    (init cfg).g_vcpuid = 0 ∧
    (∀ user_drr : Option (List Nat), e.common_dump_vmm ≠ cfg.BF_SUCCESS →
      ioctl_dump_vmm cfg e user_drr s1 =
        some (cfg.BF_IOCTL_FAILURE,
          { s1 with trace := s1.trace ++
              [Event.common_dump_vmm (last_vcpuid calls s.g_vcpuid) e.common_dump_vmm,
               DumpUnavailable e.common_dump_vmm] },
          user_drr)) ∧
    (∀ slot d : List Nat, e.common_dump_vmm = cfg.BF_SUCCESS → e.drr = some d →
      cfg.sizeof_debug_ring_resources_t ≤ d.length →
      cfg.sizeof_debug_ring_resources_t ≤ slot.length →
      ioctl_dump_vmm cfg e (some slot) s1 =
        some (cfg.BF_IOCTL_SUCCESS,
          { s1 with trace := s1.trace ++
              [Event.common_dump_vmm (last_vcpuid calls s.g_vcpuid) e.common_dump_vmm,
               Event.DEBUG "IOCTL_DUMP_VMM: succeeded\n"] },
          some (d.take cfg.sizeof_debug_ring_resources_t ++
            slot.drop cfg.sizeof_debug_ring_resources_t))) ∧
    (∀ t : State, ioctl_set_vcpuid cfg none t =
      (cfg.BF_IOCTL_FAILURE, { t with trace := t.trace ++ [InvalidArgument_vcpuid] })) := by
  have hv := exec_all_vcpuid cfg calls s s1 hexec
  refine ⟨hv, rfl, ?_, ?_, ?_⟩
  · intro user_drr hret
    simp [ioctl_dump_vmm, hret, DumpUnavailable, ALERT, emit, hv]
  · intro slot d hret hdrr hd hslot
    by_cases h0 : cfg.sizeof_debug_ring_resources_t = 0
    · simp [ioctl_dump_vmm, hret, hdrr, platform_memcpy, h0, DEBUG, emit, hv]
    · simp [ioctl_dump_vmm, hret, hdrr, platform_memcpy, h0, hd, hslot, DEBUG, emit, hv]
  · intro t
    simp [ioctl_set_vcpuid, ALERT, emit, InvalidArgument_vcpuid]

/-- Witness for C11: `calls4` run from the initial state selects vcpu 9, and a
dump that follows asks the Core API for vcpu 9. -/
theorem vcpuid_last_writer_wins_witness :
    exec_all cfg4 calls4 (init cfg4) = some after_calls4 ∧
    last_vcpuid calls4 (init cfg4).g_vcpuid = 9 ∧
    after_calls4.g_vcpuid = last_vcpuid calls4 (init cfg4).g_vcpuid ∧
    ioctl_dump_vmm cfg4 (ext_core_fails 0 none none) none after_calls4 =
      some (cfg4.BF_IOCTL_FAILURE,
        { after_calls4 with trace := after_calls4.trace ++
            [Event.common_dump_vmm (last_vcpuid calls4 (init cfg4).g_vcpuid)
               (ext_core_fails 0 none none).common_dump_vmm,
             DumpUnavailable (ext_core_fails 0 none none).common_dump_vmm] },
        none) :=
  ⟨by decide, by decide,
    (vcpuid_last_writer_wins cfg4 calls4 (init cfg4) after_calls4 (ext_core_fails 0 none none)
      (by decide)).1,
    (vcpuid_last_writer_wins cfg4 calls4 (init cfg4) after_calls4 (ext_core_fails 0 none none)
      (by decide)).2.2.1 none (by decide)⟩

/-! ## Filling the registry -/

theorem take_succ_set (l : List pmodule_t) (c : Nat) (r : pmodule_t) (h : c < l.length) :
    (l.set c r).take (c + 1) = l.take c ++ [r] := by
  rw [List.take_succ, List.getElem?_set_self (by simpa using h), List.set_take,
    List.set_eq_of_length_le (by simp)]
  simp

/-- Closed form of a successful `ioctl_add_module`. -/
theorem ioctl_add_module_ok_eq (cfg : Config) (e : Ext) (bytes : List Nat) (s : State)
    (h0 : 0 ≤ s.g_num_pmodules) (hidx : s.g_num_pmodules.toNat < s.pmodules.length)
    (hlt : s.g_num_pmodules < cfg.MAX_NUM_MODULES)
    (halloc : e.platform_alloc_rwe ≠ 0) (hadd : e.common_add_module = cfg.BF_SUCCESS) :
    ioctl_add_module cfg e (some bytes) bytes.length s = some (cfg.BF_IOCTL_SUCCESS,
      { g_num_pmodules := s.g_num_pmodules + 1
        pmodules := s.pmodules.set s.g_num_pmodules.toNat
          { data := e.platform_alloc_rwe, size := bytes.length }
        g_vcpuid := s.g_vcpuid
        heap := (e.platform_alloc_rwe, bytes) ::
          s.heap.filter (fun r => decide (r.1 ≠ e.platform_alloc_rwe))
        trace := s.trace ++
          [Event.platform_alloc_rwe bytes.length e.platform_alloc_rwe,
           Event.common_add_module e.platform_alloc_rwe bytes.length e.common_add_module,
           Event.DEBUG "IOCTL_ADD_MODULE: succeeded\n"] }) := by
  have hmm := memset_memcpy_fresh e.rwe_fill bytes
  simp only [Option.bind_eq_some] at hmm
  obtain ⟨zeroed, hz, hc⟩ := hmm
  simp [ioctl_add_module, platform_alloc_rwe, not_le.mpr hlt, halloc, hadd, emit, region,
    hz, hc, set_region, pmodules_store, h0, hidx, DEBUG]

theorem add_each_from (cfg : Config) (adds : List (Ext × List Nat)) :
    ∀ (j : Nat) (s : State), is_registry cfg s →
      s.g_num_pmodules = ((min j cfg.MAX_NUM_MODULES : Nat) : Int) →
      (∀ a ∈ adds, a.1.platform_alloc_rwe ≠ 0 ∧ a.1.common_add_module = cfg.BF_SUCCESS) →
      ∃ s1, add_each cfg adds s =
          some ((List.range' j adds.length).map (fun i =>
            if i < cfg.MAX_NUM_MODULES then
              { ret := cfg.BF_IOCTL_SUCCESS, count := (i : Int) + 1,
                report := some (Event.DEBUG "IOCTL_ADD_MODULE: succeeded\n") }
            else
              { ret := cfg.BF_IOCTL_FAILURE, count := cfg.MAX_NUM_MODULES,
                report := some CapacityExceeded }), s1) ∧
        s1.g_num_pmodules = ((min (j + adds.length) cfg.MAX_NUM_MODULES : Nat) : Int) ∧
        s1.pmodules.take (min (j + adds.length) cfg.MAX_NUM_MODULES) =
          s.pmodules.take (min j cfg.MAX_NUM_MODULES) ++
            (adds.take (cfg.MAX_NUM_MODULES - j)).map
              (fun a => { data := a.1.platform_alloc_rwe, size := a.2.length }) := by
  induction adds with
  | nil =>
    intro j s _ hc _
    exact ⟨s, by simp [add_each], by simpa using hc, by simp⟩
  | cons a rest ih =>
    intro j s hreg hc hall
    obtain ⟨e, bytes⟩ := a
    obtain ⟨hlen, h0, hle⟩ := hreg
    have ha := hall (e, bytes) (List.mem_cons_self _ _)
    have hrest : ∀ a ∈ rest, a.1.platform_alloc_rwe ≠ 0 ∧
        a.1.common_add_module = cfg.BF_SUCCESS :=
      fun a h => hall a (List.mem_cons_of_mem _ h)
    by_cases hj : j < cfg.MAX_NUM_MODULES
    · have hcj : s.g_num_pmodules = (j : Int) := by rw [hc, min_eq_left (le_of_lt hj)]
      have htn : s.g_num_pmodules.toNat = j := by rw [hcj]; simp
      have hstep := ioctl_add_module_ok_eq cfg e bytes s h0 (by omega) (by omega) ha.1 ha.2
      obtain ⟨s1, hrun, hcount, htake⟩ := ih (j + 1) _
        (⟨by simp [hlen], by simp; omega, by simp; omega⟩ : is_registry cfg
          { g_num_pmodules := s.g_num_pmodules + 1
            pmodules := s.pmodules.set s.g_num_pmodules.toNat
              { data := e.platform_alloc_rwe, size := bytes.length }
            g_vcpuid := s.g_vcpuid
            heap := (e.platform_alloc_rwe, bytes) ::
              s.heap.filter (fun r => decide (r.1 ≠ e.platform_alloc_rwe))
            trace := s.trace ++
              [Event.platform_alloc_rwe bytes.length e.platform_alloc_rwe,
               Event.common_add_module e.platform_alloc_rwe bytes.length e.common_add_module,
               Event.DEBUG "IOCTL_ADD_MODULE: succeeded\n"] })
        (by simp [hcj]; omega) hrest
      refine ⟨s1, ?_, ?_, ?_⟩
      · simp only [add_each, hstep, hrun, Option.bind_eq_bind, Option.some_bind,
          List.length_cons, List.range'_succ, List.map_cons, hj, if_true]
        simp [hcj]
      · rw [hcount]
        simp only [List.length_cons]
        congr 2
        omega
      · have h1 : j + ((e, bytes) :: rest).length = j + 1 + rest.length := by
          simp only [List.length_cons]; omega
        have h2 : cfg.MAX_NUM_MODULES - j = (cfg.MAX_NUM_MODULES - (j + 1)) + 1 := by omega
        rw [h1, htake, h2, List.take_succ_cons, List.map_cons, min_eq_left (by omega : j + 1 ≤ _),
          min_eq_left (le_of_lt hj), htn, take_succ_set _ _ _ (by omega)]
        simp
    · have hcj : s.g_num_pmodules = (cfg.MAX_NUM_MODULES : Int) := by
        rw [hc, min_eq_right (by omega)]
      have hstep : ioctl_add_module cfg e (some bytes) bytes.length s =
          some (cfg.BF_IOCTL_FAILURE, { s with trace := s.trace ++ [CapacityExceeded] }) := by
        simp [ioctl_add_module, hcj, ALERT, emit, CapacityExceeded]
      obtain ⟨s1, hrun, hcount, htake⟩ := ih (j + 1) { s with trace := s.trace ++ [CapacityExceeded] }
        ⟨hlen, h0, hle⟩ (by simp [hcj]; omega) hrest
      refine ⟨s1, ?_, ?_, ?_⟩
      · simp only [add_each, hstep, hrun, Option.bind_eq_bind, Option.some_bind,
          List.length_cons, List.range'_succ, List.map_cons, hj, if_false]
        simp [hcj]
      · rw [hcount]
        simp only [List.length_cons]
        congr 2
        omega
      · have h1 : j + ((e, bytes) :: rest).length = j + 1 + rest.length := by
          simp only [List.length_cons]; omega
        have h2 : cfg.MAX_NUM_MODULES - j = 0 := by omega
        have h3 : cfg.MAX_NUM_MODULES - (j + 1) = 0 := by omega
        rw [h1, htake, h2, h3]
        simp [min_eq_right (by omega : cfg.MAX_NUM_MODULES ≤ j + 1),
          min_eq_right (by omega : cfg.MAX_NUM_MODULES ≤ j)]

/-- C14: started from the initial state, every sequence of `ioctl_add_module`
calls whose allocations and registrations all succeed runs to the end; call
number `i + 1` (counting from 1) returns success, logs its success and leaves
the count at `i + 1` as long as `i < MAX_NUM_MODULES`, and every later call
fails with CapacityExceeded and leaves the count at `MAX_NUM_MODULES`.  At the
end the count is the smaller of the number of calls and `MAX_NUM_MODULES`, and
the records below it are those of the first `MAX_NUM_MODULES` calls, in the
order of the calls. -/
theorem add_each_fills_registry (cfg : Config) (adds : List (Ext × List Nat))
    (hall : ∀ a ∈ adds, a.1.platform_alloc_rwe ≠ 0 ∧ a.1.common_add_module = cfg.BF_SUCCESS) :
    ∃ s1, add_each cfg adds (init cfg) =
        some ((List.range adds.length).map (fun i =>
          if i < cfg.MAX_NUM_MODULES then
            { ret := cfg.BF_IOCTL_SUCCESS, count := (i : Int) + 1,
              report := some (Event.DEBUG "IOCTL_ADD_MODULE: succeeded\n") }
          else
            { ret := cfg.BF_IOCTL_FAILURE, count := cfg.MAX_NUM_MODULES,
              report := some CapacityExceeded }), s1) ∧
      s1.g_num_pmodules = ((min adds.length cfg.MAX_NUM_MODULES : Nat) : Int) ∧
      s1.pmodules.take (min adds.length cfg.MAX_NUM_MODULES) =
        (adds.take cfg.MAX_NUM_MODULES).map
          (fun a => { data := a.1.platform_alloc_rwe, size := a.2.length }) := by
  have hreg : is_registry cfg (init cfg) := ⟨by simp [init], le_refl _, by simp [init]⟩
  obtain ⟨s1, hrun, hcount, htake⟩ := add_each_from cfg adds 0 (init cfg) hreg
    (by simp [init]) hall
  refine ⟨s1, ?_, ?_, ?_⟩
  · rw [hrun, List.range_eq_range']
  · simpa using hcount
  · simpa using htake

/-- Witness for C14 (Scenario A): capacity 4 and five adds give the counts 1,
2, 3, 4 and then a CapacityExceeded failure with the count still 4. -/
theorem add_each_fills_registry_witness :
    (∀ a ∈ adds5, a.1.platform_alloc_rwe ≠ 0 ∧ a.1.common_add_module = cfg4.BF_SUCCESS) ∧
    (∃ s1, add_each cfg4 adds5 (init cfg4) =
        some ((List.range adds5.length).map (fun i =>
          if i < cfg4.MAX_NUM_MODULES then
            { ret := cfg4.BF_IOCTL_SUCCESS, count := (i : Int) + 1,
              report := some (Event.DEBUG "IOCTL_ADD_MODULE: succeeded\n") }
          else
            { ret := cfg4.BF_IOCTL_FAILURE, count := cfg4.MAX_NUM_MODULES,
              report := some CapacityExceeded }), s1) ∧
      s1.g_num_pmodules = ((min adds5.length cfg4.MAX_NUM_MODULES : Nat) : Int) ∧
      s1.pmodules.take (min adds5.length cfg4.MAX_NUM_MODULES) =
        (adds5.take cfg4.MAX_NUM_MODULES).map
          (fun a => { data := a.1.platform_alloc_rwe, size := a.2.length })) ∧
    (add_each cfg4 adds5 (init cfg4)).map (fun r => r.1) =
      some [⟨0, 1, some (Event.DEBUG "IOCTL_ADD_MODULE: succeeded\n")⟩,
            ⟨0, 2, some (Event.DEBUG "IOCTL_ADD_MODULE: succeeded\n")⟩,
            ⟨0, 3, some (Event.DEBUG "IOCTL_ADD_MODULE: succeeded\n")⟩,
            ⟨0, 4, some (Event.DEBUG "IOCTL_ADD_MODULE: succeeded\n")⟩,
            ⟨-1, 4, some CapacityExceeded⟩] :=
  ⟨by decide, add_each_fills_registry cfg4 adds5 (by decide), by decide⟩

/-! ## The dispatcher as retrieval, one operation, completion -/

theorem dispatch_eq (cfg : Config) (e : Ext)
    (OutputBufferLength InputBufferLength IoControlCode : Nat) (s : State) :
    bareflankEvtIoDeviceControl cfg e OutputBufferLength InputBufferLength IoControlCode s =
      if retrieval_fails e OutputBufferLength InputBufferLength then
        FAIL_IOCTL e (retrieved e OutputBufferLength InputBufferLength s)
      else
        (dispatch_operation cfg e IoControlCode (req_in e InputBufferLength)
          (req_in_size e InputBufferLength) (req_out e OutputBufferLength)
          (retrieved e OutputBufferLength InputBufferLength s)).bind (fun r =>
            match r with
            | none => FAIL_IOCTL e (retrieved e OutputBufferLength InputBufferLength s)
            | some (ret, s2, out2) =>
              complete e OutputBufferLength (req_out_size e OutputBufferLength) ret s2 out2) := by
  unfold bareflankEvtIoDeviceControl retrieval_fails retrieved retrievals req_in req_in_size
    req_out req_out_size dispatch_operation
  rcases Bool.eq_false_or_eq_true (NT_SUCCESS e.input.status) with hsi | hsi <;>
    rcases Bool.eq_false_or_eq_true (NT_SUCCESS e.output.status) with hso | hso <;>
    by_cases hi : InputBufferLength = 0 <;> by_cases ho : OutputBufferLength = 0 <;>
    simp only [hsi, hso, hi, ho, ne_eq, not_true_eq_false, not_false_eq_true, if_true,
      if_false, false_and, true_and, and_false, and_true, or_false, false_or, or_self, or_true,
      true_or, Bool.not_eq_true, Bool.true_eq_false, Bool.false_eq_true, emit, List.append_nil,
      List.nil_append, List.append_assoc] <;>
    first
    | rfl
    | (by_cases h1 : IoControlCode = cfg.IOCTL_ADD_MODULE
       · subst h1
         simp only [eq_self_iff_true, if_true, Option.bind_eq_bind, Option.bind_map]
         rfl
       by_cases h2 : IoControlCode = cfg.IOCTL_LOAD_VMM
       · subst h2
         simp only [h1, eq_self_iff_true, if_true, if_false, Option.bind_eq_bind,
           Option.bind_map]
         rfl
       by_cases h3 : IoControlCode = cfg.IOCTL_UNLOAD_VMM
       · subst h3
         simp only [h1, h2, eq_self_iff_true, if_true, if_false, Option.bind_eq_bind,
           Option.bind_map]
         rfl
       by_cases h4 : IoControlCode = cfg.IOCTL_START_VMM
       · subst h4
         simp only [h1, h2, h3, eq_self_iff_true, if_true, if_false]
         rfl
       by_cases h5 : IoControlCode = cfg.IOCTL_STOP_VMM
       · subst h5
         simp only [h1, h2, h3, h4, eq_self_iff_true, if_true, if_false]
         rfl
       by_cases h6 : IoControlCode = cfg.IOCTL_DUMP_VMM
       · subst h6
         simp only [h1, h2, h3, h4, h5, eq_self_iff_true, if_true, if_false,
           Option.bind_eq_bind, Option.bind_map]
         rfl
       by_cases h7 : IoControlCode = cfg.IOCTL_VMM_STATUS
       · subst h7
         simp only [h1, h2, h3, h4, h5, h6, eq_self_iff_true, if_true, if_false]
         first
         | rfl
         | (split <;> first | rfl | (split <;> rfl))
       by_cases h8 : IoControlCode = cfg.IOCTL_SET_VCPUID
       · subst h8
         simp only [h1, h2, h3, h4, h5, h6, h7, eq_self_iff_true, if_true, if_false]
         first
         | rfl
         | (split <;> first | rfl | (split <;> rfl))
       simp only [h1, h2, h3, h4, h5, h6, h7, h8, if_false]
       rfl)

theorem completion_status_eq (ret : Int) (hlo : -2 ^ 31 ≤ ret) (hhi : ret < 2 ^ 31) :
    completion_status ret = ret := by
  unfold completion_status to_int32 to_uint32
  have h1 : 0 ≤ ret % 2 ^ 32 := Int.emod_nonneg _ (by norm_num)
  have h2 : ((ret % 2 ^ 32).toNat : Int) = ret % 2 ^ 32 := Int.toNat_of_nonneg h1
  have h3 : (ret % 2 ^ 32).toNat % 2 ^ 32 = (ret % 2 ^ 32).toNat := by
    apply Nat.mod_eq_of_lt
    have : ret % 2 ^ 32 < 2 ^ 32 := Int.emod_lt_of_pos _ (by norm_num)
    omega
  rw [h3, h2]
  split
  · next hlt => omega
  · next hge => omega

theorem to_int64_eq (n : Nat) (h : n < 2 ^ 63) : to_int64 n = (n : Int) := by
  unfold to_int64
  have h1 : n % 2 ^ 64 = n := Nat.mod_eq_of_lt (by omega)
  rw [h1, if_pos h]

theorem complete_eq (e : Ext) (OutputBufferLength : Nat) (ret : Int) (s : State)
    (out : Option (List Nat)) :
    complete e OutputBufferLength (req_out_size e OutputBufferLength) ret s out =
      some (completed e OutputBufferLength (completion_status ret) s out) := by
  unfold complete completed req_out_size completion_status
  by_cases ho : OutputBufferLength = 0 <;> simp [ho, emit]

theorem codes_distinct (cfg : Config) (h : cfg.codes.Nodup) :
    cfg.IOCTL_LOAD_VMM ≠ cfg.IOCTL_ADD_MODULE ∧
    (cfg.IOCTL_UNLOAD_VMM ≠ cfg.IOCTL_ADD_MODULE ∧ cfg.IOCTL_UNLOAD_VMM ≠ cfg.IOCTL_LOAD_VMM) ∧
    (cfg.IOCTL_START_VMM ≠ cfg.IOCTL_ADD_MODULE ∧ cfg.IOCTL_START_VMM ≠ cfg.IOCTL_LOAD_VMM ∧
      cfg.IOCTL_START_VMM ≠ cfg.IOCTL_UNLOAD_VMM) ∧
    (cfg.IOCTL_STOP_VMM ≠ cfg.IOCTL_ADD_MODULE ∧ cfg.IOCTL_STOP_VMM ≠ cfg.IOCTL_LOAD_VMM ∧
      cfg.IOCTL_STOP_VMM ≠ cfg.IOCTL_UNLOAD_VMM ∧ cfg.IOCTL_STOP_VMM ≠ cfg.IOCTL_START_VMM) ∧
    (cfg.IOCTL_DUMP_VMM ≠ cfg.IOCTL_ADD_MODULE ∧ cfg.IOCTL_DUMP_VMM ≠ cfg.IOCTL_LOAD_VMM ∧
      cfg.IOCTL_DUMP_VMM ≠ cfg.IOCTL_UNLOAD_VMM ∧ cfg.IOCTL_DUMP_VMM ≠ cfg.IOCTL_START_VMM ∧
      cfg.IOCTL_DUMP_VMM ≠ cfg.IOCTL_STOP_VMM) ∧
    (cfg.IOCTL_VMM_STATUS ≠ cfg.IOCTL_ADD_MODULE ∧ cfg.IOCTL_VMM_STATUS ≠ cfg.IOCTL_LOAD_VMM ∧
      cfg.IOCTL_VMM_STATUS ≠ cfg.IOCTL_UNLOAD_VMM ∧ cfg.IOCTL_VMM_STATUS ≠ cfg.IOCTL_START_VMM ∧
      cfg.IOCTL_VMM_STATUS ≠ cfg.IOCTL_STOP_VMM ∧ cfg.IOCTL_VMM_STATUS ≠ cfg.IOCTL_DUMP_VMM) ∧
    (cfg.IOCTL_SET_VCPUID ≠ cfg.IOCTL_ADD_MODULE ∧ cfg.IOCTL_SET_VCPUID ≠ cfg.IOCTL_LOAD_VMM ∧
      cfg.IOCTL_SET_VCPUID ≠ cfg.IOCTL_UNLOAD_VMM ∧ cfg.IOCTL_SET_VCPUID ≠ cfg.IOCTL_START_VMM ∧
      cfg.IOCTL_SET_VCPUID ≠ cfg.IOCTL_STOP_VMM ∧ cfg.IOCTL_SET_VCPUID ≠ cfg.IOCTL_DUMP_VMM ∧
      cfg.IOCTL_SET_VCPUID ≠ cfg.IOCTL_VMM_STATUS) := by
  simp only [Config.codes, List.nodup_cons, List.mem_cons, List.mem_singleton, not_or,
    List.not_mem_nil, or_false] at h
  obtain ⟨⟨h12, h13, h14, h15, h16, h17, h18⟩, ⟨h23, h24, h25, h26, h27, h28⟩,
    ⟨h34, h35, h36, h37, h38⟩, ⟨h45, h46, h47, h48⟩, ⟨h56, h57, h58⟩, ⟨h67, h68⟩, h78, -⟩ := h
  exact ⟨Ne.symm h12, ⟨Ne.symm h13, Ne.symm h23⟩, ⟨Ne.symm h14, Ne.symm h24, Ne.symm h34⟩,
    ⟨Ne.symm h15, Ne.symm h25, Ne.symm h35, Ne.symm h45⟩,
    ⟨Ne.symm h16, Ne.symm h26, Ne.symm h36, Ne.symm h46, Ne.symm h56⟩,
    ⟨Ne.symm h17, Ne.symm h27, Ne.symm h37, Ne.symm h47, Ne.symm h57, Ne.symm h67⟩,
    ⟨Ne.symm h18, Ne.symm h28, Ne.symm h38, Ne.symm h48, Ne.symm h58, Ne.symm h68,
      Ne.symm h78⟩⟩

theorem not_retrieval_fails (e : Ext) (OutputBufferLength InputBufferLength : Nat)
    (hin : InputBufferLength = 0 ∨ NT_SUCCESS e.input.status = true)
    (hout : OutputBufferLength = 0 ∨ NT_SUCCESS e.output.status = true) :
    ¬ retrieval_fails e OutputBufferLength InputBufferLength := by
  unfold retrieval_fails
  rintro (⟨h1, h2⟩ | ⟨h1, h2⟩)
  · rcases hin with h | h
    · exact h1 h
    · rw [h] at h2; exact absurd h2 (by simp)
  · rcases hout with h | h
    · exact h1 h
    · rw [h] at h2; exact absurd h2 (by simp)

theorem dispatch_operation_frame (cfg : Config) (e : Ext) (IoControlCode : Nat)
    (in_buf : Option (List Nat)) (in_size : Nat) (out : Option (List Nat)) (s : State)
    (ret : Int) (s2 : State) (out2 : Option (List Nat))
    (h : dispatch_operation cfg e IoControlCode in_buf in_size out s = some (some (ret, s2, out2))) :
    op_frame cfg s ret s2 := by
  unfold dispatch_operation at h
  split at h
  · simp only [Option.map_eq_some', Option.some.injEq, Prod.mk.injEq] at h
    obtain ⟨⟨r1, r2⟩, hop, rfl, rfl, -⟩ := h
    exact (ioctl_add_module_frame cfg e _ _ s _ _ hop).1
  split at h
  · simp only [Option.map_eq_some', Option.some.injEq, Prod.mk.injEq] at h
    obtain ⟨⟨r1, r2⟩, hop, rfl, rfl, -⟩ := h
    exact (ioctl_load_vmm_frame cfg e s _ _ hop).1
  split at h
  · simp only [Option.map_eq_some', Option.some.injEq, Prod.mk.injEq] at h
    obtain ⟨⟨r1, r2⟩, hop, rfl, rfl, -⟩ := h
    exact (ioctl_unload_vmm_frame cfg e s _ _ hop).1
  split at h
  · simp only [Option.some.injEq, Prod.mk.injEq] at h
    obtain ⟨rfl, rfl, -⟩ := h
    exact (ioctl_start_vmm_frame cfg e s).1
  split at h
  · simp only [Option.some.injEq, Prod.mk.injEq] at h
    obtain ⟨rfl, rfl, -⟩ := h
    exact (ioctl_stop_vmm_frame cfg e s).1
  split at h
  · simp only [Option.map_eq_some', Option.some.injEq] at h
    obtain ⟨⟨r1, r2, r3⟩, hop, h⟩ := h
    simp only [Prod.mk.injEq] at h
    obtain ⟨rfl, rfl, -⟩ := h
    exact (ioctl_dump_vmm_frame cfg e out s _ _ _ hop).1
  split at h
  · split at h
    · simp only [Option.some.injEq, Prod.mk.injEq] at h
      obtain ⟨rfl, rfl, -⟩ := h
      exact (ioctl_vmm_status_frame cfg e none s).1
    · split at h
      · simp only [Option.some.injEq, Prod.mk.injEq] at h
        obtain ⟨rfl, rfl, -⟩ := h
        exact (ioctl_vmm_status_frame cfg e _ s).1
      · exact absurd h (by simp)
  split at h
  · split at h
    · simp only [Option.some.injEq, Prod.mk.injEq] at h
      obtain ⟨rfl, rfl, -⟩ := h
      exact (ioctl_set_vcpuid_frame cfg none s).1
    · split at h
      · simp only [Option.some.injEq, Prod.mk.injEq] at h
        obtain ⟨rfl, rfl, -⟩ := h
        exact (ioctl_set_vcpuid_frame cfg _ s).1
      · exact absurd h (by simp)
  · exact absurd h (by simp)

theorem complete_of_status (cfg : Config) (e : Ext) (OutputBufferLength : Nat) (ret : Int)
    (s : State) (out : Option (List Nat))
    (hS : is_long cfg.BF_IOCTL_SUCCESS) (hF : is_long cfg.BF_IOCTL_FAILURE)
    (hr : ret = cfg.BF_IOCTL_SUCCESS ∨ ret = cfg.BF_IOCTL_FAILURE) :
    complete e OutputBufferLength (req_out_size e OutputBufferLength) ret s out =
      some (completed e OutputBufferLength ret s out) := by
  have hc : completion_status ret = ret := by
    rcases hr with h | h
    · rw [h]; exact completion_status_eq _ hS.1 hS.2
    · rw [h]; exact completion_status_eq _ hF.1 hF.2
  rw [complete_eq, hc]

/-- C19: when the code is one of the eight case labels and every retrieval that
is attempted succeeds, `bareflankEvtIoDeviceControl` is: the retrievals, then
one call of the operation of that label and of no other, then the byte count
(when `OutputBufferLength != 0`) and the completion, whose status is the value
the operation returned.  `ioctl_add_module` receives the input buffer and the
retrieved input size as its length, `ioctl_dump_vmm` the output buffer,
`ioctl_vmm_status` the `int64_t` at the start of the output buffer and
`ioctl_set_vcpuid` the `uint64_t` at the start of the input buffer (a null
pointer when the buffer was not retrieved).  Where the operation is undefined
the dispatch is undefined. -/
theorem dispatch_routes (cfg : Config) (e : Ext)
    (OutputBufferLength InputBufferLength : Nat) (s : State)
    (hcodes : cfg.codes.Nodup)
    (hin : InputBufferLength = 0 ∨ NT_SUCCESS e.input.status = true)
    (hout : OutputBufferLength = 0 ∨ NT_SUCCESS e.output.status = true)
    (hsize : e.input.size < 2 ^ 63)
    (hS : is_long cfg.BF_IOCTL_SUCCESS) (hF : is_long cfg.BF_IOCTL_FAILURE) :
    bareflankEvtIoDeviceControl cfg e OutputBufferLength InputBufferLength
        cfg.IOCTL_ADD_MODULE s =
      (ioctl_add_module cfg e (req_in e InputBufferLength) (req_in_size e InputBufferLength)
        (retrieved e OutputBufferLength InputBufferLength s)).map
        (fun r => completed e OutputBufferLength r.1 r.2 (req_out e OutputBufferLength)) ∧
    bareflankEvtIoDeviceControl cfg e OutputBufferLength InputBufferLength
        cfg.IOCTL_LOAD_VMM s =
      (ioctl_load_vmm cfg e (retrieved e OutputBufferLength InputBufferLength s)).map
        (fun r => completed e OutputBufferLength r.1 r.2 (req_out e OutputBufferLength)) ∧
    bareflankEvtIoDeviceControl cfg e OutputBufferLength InputBufferLength
        cfg.IOCTL_UNLOAD_VMM s =
      (ioctl_unload_vmm cfg e (retrieved e OutputBufferLength InputBufferLength s)).map
        (fun r => completed e OutputBufferLength r.1 r.2 (req_out e OutputBufferLength)) ∧
    bareflankEvtIoDeviceControl cfg e OutputBufferLength InputBufferLength
        cfg.IOCTL_START_VMM s =
      some (completed e OutputBufferLength
        (ioctl_start_vmm cfg e (retrieved e OutputBufferLength InputBufferLength s)).1
        (ioctl_start_vmm cfg e (retrieved e OutputBufferLength InputBufferLength s)).2
        (req_out e OutputBufferLength)) ∧
    bareflankEvtIoDeviceControl cfg e OutputBufferLength InputBufferLength
        cfg.IOCTL_STOP_VMM s =
      some (completed e OutputBufferLength
        (ioctl_stop_vmm cfg e (retrieved e OutputBufferLength InputBufferLength s)).1
        (ioctl_stop_vmm cfg e (retrieved e OutputBufferLength InputBufferLength s)).2
        (req_out e OutputBufferLength)) ∧
    bareflankEvtIoDeviceControl cfg e OutputBufferLength InputBufferLength
        cfg.IOCTL_DUMP_VMM s =
      (ioctl_dump_vmm cfg e (req_out e OutputBufferLength)
        (retrieved e OutputBufferLength InputBufferLength s)).map
        (fun r => completed e OutputBufferLength r.1 r.2.1 r.2.2) ∧
    bareflankEvtIoDeviceControl cfg e OutputBufferLength InputBufferLength
        cfg.IOCTL_VMM_STATUS s =
      (match req_out e OutputBufferLength with
      | none =>
        some (completed e OutputBufferLength
          (ioctl_vmm_status cfg e none
            (retrieved e OutputBufferLength InputBufferLength s)).1
          (ioctl_vmm_status cfg e none
            (retrieved e OutputBufferLength InputBufferLength s)).2.1
          none)
      | some bytes =>
        if 8 ≤ bytes.length then
          some (completed e OutputBufferLength
            (ioctl_vmm_status cfg e (some (int64_at bytes))
              (retrieved e OutputBufferLength InputBufferLength s)).1
            (ioctl_vmm_status cfg e (some (int64_at bytes))
              (retrieved e OutputBufferLength InputBufferLength s)).2.1
            ((ioctl_vmm_status cfg e (some (int64_at bytes))
              (retrieved e OutputBufferLength InputBufferLength s)).2.2.map
                (store_int64 bytes)))
        else none) ∧
    bareflankEvtIoDeviceControl cfg e OutputBufferLength InputBufferLength
        cfg.IOCTL_SET_VCPUID s =
      (match req_in e InputBufferLength with
      | none =>
        some (completed e OutputBufferLength
          (ioctl_set_vcpuid cfg none (retrieved e OutputBufferLength InputBufferLength s)).1
          (ioctl_set_vcpuid cfg none (retrieved e OutputBufferLength InputBufferLength s)).2
          (req_out e OutputBufferLength))
      | some bytes =>
        if 8 ≤ bytes.length then
          some (completed e OutputBufferLength
            (ioctl_set_vcpuid cfg (some (uint64_at bytes))
              (retrieved e OutputBufferLength InputBufferLength s)).1
            (ioctl_set_vcpuid cfg (some (uint64_at bytes))
              (retrieved e OutputBufferLength InputBufferLength s)).2
            (req_out e OutputBufferLength))
        else none) := by
  have hnf := not_retrieval_fails e OutputBufferLength InputBufferLength hin hout
  obtain ⟨h21, ⟨h31, h32⟩, ⟨h41, h42, h43⟩, ⟨h51, h52, h53, h54⟩, ⟨h61, h62, h63, h64, h65⟩,
    ⟨h71, h72, h73, h74, h75, h76⟩, ⟨h81, h82, h83, h84, h85, h86, h87⟩⟩ :=
    codes_distinct cfg hcodes
  have hlen : to_int64 (req_in_size e InputBufferLength) =
      ((req_in_size e InputBufferLength : Nat) : Int) := by
    apply to_int64_eq
    unfold req_in_size
    split
    · exact hsize
    · norm_num
  refine ⟨?_, ?_, ?_, ?_, ?_, ?_, ?_, ?_⟩
  · rw [dispatch_eq, if_neg hnf]
    simp only [dispatch_operation, eq_self_iff_true, if_true, hlen]
    generalize hx : ioctl_add_module cfg e (req_in e InputBufferLength)
      (req_in_size e InputBufferLength) (retrieved e OutputBufferLength InputBufferLength s) = x
    cases x with
    | none => rfl
    | some r =>
      obtain ⟨ret, s2⟩ := r
      simp only [Option.map_some', Option.some_bind]
      rw [complete_of_status cfg e _ _ _ _ hS hF (ioctl_add_module_frame _ _ _ _ _ _ _ hx).1.1]
  · rw [dispatch_eq, if_neg hnf]
    simp only [dispatch_operation, eq_self_iff_true, if_true, if_false, h21]
    generalize hx : ioctl_load_vmm cfg e
      (retrieved e OutputBufferLength InputBufferLength s) = x
    cases x with
    | none => rfl
    | some r =>
      obtain ⟨ret, s2⟩ := r
      simp only [Option.map_some', Option.some_bind]
      rw [complete_of_status cfg e _ _ _ _ hS hF (ioctl_load_vmm_frame _ _ _ _ _ hx).1.1]
  · rw [dispatch_eq, if_neg hnf]
    simp only [dispatch_operation, eq_self_iff_true, if_true, if_false, h31, h32]
    generalize hx : ioctl_unload_vmm cfg e
      (retrieved e OutputBufferLength InputBufferLength s) = x
    cases x with
    | none => rfl
    | some r =>
      obtain ⟨ret, s2⟩ := r
      simp only [Option.map_some', Option.some_bind]
      rw [complete_of_status cfg e _ _ _ _ hS hF (ioctl_unload_vmm_frame _ _ _ _ _ hx).1.1]
  · rw [dispatch_eq, if_neg hnf]
    simp only [dispatch_operation, eq_self_iff_true, if_true, if_false, h41, h42, h43,
      Option.some_bind]
    exact complete_of_status cfg e _ _ _ _ hS hF (ioctl_start_vmm_frame _ _ _).1.1
  · rw [dispatch_eq, if_neg hnf]
    simp only [dispatch_operation, eq_self_iff_true, if_true, if_false, h51, h52, h53, h54,
      Option.some_bind]
    exact complete_of_status cfg e _ _ _ _ hS hF (ioctl_stop_vmm_frame _ _ _).1.1
  · rw [dispatch_eq, if_neg hnf]
    simp only [dispatch_operation, eq_self_iff_true, if_true, if_false, h61, h62, h63, h64, h65]
    generalize hx : ioctl_dump_vmm cfg e (req_out e OutputBufferLength)
      (retrieved e OutputBufferLength InputBufferLength s) = x
    cases x with
    | none => rfl
    | some r =>
      obtain ⟨ret, s2, out2⟩ := r
      simp only [Option.map_some', Option.some_bind]
      rw [complete_of_status cfg e _ _ _ _ hS hF (ioctl_dump_vmm_frame _ _ _ _ _ _ _ hx).1.1]
  · rw [dispatch_eq, if_neg hnf]
    simp only [dispatch_operation, eq_self_iff_true, if_true, if_false, h71, h72, h73, h74, h75,
      h76, int64_at, store_int64]
    cases req_out e OutputBufferLength with
    | none =>
      simp only [Option.some_bind]
      exact complete_of_status cfg e _ _ _ _ hS hF (ioctl_vmm_status_frame _ _ _ _).1.1
    | some bytes =>
      by_cases h8 : 8 ≤ bytes.length
      · simp only [h8, if_true, Option.some_bind]
        exact complete_of_status cfg e _ _ _ _ hS hF (ioctl_vmm_status_frame _ _ _ _).1.1
      · simp only [h8, if_false]
        rfl
  · rw [dispatch_eq, if_neg hnf]
    simp only [dispatch_operation, eq_self_iff_true, if_true, if_false, h81, h82, h83, h84, h85,
      h86, h87, uint64_at]
    cases req_in e InputBufferLength with
    | none =>
      simp only [Option.some_bind]
      exact complete_of_status cfg e _ _ _ _ hS hF (ioctl_set_vcpuid_frame _ _ _).1.1
    | some bytes =>
      by_cases h8 : 8 ≤ bytes.length
      · simp only [h8, if_true, Option.some_bind]
        exact complete_of_status cfg e _ _ _ _ hS hF (ioctl_set_vcpuid_frame _ _ _).1.1
      · simp only [h8, if_false]
        rfl

/-! ## Completion and byte count -/

theorem dispatch_operation_default (cfg : Config) (e : Ext) (IoControlCode : Nat)
    (in_buf : Option (List Nat)) (in_size : Nat) (out : Option (List Nat)) (s : State)
    (h : dispatch_operation cfg e IoControlCode in_buf in_size out s = some none) :
    IoControlCode ∉ cfg.codes := by
  unfold dispatch_operation at h
  simp only [Config.codes, List.mem_cons, List.mem_singleton, List.not_mem_nil, or_false,
    not_or]
  split at h
  · simp at h
  split at h
  · simp at h
  split at h
  · simp at h
  split at h
  · simp at h
  split at h
  · simp at h
  split at h
  · simp at h
  split at h
  · split at h
    · simp at h
    · split at h <;> simp at h
  split at h
  · split at h
    · simp at h
    · split at h <;> simp at h
  rename_i h1 h2 h3 h4 h5 h6 h7 h8
  exact ⟨h1, h2, h3, h4, h5, h6, h7, h8⟩

theorem dispatch_operation_routed (cfg : Config) (e : Ext) (IoControlCode : Nat)
    (in_buf : Option (List Nat)) (in_size : Nat) (out : Option (List Nat)) (s : State)
    (r : Int × State × Option (List Nat))
    (h : dispatch_operation cfg e IoControlCode in_buf in_size out s = some (some r)) :
    IoControlCode ∈ cfg.codes := by
  by_contra hn
  simp only [Config.codes, List.mem_cons, List.mem_singleton, List.not_mem_nil, or_false,
    not_or] at hn
  obtain ⟨h1, h2, h3, h4, h5, h6, h7, h8⟩ := hn
  simp [dispatch_operation, h1, h2, h3, h4, h5, h6, h7, h8] at h

/-- The log of a dispatch that returns: either the retrievals and the
completion with `STATUS_INVALID_PARAMETER`, or the retrievals, what one
operation logged, the byte count and the completion with that operation's
status. -/
theorem dispatch_trace (cfg : Config) (e : Ext)
    (OutputBufferLength InputBufferLength IoControlCode : Nat) (s s1 : State)
    (out1 : Option (List Nat))
    (h : bareflankEvtIoDeviceControl cfg e OutputBufferLength InputBufferLength
      IoControlCode s = some (s1, out1)) :
    ((retrieval_fails e OutputBufferLength InputBufferLength ∨ IoControlCode ∉ cfg.codes) ∧
      s1.trace = s.trace ++ retrievals e OutputBufferLength InputBufferLength ++
        [Event.WdfRequestComplete STATUS_INVALID_PARAMETER]) ∨
    (¬ retrieval_fails e OutputBufferLength InputBufferLength ∧ IoControlCode ∈ cfg.codes ∧
      ∃ ret evs, (ret = cfg.BF_IOCTL_SUCCESS ∨ ret = cfg.BF_IOCTL_FAILURE) ∧
        (∀ ev ∈ evs, ev.is_framework = false) ∧
        s1.trace = s.trace ++ retrievals e OutputBufferLength InputBufferLength ++ evs ++
          (if OutputBufferLength ≠ 0 then [Event.WdfRequestSetInformation e.output.size]
            else []) ++
          [Event.WdfRequestComplete (completion_status ret)]) := by
  rw [dispatch_eq] at h
  by_cases hf : retrieval_fails e OutputBufferLength InputBufferLength
  · rw [if_pos hf] at h
    simp only [FAIL_IOCTL, Option.some.injEq, Prod.mk.injEq] at h
    obtain ⟨rfl, -⟩ := h
    exact Or.inl ⟨Or.inl hf, by simp [emit, retrieved]⟩
  · rw [if_neg hf] at h
    simp only [Option.bind_eq_some] at h
    obtain ⟨r, hop, h⟩ := h
    cases r with
    | none =>
      simp only [FAIL_IOCTL, Option.some.injEq, Prod.mk.injEq] at h
      obtain ⟨rfl, -⟩ := h
      exact Or.inl ⟨Or.inr (dispatch_operation_default _ _ _ _ _ _ _ hop),
        by simp [emit, retrieved]⟩
    | some r =>
      obtain ⟨ret, s2, out2⟩ := r
      simp only [complete_eq, Option.some.injEq] at h
      obtain ⟨hret, evs, htr, hevs⟩ := dispatch_operation_frame _ _ _ _ _ _ _ _ _ _ hop
      refine Or.inr ⟨hf, dispatch_operation_routed _ _ _ _ _ _ _ _ hop, ret, evs, hret, hevs, ?_⟩
      have h1 : s1 = (completed e OutputBufferLength (completion_status ret) s2 out2).1 := by
        rw [h]
      rw [h1]
      simp [completed, htr, retrieved]

theorem ioctl_add_module_defined (cfg : Config) (e : Ext) (file : Option (List Nat)) (n : Nat)
    (s : State) (hreg : is_registry cfg s)
    (hfile : match file with
      | some bytes => n ≤ bytes.length
      | none => n = 0) :
    ∃ r, ioctl_add_module cfg e file (n : Int) s = some r := by
  obtain ⟨hlen, h0, hle⟩ := hreg
  unfold ioctl_add_module
  by_cases hfull : s.g_num_pmodules ≥ cfg.MAX_NUM_MODULES
  · exact ⟨_, if_pos hfull⟩
  · rw [if_neg hfull]
    simp only [platform_alloc_rwe]
    by_cases ha : e.platform_alloc_rwe = 0
    · simp [ha]
    · have hcopy : ∀ dst : List Nat, n ≤ dst.length →
          ∃ copied, platform_memcpy dst file (n : Int) = some copied := by
        intro dst hdst
        unfold platform_memcpy
        by_cases hn : (n : Int) = 0
        · exact ⟨_, if_pos hn⟩
        · rw [if_neg hn]
          cases file with
          | none => exact absurd (by exact_mod_cast hfile) hn
          | some bytes =>
            simp only at hfile
            simp [hfile, hdst]
      obtain ⟨copied, hcopy⟩ := hcopy
        (List.replicate n 0 ++ List.drop n (List.map e.rwe_fill (List.range n))) (by simp)
      have hidx : s.g_num_pmodules.toNat < s.pmodules.length := by omega
      by_cases hadd : e.common_add_module = cfg.BF_SUCCESS
      · simp [ha, hadd, region, emit, platform_memset, hcopy, set_region, pmodules_store, h0,
          hidx]
      · simp [ha, hadd, region, emit, platform_memset, hcopy]

theorem ioctl_load_vmm_defined (cfg : Config) (e : Ext) (s : State) (hreg : is_registry cfg s) :
    ∃ r, ioctl_load_vmm cfg e s = some r := by
  unfold ioctl_load_vmm
  by_cases hload : e.common_load_vmm = cfg.BF_SUCCESS
  · simp [hload]
  · have hreg1 : is_registry cfg
        (ALERT "IOCTL_LOAD_VMM: failed to load vmm: %d\n" [e.common_load_vmm]
          (emit (Event.common_load_vmm e.common_load_vmm) s)) := hreg
    simp [hload, ioctl_unload_vmm_eq cfg e _ hreg1]

theorem dispatch_operation_defined (cfg : Config) (e : Ext)
    (OutputBufferLength InputBufferLength IoControlCode : Nat) (s : State)
    (hb : in_bounds cfg e OutputBufferLength InputBufferLength IoControlCode s) :
    ∃ r, dispatch_operation cfg e IoControlCode (req_in e InputBufferLength)
      (req_in_size e InputBufferLength) (req_out e OutputBufferLength)
      (retrieved e OutputBufferLength InputBufferLength s) = some r := by
  obtain ⟨hreg, hadd, hdump, hstatus, hset⟩ := hb
  have hreg1 : is_registry cfg (retrieved e OutputBufferLength InputBufferLength s) := hreg
  unfold dispatch_operation
  split
  · next h1 =>
    obtain ⟨hsz, hfile⟩ := hadd h1
    rw [to_int64_eq _ hsz]
    obtain ⟨r, hr⟩ := ioctl_add_module_defined cfg e _ _ _ hreg1 hfile
    exact ⟨_, by rw [hr]; rfl⟩
  split
  · obtain ⟨r, hr⟩ := ioctl_load_vmm_defined cfg e _ hreg1
    exact ⟨_, by rw [hr]; rfl⟩
  split
  · exact ⟨_, by rw [ioctl_unload_vmm_eq cfg e _ hreg1]; rfl⟩
  split
  · exact ⟨_, rfl⟩
  split
  · exact ⟨_, rfl⟩
  split
  · next h6 =>
    by_cases hret : e.common_dump_vmm = cfg.BF_SUCCESS
    · have hd := hdump h6 hret
      split at hd
      · next slot d hslot hdrr =>
        by_cases h0 : cfg.sizeof_debug_ring_resources_t = 0
        · simp [ioctl_dump_vmm, hret, hslot, hdrr, platform_memcpy, h0]
        · simp [ioctl_dump_vmm, hret, hslot, hdrr, platform_memcpy, h0, hd.1, hd.2]
      · exact absurd hd id
    · simp [ioctl_dump_vmm, hret]
  split
  · next h7 =>
    have hs := hstatus h7
    split
    · exact ⟨_, rfl⟩
    · next bytes hout =>
      rw [hout] at hs
      simp only at hs
      exact ⟨_, if_pos hs⟩
  split
  · next h8 =>
    have hs := hset h8
    split
    · exact ⟨_, rfl⟩
    · next bytes hin =>
      rw [hin] at hs
      simp only at hs
      exact ⟨_, if_pos hs⟩
  · exact ⟨_, rfl⟩

theorem dispatch_defined (cfg : Config) (e : Ext)
    (OutputBufferLength InputBufferLength IoControlCode : Nat) (s : State)
    (hb : in_bounds cfg e OutputBufferLength InputBufferLength IoControlCode s) :
    ∃ r, bareflankEvtIoDeviceControl cfg e OutputBufferLength InputBufferLength
      IoControlCode s = some r := by
  rw [dispatch_eq]
  split
  · exact ⟨_, rfl⟩
  · obtain ⟨r, hr⟩ := dispatch_operation_defined cfg e _ _ _ s hb
    rw [hr]
    cases r with
    | none => exact ⟨_, rfl⟩
    | some r =>
      obtain ⟨ret, s2, out2⟩ := r
      exact ⟨_, complete_eq _ _ _ _ _⟩

theorem completions_append (a b : List Event) :
    completions (a ++ b) = completions a ++ completions b := by
  induction a with
  | nil => rfl
  | cons ev a ih => cases ev <;> simp [completions, ih]

theorem byte_counts_append (a b : List Event) :
    byte_counts (a ++ b) = byte_counts a ++ byte_counts b := by
  induction a with
  | nil => rfl
  | cons ev a ih => cases ev <;> simp [byte_counts, ih]

theorem completions_of_operation (evs : List Event)
    (h : ∀ ev ∈ evs, ev.is_framework = false) : completions evs = [] := by
  induction evs with
  | nil => rfl
  | cons ev evs ih =>
    have h1 := h ev (List.mem_cons_self _ _)
    have h2 := ih (fun ev hev => h ev (List.mem_cons_of_mem _ hev))
    cases ev <;> simp_all [completions, Event.is_framework]

theorem byte_counts_of_operation (evs : List Event)
    (h : ∀ ev ∈ evs, ev.is_framework = false) : byte_counts evs = [] := by
  induction evs with
  | nil => rfl
  | cons ev evs ih =>
    have h1 := h ev (List.mem_cons_self _ _)
    have h2 := ih (fun ev hev => h ev (List.mem_cons_of_mem _ hev))
    cases ev <;> simp_all [byte_counts, Event.is_framework]

theorem completions_retrievals (e : Ext) (OutputBufferLength InputBufferLength : Nat) :
    completions (retrievals e OutputBufferLength InputBufferLength) = [] := by
  unfold retrievals
  split <;> split <;> (try split) <;> rfl

theorem byte_counts_retrievals (e : Ext) (OutputBufferLength InputBufferLength : Nat) :
    byte_counts (retrievals e OutputBufferLength InputBufferLength) = [] := by
  unfold retrievals
  split <;> split <;> (try split) <;> rfl

theorem drop_append_self (a b : List Event) : (a ++ b).drop a.length = b := by
  simp

/-- A call of `bareflankEvtIoDeviceControl` that returns has called
`WdfRequestComplete` exactly once, with one status, as its last action. -/
theorem dispatch_completions_of_some (cfg : Config) (e : Ext)
    (OutputBufferLength InputBufferLength IoControlCode : Nat) (s s1 : State)
    (out1 : Option (List Nat))
    (h : bareflankEvtIoDeviceControl cfg e OutputBufferLength InputBufferLength
      IoControlCode s = some (s1, out1)) :
    ∃ status, completions (s1.trace.drop s.trace.length) = [status] ∧
      s1.trace.getLast? = some (Event.WdfRequestComplete status) := by
  rcases dispatch_trace cfg e _ _ _ s s1 out1 h with ⟨-, htr⟩ | ⟨-, -, ret, evs, -, hevs, htr⟩
  · refine ⟨STATUS_INVALID_PARAMETER, ?_, ?_⟩
    · rw [htr, List.append_assoc, drop_append_self, completions_append,
        completions_retrievals]
      rfl
    · rw [htr, List.getLast?_append]
      rfl
  · refine ⟨completion_status ret, ?_, ?_⟩
    · rw [htr]
      simp only [List.append_assoc]
      rw [drop_append_self, completions_append, completions_retrievals, completions_append,
        completions_of_operation evs hevs, completions_append]
      split <;> rfl
    · rw [htr, List.getLast?_append]
      rfl

/-- C12, as stated, fails: there are buffer configurations for which the
dispatch makes an out-of-bounds access and so never reaches
`WdfRequestComplete`.  VmmStatus dispatched with a 4-byte output buffer:
`ioctl_vmm_status` stores the 8-byte status through the non-null pointer, and
nothing before the `switch` checks the size.  DumpVmm dispatched with no output
buffer while the Core API dump succeeds: `ioctl_dump_vmm` copies the descriptor
to the null pointer.  In both cases no state is returned, so no completion is
made. -/
theorem dispatch_out_of_bounds_never_completes :
    (¬ ∃ s1 out1 status, bareflankEvtIoDeviceControl cfg4 (ext_ok 0 none (some [1, 1, 1, 1]))
        4 0 cfg4.IOCTL_VMM_STATUS two4 = some (s1, out1) ∧
      completions (s1.trace.drop two4.trace.length) = [status]) ∧
    bareflankEvtIoDeviceControl cfg4 (ext_ok 0 none (some [1, 1, 1, 1]))
      4 0 cfg4.IOCTL_VMM_STATUS two4 = none ∧
    (¬ ∃ s1 out1 status, bareflankEvtIoDeviceControl cfg4 (ext_ok 0 none none)
        0 0 cfg4.IOCTL_DUMP_VMM two4 = some (s1, out1) ∧
      completions (s1.trace.drop two4.trace.length) = [status]) ∧
    bareflankEvtIoDeviceControl cfg4 (ext_ok 0 none none) 0 0 cfg4.IOCTL_DUMP_VMM two4 = none ∧
    (ext_ok 0 none none).common_dump_vmm = cfg4.BF_SUCCESS ∧
    ioctl_dump_vmm cfg4 (ext_ok 0 none none) none two4 = none := by
  have h1 : bareflankEvtIoDeviceControl cfg4 (ext_ok 0 none (some [1, 1, 1, 1]))
      4 0 cfg4.IOCTL_VMM_STATUS two4 = none := by decide
  have h2 : bareflankEvtIoDeviceControl cfg4 (ext_ok 0 none none) 0 0
      cfg4.IOCTL_DUMP_VMM two4 = none := by decide
  refine ⟨?_, h1, ?_, h2, by decide, by decide⟩
  · rintro ⟨s1, out1, status, h, -⟩
    rw [h1] at h
    exact absurd h (by simp)
  · rintro ⟨s1, out1, status, h, -⟩
    rw [h2] at h
    exact absurd h (by simp)

/-- C12 as amended: for every command code, every outcome of buffer retrieval
and of the external calls, and every buffer configuration for which each memory
access of the dispatch stays inside the object it addresses (`in_bounds`), one
call of `bareflankEvtIoDeviceControl` returns and has called
`WdfRequestComplete` exactly once, with one status, as its last action. -/
theorem dispatch_completes_once (cfg : Config) (e : Ext)
    (OutputBufferLength InputBufferLength IoControlCode : Nat) (s : State)
    (hb : in_bounds cfg e OutputBufferLength InputBufferLength IoControlCode s) :
    ∃ s1 out1 status, bareflankEvtIoDeviceControl cfg e OutputBufferLength InputBufferLength
        IoControlCode s = some (s1, out1) ∧
      completions (s1.trace.drop s.trace.length) = [status] ∧
      s1.trace.getLast? = some (Event.WdfRequestComplete status) := by
  obtain ⟨⟨s1, out1⟩, h⟩ := dispatch_defined cfg e _ _ _ s hb
  obtain ⟨status, h1, h2⟩ := dispatch_completions_of_some cfg e _ _ _ s s1 out1 h
  exact ⟨s1, out1, status, h, h1, h2⟩

/-- Witness for C19: AddModule with an 8-byte input and a 17-byte output buffer
on a registry that holds two modules. -/
theorem dispatch_routes_witness :
    (cfg4.codes.Nodup ∧
      ((8 : Nat) = 0 ∨ NT_SUCCESS ext_req.input.status = true) ∧
      ((17 : Nat) = 0 ∨ NT_SUCCESS ext_req.output.status = true) ∧
      ext_req.input.size < 2 ^ 63 ∧
      is_long cfg4.BF_IOCTL_SUCCESS ∧ is_long cfg4.BF_IOCTL_FAILURE) ∧
    bareflankEvtIoDeviceControl cfg4 ext_req 17 8 cfg4.IOCTL_ADD_MODULE two4 =
      (ioctl_add_module cfg4 ext_req (req_in ext_req 8) (req_in_size ext_req 8)
        (retrieved ext_req 17 8 two4)).map
        (fun r => completed ext_req 17 r.1 r.2 (req_out ext_req 17)) ∧
    bareflankEvtIoDeviceControl cfg4 ext_req 17 8 cfg4.IOCTL_ADD_MODULE two4 =
      some ({ g_num_pmodules := 3
              pmodules := [⟨4096, 2⟩, ⟨8192, 2⟩, ⟨12288, 8⟩, ⟨0, 0⟩]
              g_vcpuid := 3
              heap := [(12288, [1, 1, 0, 0, 0, 0, 0, 0]), (8192, [3, 4]), (4096, [1, 2])]
              trace :=
                [Event.WdfRequestRetrieveInputBuffer 8 0,
                 Event.WdfRequestRetrieveOutputBuffer 17 0,
                 Event.platform_alloc_rwe 8 12288, Event.common_add_module 12288 8 0,
                 Event.DEBUG "IOCTL_ADD_MODULE: succeeded\n",
                 Event.WdfRequestSetInformation 17, Event.WdfRequestComplete 0] },
        some (List.replicate 17 1)) :=
  ⟨by decide,
    (dispatch_routes cfg4 ext_req 17 8 two4 (by decide) (by decide) (by decide) (by decide)
      (by decide) (by decide)).1,
    by decide⟩

/-- Witness for the amended C12: the AddModule request of `ext_req` on a
registry that holds two modules is in bounds, returns and completes once. -/
theorem dispatch_completes_once_witness :
    in_bounds cfg4 ext_req 17 8 cfg4.IOCTL_ADD_MODULE two4 ∧
    ∃ s1 out1 status, bareflankEvtIoDeviceControl cfg4 ext_req 17 8
        cfg4.IOCTL_ADD_MODULE two4 = some (s1, out1) ∧
      completions (s1.trace.drop two4.trace.length) = [status] ∧
      s1.trace.getLast? = some (Event.WdfRequestComplete status) :=
  ⟨⟨by decide, fun _ => ⟨by decide, by simp [req_in, req_in_size, ext_req, ext_ok]⟩,
      fun h => absurd h (by decide), fun h => absurd h (by decide),
      fun h => absurd h (by decide)⟩,
    dispatch_completes_once cfg4 ext_req 17 8 cfg4.IOCTL_ADD_MODULE two4
      ⟨by decide, fun _ => ⟨by decide, by simp [req_in, req_in_size, ext_req, ext_ok]⟩,
        fun h => absurd h (by decide), fun h => absurd h (by decide),
        fun h => absurd h (by decide)⟩⟩

/-- C20: when the code is one of the eight case labels and every retrieval that
is attempted succeeds, a dispatch that returns has reported, if
`OutputBufferLength != 0`, exactly one byte count, and it is the size the
output retrieval reported, whichever operation ran and whatever status it
returned; if `OutputBufferLength == 0` it has reported no byte count.  The
dispatch does return, with that report, whenever its memory accesses are in
bounds. -/
theorem dispatch_byte_count (cfg : Config) (e : Ext)
    (OutputBufferLength InputBufferLength IoControlCode : Nat) (s : State)
    (hcode : IoControlCode ∈ cfg.codes)
    (hin : InputBufferLength = 0 ∨ NT_SUCCESS e.input.status = true)
    (hout : OutputBufferLength = 0 ∨ NT_SUCCESS e.output.status = true) :
    (∀ s1 out1, bareflankEvtIoDeviceControl cfg e OutputBufferLength InputBufferLength
        IoControlCode s = some (s1, out1) →
      byte_counts (s1.trace.drop s.trace.length) =
        if OutputBufferLength ≠ 0 then [e.output.size] else []) ∧
    (in_bounds cfg e OutputBufferLength InputBufferLength IoControlCode s →
      ∃ s1 out1, bareflankEvtIoDeviceControl cfg e OutputBufferLength InputBufferLength
          IoControlCode s = some (s1, out1) ∧
        byte_counts (s1.trace.drop s.trace.length) =
          if OutputBufferLength ≠ 0 then [e.output.size] else []) := by
  have hnf := not_retrieval_fails e OutputBufferLength InputBufferLength hin hout
  have key : ∀ s1 out1, bareflankEvtIoDeviceControl cfg e OutputBufferLength
      InputBufferLength IoControlCode s = some (s1, out1) →
      byte_counts (s1.trace.drop s.trace.length) =
        if OutputBufferLength ≠ 0 then [e.output.size] else [] := by
    intro s1 out1 h
    rcases dispatch_trace cfg e _ _ _ s s1 out1 h with
      ⟨hfail, -⟩ | ⟨-, -, ret, evs, -, hevs, htr⟩
    · rcases hfail with hf | hc
      · exact absurd hf hnf
      · exact absurd hcode hc
    · rw [htr]
      simp only [List.append_assoc]
      rw [drop_append_self, byte_counts_append, byte_counts_retrievals, byte_counts_append,
        byte_counts_of_operation evs hevs, byte_counts_append]
      split <;> rfl
  refine ⟨key, ?_⟩
  intro hb
  obtain ⟨⟨s1, out1⟩, h⟩ := dispatch_defined cfg e _ _ _ s hb
  exact ⟨s1, out1, h, key s1 out1 h⟩

/-- Witness for C20: LoadVmm, a command without output, dispatched with a
17-byte output buffer while the Core API load fails, reports 17 bytes. -/
theorem dispatch_byte_count_witness :
    (cfg4.IOCTL_LOAD_VMM ∈ cfg4.codes ∧
      ((0 : Nat) = 0 ∨
        NT_SUCCESS (ext_core_fails 0 none (some (List.replicate 17 1))).input.status = true) ∧
      ((17 : Nat) = 0 ∨
        NT_SUCCESS (ext_core_fails 0 none (some (List.replicate 17 1))).output.status = true) ∧
      in_bounds cfg4 (ext_core_fails 0 none (some (List.replicate 17 1))) 17 0
        cfg4.IOCTL_LOAD_VMM two4) ∧
    ∃ s1 out1, bareflankEvtIoDeviceControl cfg4
        (ext_core_fails 0 none (some (List.replicate 17 1))) 17 0 cfg4.IOCTL_LOAD_VMM two4 =
          some (s1, out1) ∧
      byte_counts (s1.trace.drop two4.trace.length) =
        if (17 : Nat) ≠ 0 then
          [(ext_core_fails 0 none (some (List.replicate 17 1))).output.size]
        else [] :=
  ⟨⟨by decide, by decide, by decide, by decide, fun h => absurd h (by decide),
      fun h => absurd h (by decide), fun h => absurd h (by decide),
      fun h => absurd h (by decide)⟩,
    (dispatch_byte_count cfg4 (ext_core_fails 0 none (some (List.replicate 17 1))) 17 0
      cfg4.IOCTL_LOAD_VMM two4 (by decide) (by decide) (by decide)).2
      ⟨by decide, fun h => absurd h (by decide), fun h => absurd h (by decide),
        fun h => absurd h (by decide), fun h => absurd h (by decide)⟩⟩

/-! ## The registry invariant -/

theorem region_eq_none_iff (s : State) (a : Nat) :
    region s a = none ↔ ∀ r ∈ s.heap, r.1 ≠ a := by
  simp [region, List.find?_eq_none]

theorem registry_invariant_congr (cfg : Config) (s t : State)
    (hn : t.g_num_pmodules = s.g_num_pmodules) (hp : t.pmodules = s.pmodules)
    (hh : t.heap = s.heap) (h : registry_invariant cfg s) : registry_invariant cfg t := by
  unfold registry_invariant is_registry region at *
  rw [hn, hp, hh]
  exact h

theorem registry_invariant_init (cfg : Config) : registry_invariant cfg (init cfg) := by
  refine ⟨⟨by simp [init], le_refl _, by simp [init]⟩, ?_, ?_, ?_, ?_⟩
  · simp [init]
  · simp [init]
  · intro m hm
    simp only [init, Int.toNat_zero, List.drop_zero] at hm
    exact List.eq_of_mem_replicate hm
  · simp [init]

theorem registry_invariant_unload (cfg : Config) (e : Ext) (s : State) (ret : Int) (s1 : State)
    (hinv : registry_invariant cfg s) (h : ioctl_unload_vmm cfg e s = some (ret, s1)) :
    registry_invariant cfg s1 := by
  obtain ⟨hreg, -, -, -, hheap⟩ := hinv
  rw [ioctl_unload_vmm_eq cfg e s hreg] at h
  simp only [Option.some.injEq, Prod.mk.injEq] at h
  obtain ⟨-, rfl⟩ := h
  refine ⟨⟨by simp, le_refl _, by simp⟩, ?_, ?_, ?_, ?_⟩
  · simp
  · simp
  · intro m hm
    simp only [Int.toNat_zero, List.drop_zero] at hm
    exact List.eq_of_mem_replicate hm
  · intro r hr
    simp only [List.mem_filter, decide_eq_true_eq] at hr
    exact absurd (hheap r hr.1) hr.2

theorem filter_fresh (h : List (Nat × List Nat)) (a : Nat) (hf : ∀ r ∈ h, r.1 ≠ a) :
    h.filter (fun r => decide (r.1 ≠ a)) = h := by
  rw [List.filter_eq_self]
  intro r hr
  simpa using hf r hr

theorem registry_invariant_add (cfg : Config) (e : Ext) (file : Option (List Nat)) (len : Int)
    (s : State) (ret : Int) (s1 : State)
    (hinv : registry_invariant cfg s) (hfresh : allocator_fresh e s)
    (h : ioctl_add_module cfg e file len s = some (ret, s1)) :
    registry_invariant cfg s1 := by
  rcases ioctl_add_module_cases cfg e file len s ret s1 h with
    ⟨-, -, rfl⟩ | ⟨-, -, -, rfl⟩ | ⟨-, ha, -, -, rfl⟩ | ⟨hlt, ha, -, -, h0, hidx, copied, rfl⟩
  · exact registry_invariant_congr cfg s _ rfl rfl rfl hinv
  · exact registry_invariant_congr cfg s _ rfl rfl rfl hinv
  · have hnone : ∀ r ∈ s.heap, r.1 ≠ e.platform_alloc_rwe :=
      (region_eq_none_iff s _).mp (hfresh.resolve_left ha)
    exact registry_invariant_congr cfg s _ rfl rfl (filter_fresh _ _ hnone) hinv
  · have hnone : ∀ r ∈ s.heap, r.1 ≠ e.platform_alloc_rwe :=
      (region_eq_none_iff s _).mp (hfresh.resolve_left ha)
    obtain ⟨⟨hlen, -, hle⟩, hrec, hnodup, hzero, hheap⟩ := hinv
    have hnotin : e.platform_alloc_rwe ∉
        (s.pmodules.take s.g_num_pmodules.toNat).map pmodule_t.data := by
      intro hmem
      obtain ⟨m, hm, hmd⟩ := List.mem_map.mp hmem
      have hr := (hrec m hm).2
      rw [hmd] at hr
      exact hr (hfresh.resolve_left ha)
    have hcount : (s.g_num_pmodules + 1).toNat = s.g_num_pmodules.toNat + 1 := by omega
    have htake : (s.pmodules.set s.g_num_pmodules.toNat
          { data := e.platform_alloc_rwe, size := len }).take (s.g_num_pmodules.toNat + 1) =
        s.pmodules.take s.g_num_pmodules.toNat ++
          [{ data := e.platform_alloc_rwe, size := len }] := take_succ_set _ _ _ hidx
    refine ⟨⟨by simp [hlen], by simp; omega, by simp; omega⟩, ?_, ?_, ?_, ?_⟩
    · intro m hm
      simp only [hcount, htake, List.mem_append, List.mem_singleton] at hm
      rcases hm with hm | rfl
      · refine ⟨(hrec m hm).1, ?_⟩
        have hne : m.data ≠ e.platform_alloc_rwe := by
          intro heq
          exact hnotin (heq ▸ List.mem_map_of_mem _ hm)
        have := (hrec m hm).2
        simp only [region, filter_fresh _ _ hnone, List.find?_cons, ne_eq] at this ⊢
        rw [show decide (e.platform_alloc_rwe = m.data) = false from
          decide_eq_false (Ne.symm hne)]
        exact this
      · exact ⟨ha, by simp [region]⟩
    · simp only [hcount, htake, List.map_append, List.map_cons, List.map_nil]
      exact List.Nodup.append hnodup (List.nodup_singleton _)
        (by simpa using hnotin)
    · intro m hm
      simp only [hcount] at hm
      rw [List.drop_set_of_lt _ _ (by omega)] at hm
      apply hzero m
      have : s.pmodules.drop (s.g_num_pmodules.toNat + 1) =
          (s.pmodules.drop s.g_num_pmodules.toNat).drop 1 := by
        rw [List.drop_drop]
      rw [this] at hm
      exact List.mem_of_mem_drop hm
    · intro r hr
      simp only [hcount, htake, List.map_append, List.map_cons, List.map_nil, List.mem_append,
        List.mem_singleton]
      simp only [filter_fresh _ _ hnone, List.mem_cons] at hr
      rcases hr with rfl | hr
      · exact Or.inr rfl
      · exact Or.inl (hheap r hr)

theorem registry_invariant_load (cfg : Config) (e : Ext) (s : State) (ret : Int) (s1 : State)
    (hinv : registry_invariant cfg s) (h : ioctl_load_vmm cfg e s = some (ret, s1)) :
    registry_invariant cfg s1 := by
  unfold ioctl_load_vmm at h
  by_cases hload : e.common_load_vmm = cfg.BF_SUCCESS
  · simp only [hload, ne_eq, not_true_eq_false, if_false, Option.some.injEq,
      Prod.mk.injEq] at h
    obtain ⟨-, rfl⟩ := h
    exact registry_invariant_congr cfg s _ rfl rfl rfl hinv
  · simp only [hload, ne_eq, not_false_eq_true, if_true, Option.bind_eq_bind,
      Option.bind_eq_some] at h
    obtain ⟨⟨ret2, s2⟩, hu, h⟩ := h
    simp only [Option.some.injEq, Prod.mk.injEq] at h
    obtain ⟨-, rfl⟩ := h
    exact registry_invariant_unload cfg e
      (ALERT "IOCTL_LOAD_VMM: failed to load vmm: %d\n" [e.common_load_vmm]
        (emit (Event.common_load_vmm e.common_load_vmm) s)) ret2 s2
      (registry_invariant_congr cfg s _ rfl rfl rfl hinv) hu

theorem registry_invariant_operation (cfg : Config) (e : Ext) (IoControlCode : Nat)
    (in_buf : Option (List Nat)) (in_size : Nat) (out : Option (List Nat)) (s : State)
    (ret : Int) (s2 : State) (out2 : Option (List Nat))
    (hinv : registry_invariant cfg s) (hfresh : allocator_fresh e s)
    (h : dispatch_operation cfg e IoControlCode in_buf in_size out s =
      some (some (ret, s2, out2))) :
    registry_invariant cfg s2 := by
  unfold dispatch_operation at h
  split at h
  · simp only [Option.map_eq_some', Option.some.injEq, Prod.mk.injEq] at h
    obtain ⟨⟨r1, r2⟩, hop, -, rfl, -⟩ := h
    exact registry_invariant_add cfg e _ _ s _ _ hinv hfresh hop
  split at h
  · simp only [Option.map_eq_some', Option.some.injEq, Prod.mk.injEq] at h
    obtain ⟨⟨r1, r2⟩, hop, -, rfl, -⟩ := h
    exact registry_invariant_load cfg e s _ _ hinv hop
  split at h
  · simp only [Option.map_eq_some', Option.some.injEq, Prod.mk.injEq] at h
    obtain ⟨⟨r1, r2⟩, hop, -, rfl, -⟩ := h
    exact registry_invariant_unload cfg e s _ _ hinv hop
  split at h
  · simp only [Option.some.injEq, Prod.mk.injEq] at h
    obtain ⟨-, rfl, -⟩ := h
    obtain ⟨-, -, hn, hp, hh⟩ := ioctl_start_vmm_frame cfg e s
    exact registry_invariant_congr cfg s _ hn hp hh hinv
  split at h
  · simp only [Option.some.injEq, Prod.mk.injEq] at h
    obtain ⟨-, rfl, -⟩ := h
    obtain ⟨-, -, hn, hp, hh⟩ := ioctl_stop_vmm_frame cfg e s
    exact registry_invariant_congr cfg s _ hn hp hh hinv
  split at h
  · simp only [Option.map_eq_some', Option.some.injEq] at h
    obtain ⟨⟨r1, r2, r3⟩, hop, h⟩ := h
    simp only [Prod.mk.injEq] at h
    obtain ⟨-, rfl, -⟩ := h
    obtain ⟨-, -, hn, hp, hh⟩ := ioctl_dump_vmm_frame cfg e out s _ _ _ hop
    exact registry_invariant_congr cfg s _ hn hp hh hinv
  split at h
  · split at h
    · simp only [Option.some.injEq, Prod.mk.injEq] at h
      obtain ⟨-, rfl, -⟩ := h
      obtain ⟨-, -, hn, hp, hh⟩ := ioctl_vmm_status_frame cfg e none s
      exact registry_invariant_congr cfg s _ hn hp hh hinv
    · split at h
      · simp only [Option.some.injEq, Prod.mk.injEq] at h
        obtain ⟨-, rfl, -⟩ := h
        obtain ⟨-, -, hn, hp, hh⟩ := ioctl_vmm_status_frame cfg e _ s
        exact registry_invariant_congr cfg s _ hn hp hh hinv
      · exact absurd h (by simp)
  split at h
  · split at h
    · simp only [Option.some.injEq, Prod.mk.injEq] at h
      obtain ⟨-, rfl, -⟩ := h
      obtain ⟨-, -, hn, hp, hh⟩ := ioctl_set_vcpuid_frame cfg none s
      exact registry_invariant_congr cfg s _ hn hp hh hinv
    · split at h
      · simp only [Option.some.injEq, Prod.mk.injEq] at h
        obtain ⟨-, rfl, -⟩ := h
        obtain ⟨-, -, hn, hp, hh⟩ := ioctl_set_vcpuid_frame cfg _ s
        exact registry_invariant_congr cfg s _ hn hp hh hinv
      · exact absurd h (by simp)
  · exact absurd h (by simp)

theorem registry_invariant_dispatch (cfg : Config) (e : Ext)
    (OutputBufferLength InputBufferLength IoControlCode : Nat) (s s1 : State)
    (out1 : Option (List Nat))
    (hinv : registry_invariant cfg s) (hfresh : allocator_fresh e s)
    (h : bareflankEvtIoDeviceControl cfg e OutputBufferLength InputBufferLength
      IoControlCode s = some (s1, out1)) :
    registry_invariant cfg s1 := by
  rw [dispatch_eq] at h
  have hinv1 : registry_invariant cfg (retrieved e OutputBufferLength InputBufferLength s) :=
    registry_invariant_congr cfg s _ rfl rfl rfl hinv
  by_cases hf : retrieval_fails e OutputBufferLength InputBufferLength
  · rw [if_pos hf] at h
    simp only [FAIL_IOCTL, Option.some.injEq, Prod.mk.injEq] at h
    obtain ⟨rfl, -⟩ := h
    exact registry_invariant_congr cfg _ _ rfl rfl rfl hinv1
  · rw [if_neg hf] at h
    simp only [Option.bind_eq_some] at h
    obtain ⟨r, hop, h⟩ := h
    cases r with
    | none =>
      simp only [FAIL_IOCTL, Option.some.injEq, Prod.mk.injEq] at h
      obtain ⟨rfl, -⟩ := h
      exact registry_invariant_congr cfg _ _ rfl rfl rfl hinv1
    | some r =>
      obtain ⟨ret, s2, out2⟩ := r
      simp only [complete_eq, Option.some.injEq] at h
      have hinv2 := registry_invariant_operation cfg e _ _ _ _ _ ret s2 out2 hinv1 hfresh hop
      have h1 : s1 = (completed e OutputBufferLength (completion_status ret) s2 out2).1 := by
        rw [h]
      rw [h1]
      exact registry_invariant_congr cfg s2 _ rfl rfl rfl hinv2

/-- C13: every state reachable from the initial state by dispatched commands,
with any buffer configuration, any command code and any external results
within the allocator contract, satisfies the registry invariant: the count is
between 0 and `MAX_NUM_MODULES`; every record below the count holds a non-null
buffer that is currently allocated and that no other record holds; every slot
from the count on is zeroed; and no region is allocated that the registry does
not hold. -/
theorem reachable_registry_invariant (cfg : Config) (s : State) (h : Reachable cfg s) :
    registry_invariant cfg s := by
  induction h with
  | init => exact registry_invariant_init cfg
  | step s s1 e OutputBufferLength InputBufferLength IoControlCode out1 _ hfresh hstep ih =>
    exact registry_invariant_dispatch cfg e _ _ _ s s1 out1 ih hfresh hstep

/-- Witness for C13: the state after one AddModule request is reachable and
satisfies the invariant. -/
theorem reachable_registry_invariant_witness :
    Reachable cfg4 after_add4 ∧ registry_invariant cfg4 after_add4 :=
  ⟨Reachable.step (init cfg4) after_add4 ext_req 17 8 cfg4.IOCTL_ADD_MODULE
      (some (List.replicate 17 1)) Reachable.init (Or.inr (by decide)) (by decide),
    reachable_registry_invariant cfg4 after_add4
      (Reachable.step (init cfg4) after_add4 ext_req 17 8 cfg4.IOCTL_ADD_MODULE
        (some (List.replicate 17 1)) Reachable.init (Or.inr (by decide)) (by decide))⟩

end Bareflank
